import Mathlib

/-!
# The xmltv grabber of tvheadend (`src/epggrab/module/xmltv.c`)

A shallow embedding of the parsing code of the xmltv grabber: the timestamp
scanner, the episode numbering parsers, and the channel / programme pipeline
that merges a parsed document into the guide database.

C strings are lists of characters (the terminating NUL is the end of the
list).  C `int` values are integers, wrapped to 32 bits where a conversion can
leave the range; `uint16_t` fields are naturals reduced modulo 65536;
`time_t` is a 64-bit count of seconds and is modelled by an integer.  An `int`
that the source uses as a truth value (the `save` flags and the results of the
parse functions) is a boolean, `false` standing for 0.  A function that can
reach a division by zero returns an `Option`, `none` standing for the trap.

The guide database, the feed-channel store and the document tree are code
outside this source file; their operations are modelled from the
specification and marked as such.
-/

namespace Xmltv

/-! ## Characters and the C library scanner -/

/-- The C `isspace` test in the "C" locale: space, `\t`, `\n`, `\v`, `\f`, `\r`. -/
def isspace (c : Char) : Bool :=
  c.toNat = 32 || (9 ≤ c.toNat && c.toNat ≤ 13)

/-- The C `isdigit` test, written in the source as `*s >= '0' && *s <= '9'`. -/
def isdigit (c : Char) : Bool :=
  48 ≤ c.toNat && c.toNat ≤ 57

/-- Value of a digit character, `*s - '0'`. -/
def digit_val (c : Char) : Int :=
  (c.toNat : Int) - 48

/-- Conversion of an integer to a C `int` (two's complement, 32 bits). -/
def wrap32 (z : Int) : Int :=
  (z + 2147483648) % 4294967296 - 2147483648

/-- Conversion of an integer to a `uint16_t`. -/
def to_u16 (z : Int) : Nat :=
  (z % 65536).toNat

/-- Leading white space is skipped by every numeric conversion of `sscanf`. -/
def skip_space : List Char → List Char
  | [] => []
  | c :: cs => if isspace c then skip_space cs else c :: cs

/-- The digits of one numeric conversion: at most `w` characters when a field
width is given, every following digit otherwise.  Returns the accumulated
value and the unread input. -/
def scan_digits : Option Nat → Int → List Char → Int × List Char
  | _, acc, [] => (acc, [])
  | w, acc, c :: cs =>
    if w = some 0 then (acc, c :: cs)
    else if isdigit c then scan_digits (w.map Nat.pred) (acc * 10 + digit_val c) cs
    else (acc, c :: cs)

/-- Outcome of one conversion directive of `sscanf`. -/
inductive scan_result where
  | ok (val : Int) (rest : List Char)
  | matching_failure
  | input_failure
deriving DecidableEq, Repr

/-- One signed decimal conversion of `sscanf` with an optional field width:
white space is skipped, an optional sign counts towards the width, and at
least one digit is required.  The mathematical value is returned; the caller
stores it with the conversion of the receiving type. -/
def scan_int (w : Option Nat) (s : List Char) : scan_result :=
  match skip_space s with
  | [] => .input_failure
  | c :: cs =>
    let signed : Bool := c.toNat = 45 || c.toNat = 43
    let body := if signed then cs else c :: cs
    let w1 := if signed then w.map Nat.pred else w
    match body with
    | [] => .input_failure
    | d :: _ =>
      if isdigit d && w1 ≠ some 0 then
        let r := scan_digits w1 0 body
        .ok (if c.toNat = 45 then - r.1 else r.1) r.2
      else .matching_failure

/-- Successive `int` conversions with the given field widths, stopping at the
first one that fails; the values assigned so far are returned in order. -/
def scan_fields : List (Option Nat) → List Char → List Int
  | [], _ => []
  | w :: ws, s =>
    match scan_int w s with
    | .ok v rest => wrap32 v :: scan_fields ws rest
    | _ => []

/-- The field widths of the format `"%04d%02d%02d%02d%02d%02d %d"`.  The blank
before the last directive matches any amount of white space, which the
conversion after it skips anyway. -/
def stamp_format : List (Option Nat) :=
  [some 4, some 2, some 2, some 2, some 2, some 2, none]

/-- Return value of `sscanf` on the timestamp format: the number of fields
assigned, or `EOF` (-1) when the input ends before the first conversion. -/
def sscanf_count (str : List Char) : Int :=
  match scan_fields stamp_format str with
  | [] => if scan_int (some 4) str = .input_failure then -1 else 0
  | vs => vs.length

/-! ## Broken-down time -/

/-- The fields of `struct tm` that the grabber fills in. -/
structure tm where
  tm_sec : Int
  tm_min : Int
  tm_hour : Int
  tm_mday : Int
  tm_mon : Int
  tm_year : Int
  tm_isdst : Int
deriving DecidableEq, Repr

/-- Gregorian leap year. -/
def is_leap (y : Int) : Bool :=
  (y % 4 = 0 && y % 100 ≠ 0) || y % 400 = 0

/-- Days from 1970-01-01 to the first of January of year `y`. -/
def days_before_year (y : Int) : Int :=
  365 * (y - 1970) + ((y - 1) / 4 - 492) - ((y - 1) / 100 - 19) + ((y - 1) / 400 - 4)

/-- Days of the year before the first of month `m` (0 is January). -/
def days_before_month (leap : Bool) (m : Int) : Int :=
  let base : Int :=
    if m = 0 then 0 else if m = 1 then 31 else if m = 2 then 59
    else if m = 3 then 90 else if m = 4 then 120 else if m = 5 then 151
    else if m = 6 then 181 else if m = 7 then 212 else if m = 8 then 243
    else if m = 9 then 273 else if m = 10 then 304 else 334
  if leap && 2 ≤ m then base + 1 else base

/-- The C library function `timegm`: seconds since the epoch of a broken-down
UTC time in the proleptic Gregorian calendar.  A month outside 0..11 is
carried into the year and the remaining fields enter linearly, as the C
library normalises them. -/
def timegm (t : tm) : Int :=
  let year := t.tm_year + 1900 + t.tm_mon / 12
  let mon := t.tm_mon % 12
  let days := days_before_year year + days_before_month (is_leap year) mon + (t.tm_mday - 1)
  ((days * 24 + t.tm_hour) * 60 + t.tm_min) * 60 + t.tm_sec

/-! ## `_xmltv_str2time` -/

/-- The broken-down time after `memset`, the `sscanf` assignments and the
adjustments `tm_mon -= 1`, `tm_year -= 1900`, `tm_isdst = -1`.  Fields that
were not assigned keep the zero of `memset`. -/
def stamp_tm (vs : List Int) : tm :=
  { tm_year := vs.getD 0 0 - 1900
    tm_mon := vs.getD 1 0 - 1
    tm_mday := vs.getD 2 0
    tm_hour := vs.getD 3 0
    tm_min := vs.getD 4 0
    tm_sec := vs.getD 5 0
    tm_isdst := -1 }

/-- The source function `_xmltv_str2time`.  `mktime` is the C library's
conversion of local civil time, which depends on the time zone of the host
and is a parameter.  The offset `tz` is only meaningful (and only used) when
seven fields were assigned; it reads as 0 here otherwise. -/
def _xmltv_str2time (mktime : tm → Int) (str : List Char) : Int :=
  let vs := scan_fields stamp_format str
  let r := sscanf_count str
  let t := stamp_tm vs
  let tz := vs.getD 6 0
  let tz := wrap32 (Int.tmod tz 100 + Int.tdiv tz 100 * 60)
  if r = 6 then mktime t
  else if r = 7 then timegm t - wrap32 (tz * 60)
  else 0

/-! ## Episode numbering: `xmltv_ns` -/

/-- Modelled from the spec: the type `epg_episode_num_t`, declared outside this
source file (§3 EpisodeNumbering): six counters, which the source fills through
`uint16_t` pointers (0 is "unknown"), and the onscreen text. -/
structure epg_episode_num where
  s_num : Nat
  s_cnt : Nat
  e_num : Nat
  e_cnt : Nat
  p_num : Nat
  p_cnt : Nat
  text : Option String
deriving DecidableEq, Repr

/-- The cleared numbering of `memset(&epnum, 0, sizeof(epnum))`. -/
def epnum_zero : epg_episode_num :=
  { s_num := 0, s_cnt := 0, e_num := 0, e_cnt := 0, p_num := 0, p_cnt := 0, text := none }

/-- One step of digit accumulation: `if (a == -1) a = 0; a = a * 10 + *s - '0';`
in `int` arithmetic. -/
def ns_accum (a : Int) (c : Char) : Int :=
  wrap32 ((if a = -1 then 0 else a) * 10 + digit_val c)

/-- The second loop of `xmltv_ns_get_parse_num`, entered after the slash: it
reads the count `b` up to the end of the string or past the next period. -/
def ns_scan_count : Int → List Char → Int × List Char
  | b, [] => (b, [])
  | b, c :: cs =>
    if c = '.' then (b, cs)
    else if isdigit c then ns_scan_count (ns_accum b c) cs
    else ns_scan_count b cs

/-- The first loop of `xmltv_ns_get_parse_num`: it reads the number `a` and
stops at the end of the string, past a period, or at a slash, after which the
second loop reads the count.  Returns `(a, b, rest)`. -/
def ns_scan_num : Int → List Char → Int × Int × List Char
  | a, [] => (a, -1, [])
  | a, c :: cs =>
    if c = '.' then (a, -1, cs)
    else if c = '/' then
      let r := ns_scan_count (-1) cs
      (a, r.1, r.2)
    else if isdigit c then ns_scan_num (ns_accum a c) cs
    else ns_scan_num a cs

/-- The source function `xmltv_ns_get_parse_num`: the stored values
`*ap = a + 1`, `*bp = b + 1` (converted to `uint16_t`) and the unread input. -/
def xmltv_ns_get_parse_num (s : List Char) : Nat × Nat × List Char :=
  let r := ns_scan_num (-1) s
  (to_u16 (wrap32 (r.1 + 1)), to_u16 (wrap32 (r.2.1 + 1)), r.2.2)

/-- The source function `parse_xmltv_ns_episode`: season, episode and part are
read one after the other and stored over the six counters. -/
def parse_xmltv_ns_episode (s : List Char) (epnum : epg_episode_num) : epg_episode_num :=
  let r1 := xmltv_ns_get_parse_num s
  let r2 := xmltv_ns_get_parse_num r1.2.2
  let r3 := xmltv_ns_get_parse_num r2.2.2
  { epnum with
    s_num := r1.1, s_cnt := r1.2.1
    e_num := r2.1, e_cnt := r2.2.1
    p_num := r3.1, p_cnt := r3.2.1 }

/-! ## Episode numbering: `dd_progid` -/

/-- The NUL character that terminates a C string. -/
def nul : Char := Char.ofNat 0

/-- The memory that starts at the first character of the C string `s`: the
characters, the terminator, and the bytes `oob` that happen to follow it. -/
def c_memory (oob s : List Char) : List Char :=
  s ++ nul :: oob

/-- The read `s[i]`; an index past the terminator reads the bytes that follow
the string in memory. -/
def c_index (oob s : List Char) (i : Nat) : Char :=
  (c_memory oob s).getD i nul

/-- The C string that the pointer `s + i` designates. -/
def c_string_at (oob s : List Char) (i : Nat) : List Char :=
  ((c_memory oob s).drop i).takeWhile (fun c => c ≠ nul)

/-- The text written by `snprintf(buf, sizeof(buf)-1, "ddprogid://%s/%s", mod->id, s)`
into the 128 byte buffer: at most 126 characters are kept. -/
def dd_progid_buf (mod_id s : List Char) : List Char :=
  ("ddprogid://".toList ++ mod_id ++ '/' :: s).take 126

/-- The backward scan `while (e && s[e] != '.') e--;`. -/
def dd_progid_scan (oob s : List Char) : Nat → Nat
  | 0 => 0
  | e + 1 => if c_index oob s (e + 1) = '.' then e + 1 else dd_progid_scan oob s e

/-- The indices at which the backward scan reads `s`, in the order of the reads. -/
def dd_progid_reads (oob s : List Char) : Nat → List Nat
  | 0 => []
  | e + 1 => (e + 1) :: (if c_index oob s (e + 1) = '.' then [] else dd_progid_reads oob s e)

/-- The source function `parse_xmltv_dd_progid`.  `uri`, `suri` and `epnum`
are the values behind the three output pointers, returned updated.  `oob` is
the content of the memory behind the terminator of `s`. -/
def parse_xmltv_dd_progid (oob mod_id s : List Char)
    (uri suri : Option (List Char)) (epnum : epg_episode_num) :
    Option (List Char) × Option (List Char) × epg_episode_num :=
  if s.length < 2 then (uri, suri, epnum)
  else
    let buf := dd_progid_buf mod_id s
    let uri := if s.take 2 ≠ ['S', 'H'] then some buf else uri
    if s.take 2 = ['E', 'P'] then
      let e := dd_progid_scan oob s buf.length
      if e ≠ 0 then
        let epnum :=
          if c_index oob s (e + 1) ≠ nul then
            match scan_int none (c_string_at oob s (e + 1)) with
            | .ok v _ => { epnum with e_num := to_u16 v }
            | _ => epnum
          else epnum
        (uri, some (buf.take e), epnum)
      else (uri, suri, epnum)
    else (uri, suri, epnum)

/-! ## The document tree -/

/-- Modelled from the spec: the type `htsmsg_field_t` of the document tree,
declared outside this source file (§6): a name with a string or with a nested
message.  An element of the document is a nested message with the optional
members `attrib` (its attributes), `tags` (its children) and `cdata` (its
text), which are the names the source looks up. -/
inductive htsmsg_field where
  | str (hmf_name : String) (val : String)
  | map (hmf_name : String) (sub : List htsmsg_field)

/-- Modelled from the spec: the type `htsmsg_t` (§6), the ordered list of the
fields of a message. -/
abbrev htsmsg := List htsmsg_field

/-- The member `hmf_name` of a field. -/
def htsmsg_field.hmf_name : htsmsg_field → String
  | .str n _ => n
  | .map n _ => n

/-- Modelled from the spec: the tree lookup by name (§6, get-child-map-by-name
and get-attribute-by-name rest on it); the first field of that name. -/
def htsmsg_field_find (msg : htsmsg) (name : String) : Option htsmsg_field :=
  msg.find? (fun f => f.hmf_name = name)

/-- Modelled from the spec: the nested message of a field, absent when the
field holds a string (§6, iterate-children). -/
def htsmsg_get_map_by_field : htsmsg_field → Option htsmsg
  | .map _ sub => some sub
  | .str _ _ => none

/-- Modelled from the spec: get-child-map-by-name of §6. -/
def htsmsg_get_map (msg : htsmsg) (name : String) : Option htsmsg :=
  (htsmsg_field_find msg name).bind htsmsg_get_map_by_field

/-- Modelled from the spec: get-attribute-by-name of §6, the string held by
the first field of that name. -/
def htsmsg_get_str (msg : htsmsg) (name : String) : Option String :=
  match htsmsg_field_find msg name with
  | some (.str _ v) => some v
  | _ => none

/-- Modelled from the spec: get-character-data of §6, the `cdata` of the child
element `name`. -/
def htsmsg_xml_get_cdata_str (tags : htsmsg) (name : String) : Option String :=
  (htsmsg_get_map tags name).bind (fun sub => htsmsg_get_str sub "cdata")

/-- Modelled from the spec: get-attribute-by-name of §6 on an element, the
attribute `name` in its `attrib` member. -/
def htsmsg_xml_get_attr_str (tag : htsmsg) (name : String) : Option String :=
  (htsmsg_get_map tag "attrib").bind (fun a => htsmsg_get_str a name)

/-! ## The guide database -/

/-- Modelled from the spec: the type `lang_str_t` (§3, §4.3), a set of
language-tagged text variants, each a pair of the language attribute and the
character data. -/
abbrev lang_str := List (Option String × Option String)

/-- Modelled from the spec: the type `epg_broadcast_t` (§3 Broadcast), identified
by receivable channel, start and stop. -/
structure epg_broadcast where
  channel : Nat
  start : Int
  stop : Int
  description : Option lang_str
  is_hd : Bool
  is_widescreen : Bool
  aspect : Int
  lines : Int
  is_repeat : Bool
  is_new : Bool
  is_subtitled : Bool
  is_deafsigned : Bool
  is_audio_desc : Bool
  serieslink : Option Nat
  episode : Option Nat
deriving DecidableEq, Repr

/-- Modelled from the spec: the type `epg_episode_t` (§3 Episode), identified by
its URI, or owned by one broadcast when it has none. -/
structure epg_episode where
  uri : Option String
  title : Option lang_str
  subtitle : Option lang_str
  genre : List (Option String)
  epnum : epg_episode_num
  is_bw : Bool
deriving DecidableEq, Repr

/-- Modelled from the spec: the type `epg_serieslink_t` (§3 SeriesLink), identity
only. -/
structure epg_serieslink where
  uri : String
deriving DecidableEq, Repr

/-- Modelled from the spec: the guide database (§3, §6), the entities of the
three families; a broadcast refers to its episode and series link by
position. -/
structure epg_db where
  broadcasts : List epg_broadcast
  episodes : List epg_episode
  serieslinks : List epg_serieslink
deriving DecidableEq, Repr

/-- Position of the first element that satisfies `p`. -/
def find_index {α : Type} (p : α → Bool) : List α → Option Nat
  | [] => none
  | x :: xs => if p x then some 0 else (find_index p xs).map (fun i => i + 1)

/-- Modelled from the spec: a broadcast as find-or-create makes it (§4.4), with
no attribute set. -/
def epg_broadcast_new (ch : Nat) (start stop : Int) : epg_broadcast :=
  { channel := ch, start := start, stop := stop, description := none, is_hd := false,
    is_widescreen := false, aspect := 0, lines := 0, is_repeat := false, is_new := false,
    is_subtitled := false, is_deafsigned := false, is_audio_desc := false,
    serieslink := none, episode := none }

/-- Modelled from the spec: an episode as find-or-create makes it (§4.4), with
no attribute set. -/
def epg_episode_new (uri : Option String) : epg_episode :=
  { uri := uri, title := none, subtitle := none, genre := [], epnum := epnum_zero, is_bw := false }

/-- Modelled from the spec: `epg_broadcast_find_by_time` (§4.4, §6), the
find-or-create of a broadcast by (channel, start, stop).  The request is
rejected when stop ≤ start or stop is not after the processing time `now`.
Returns the broadcast, whether it was created, and the database. -/
def epg_broadcast_find_by_time (now : Int) (ch : Nat) (start stop : Int) (create : Bool)
    (db : epg_db) : Option Nat × Bool × epg_db :=
  if stop ≤ start ∨ stop ≤ now then (none, false, db)
  else
    match find_index (fun b => b.channel = ch ∧ b.start = start ∧ b.stop = stop) db.broadcasts with
    | some i => (some i, false, db)
    | none =>
      if create then
        (some db.broadcasts.length, true,
          { db with broadcasts := db.broadcasts ++ [epg_broadcast_new ch start stop] })
      else (none, false, db)

/-- Modelled from the spec: `epg_episode_find_by_uri` (§4.4, §6), the
find-or-create of an episode by its URI key. -/
def epg_episode_find_by_uri (uri : String) (create : Bool) (db : epg_db) :
    Option Nat × Bool × epg_db :=
  match find_index (fun e => e.uri = some uri) db.episodes with
  | some i => (some i, false, db)
  | none =>
    if create then
      (some db.episodes.length, true,
        { db with episodes := db.episodes ++ [epg_episode_new (some uri)] })
    else (none, false, db)

/-- Modelled from the spec: `epg_serieslink_find_by_uri` (§4.4, §6), the
find-or-create of a series link by its URI key. -/
def epg_serieslink_find_by_uri (uri : String) (create : Bool) (db : epg_db) :
    Option Nat × Bool × epg_db :=
  match find_index (fun e => e.uri = uri) db.serieslinks with
  | some i => (some i, false, db)
  | none =>
    if create then
      (some db.serieslinks.length, true,
        { db with serieslinks := db.serieslinks ++ [{ uri := uri }] })
    else (none, false, db)

/-- Modelled from the spec: an attribute setter of a broadcast (§4.3, §8
dirty propagation): storing an equal value reports no change, storing a
different one reports a change. -/
def epg_broadcast_set (db : epg_db) (ebc : Nat) (upd : epg_broadcast → epg_broadcast) :
    Bool × epg_db :=
  match db.broadcasts.get? ebc with
  | none => (false, db)
  | some b =>
    if upd b = b then (false, db)
    else (true, { db with broadcasts := db.broadcasts.set ebc (upd b) })

/-- Modelled from the spec: an attribute setter of an episode (§4.3, §8); a
null episode is left alone. -/
def epg_episode_set (db : epg_db) (ee : Option Nat) (upd : epg_episode → epg_episode) :
    Bool × epg_db :=
  match ee with
  | none => (false, db)
  | some i =>
    match db.episodes.get? i with
    | none => (false, db)
    | some e =>
      if upd e = e then (false, db)
      else (true, { db with episodes := db.episodes.set i (upd e) })

/-- Modelled from the spec: `epg_broadcast_get_episode` (§3, an episode without
URI key is owned by its broadcast): the episode of the broadcast, created and
attached when there is none and `create` is set. -/
def epg_broadcast_get_episode (db : epg_db) (ebc : Nat) (create : Bool) :
    Option Nat × Bool × epg_db :=
  match db.broadcasts.get? ebc with
  | none => (none, false, db)
  | some b =>
    match b.episode with
    | some i => (some i, false, db)
    | none =>
      if create then
        (some db.episodes.length, true,
          { db with
            episodes := db.episodes ++ [epg_episode_new none]
            broadcasts := db.broadcasts.set ebc { b with episode := some db.episodes.length } })
      else (none, false, db)

/-! ## Feed channels, statistics and the state of one run -/

/-- Modelled from the spec: the type `epggrab_channel_t` (§3 FeedChannel);
`channels` is the list of the receivable channels linked to it, which the
source walks as `ch->channels`; `number` is the channel number that the
lineup code sets, and `channel` the member that it assigns as `ec->channel`. -/
structure epggrab_channel where
  id : String
  name : Option String
  icon : Option String
  channels : List Nat
  updated : Bool
  number : Int := 0
  channel : Option Nat := none
deriving DecidableEq, Repr

/-- Modelled from the spec: one group of counters of `epggrab_stats_t` (§4.5,
seen / created / modified), with the member names the source uses. -/
structure epggrab_stats_part where
  total : Nat
  created : Nat
  modified : Nat
deriving DecidableEq, Repr

/-- Modelled from the spec: the run statistics `epggrab_stats_t` (§4.5), with the
member names the source uses. -/
structure epggrab_stats where
  channels : epggrab_stats_part
  brands : epggrab_stats_part
  seasons : epggrab_stats_part
  episodes : epggrab_stats_part
  broadcasts : epggrab_stats_part
deriving DecidableEq, Repr

/-- The counter `total++`. -/
def epggrab_stats_part.inc_total (p : epggrab_stats_part) : epggrab_stats_part :=
  { p with total := p.total + 1 }

/-- The counter `created++`, guarded by its flag. -/
def epggrab_stats_part.inc_created (p : epggrab_stats_part) (flag : Bool) : epggrab_stats_part :=
  if flag then { p with created := p.created + 1 } else p

/-- The counter `modified++`, guarded by its flag. -/
def epggrab_stats_part.inc_modified (p : epggrab_stats_part) (flag : Bool) : epggrab_stats_part :=
  if flag then { p with modified := p.modified + 1 } else p

/-- All counters at zero. -/
def epggrab_stats_zero : epggrab_stats :=
  { channels := ⟨0, 0, 0⟩, brands := ⟨0, 0, 0⟩, seasons := ⟨0, 0, 0⟩,
    episodes := ⟨0, 0, 0⟩, broadcasts := ⟨0, 0, 0⟩ }

/-- What one run reads and writes: the feed-channel index `_xmltv_channels`,
the guide database, and the statistics of the caller. -/
structure xmltv_state where
  chans : List epggrab_channel
  db : epg_db
  stats : epggrab_stats
deriving DecidableEq, Repr

/-- What one run only reads: the local-time conversion of the host, the
processing time `dispatch_clock`, the id of the module, and the bytes that lie
behind the terminator of an identifier string in memory. -/
structure xmltv_env where
  mktime : tm → Int
  dispatch_clock : Int
  mod_id : List Char
  oob : List Char

/-- Modelled from the spec: `epggrab_channel_find` on `_xmltv_channels` (§6
channel-identity store): find-by-key, or find-or-create when `create` is set.
A channel created here has no linked receivable channel yet. -/
def _xmltv_channel_find (id : String) (create : Bool) (chans : List epggrab_channel) :
    Option Nat × Bool × List epggrab_channel :=
  match find_index (fun c => c.id = id) chans with
  | some i => (some i, false, chans)
  | none =>
    if create then
      (some chans.length, true,
        chans ++ [{ id := id, name := none, icon := none, channels := [], updated := false }])
    else (none, false, chans)

/-- Modelled from the spec: a setter of the channel-identity store (§6
set-name, set-icon, mark-updated); it reports whether the stored value changed. -/
def epggrab_channel_set (chans : List epggrab_channel) (ch : Nat)
    (upd : epggrab_channel → epggrab_channel) : Bool × List epggrab_channel :=
  match chans.get? ch with
  | none => (false, chans)
  | some c => if upd c = c then (false, chans) else (true, chans.set ch (upd c))

/-! ## Metadata of a programme -/

/-- The C library function `strstr` as a test: `needle` occurs in `hay`. -/
def strstr (hay needle : List Char) : Bool :=
  match hay with
  | [] => needle.isEmpty
  | c :: cs => (needle.isPrefixOf (c :: cs)) || strstr cs needle

/-- The scan `sscanf(str, "%d:%d", &w, &h) == 2`: the two values when both
conversions succeed around a literal colon. -/
def sscanf_aspect (str : List Char) : Option (Int × Int) :=
  match scan_int none str with
  | .ok w (c :: rest) =>
    if c = ':' then
      match scan_int none rest with
      | .ok h _ => some (wrap32 w, wrap32 h)
      | _ => none
    else none
  | _ => none

/-- The values of `hd`, `lines` and `aspect` after the `quality` text. -/
def vid_quality_of (str : List Char) : Bool × Int × Int :=
  if strstr str "HD".toList then (true, 0, 0)
  else if strstr str "480".toList then (false, 480, 150)
  else if strstr str "576".toList then (false, 576, 133)
  else if strstr str "720".toList then (true, 720, 178)
  else if strstr str "1080".toList then (true, 1080, 178)
  else (false, 0, 0)

/-- The source function `parse_vid_quality`.  The result is `none` when the
division `(100 * w) / h` traps: with `h = 0`, and with `h = -1` when the
product `100 * w` is the least `int` (the quotient is then not an `int`). -/
def parse_vid_quality (db : epg_db) (ebc : Option Nat) (ee : Option Nat) (m : Option htsmsg) :
    Option (Bool × epg_db) :=
  match ebc, m with
  | some ebc, some m =>
    let r0 : Bool × epg_db :=
      match htsmsg_xml_get_cdata_str m "colour" with
      | some str => epg_episode_set db ee (fun e => { e with is_bw := decide (str = "no") })
      | none => (false, db)
    let q : Bool × Int × Int :=
      match htsmsg_xml_get_cdata_str m "quality" with
      | some str => vid_quality_of str.toList
      | none => (false, 0, 0)
    let hd := q.1
    let lines := q.2.1
    let aspect0 : Option Int :=
      match (htsmsg_xml_get_cdata_str m "aspect").bind (fun str => sscanf_aspect str.toList) with
      | some (w, h) =>
        if h = 0 ∨ (wrap32 (100 * w) = -2147483648 ∧ h = -1) then none
        else some (wrap32 (Int.tdiv (wrap32 (100 * w)) h))
      | none => some q.2.2
    match aspect0 with
    | none => none
    | some aspect =>
      let r1 := epg_broadcast_set r0.2 ebc (fun b => { b with is_hd := hd })
      let r2 : Bool × epg_db :=
        if aspect ≠ 0 then
          let a := epg_broadcast_set r1.2 ebc
            (fun b => { b with is_widescreen := hd || decide (aspect > 137) })
          let b := epg_broadcast_set a.2 ebc (fun b => { b with aspect := aspect })
          (a.1 || b.1, b.2)
        else (false, r1.2)
      let r3 : Bool × epg_db :=
        if lines ≠ 0 then epg_broadcast_set r2.2 ebc (fun b => { b with lines := lines })
        else (false, r2.2)
      some (r0.1 || r1.1 || r2.1 || r3.1, r3.2)
  | _, _ => some (false, db)

/-- One iteration of the loop of `xmltv_parse_accessibility`. -/
def xmltv_parse_accessibility_step (ebc : Nat) (acc : Bool × epg_db) (f : htsmsg_field) :
    Bool × epg_db :=
  if f.hmf_name = "subtitles" then
    match htsmsg_get_map_by_field f with
    | some tag =>
      match htsmsg_xml_get_attr_str tag "type" with
      | some str =>
        if str = "teletext" then
          let r := epg_broadcast_set acc.2 ebc (fun b => { b with is_subtitled := true })
          (acc.1 || r.1, r.2)
        else if str = "deaf-signed" then
          let r := epg_broadcast_set acc.2 ebc (fun b => { b with is_deafsigned := true })
          (acc.1 || r.1, r.2)
        else acc
      | none => acc
    | none => acc
  else if f.hmf_name = "audio-described" then
    let r := epg_broadcast_set acc.2 ebc (fun b => { b with is_audio_desc := true })
    (acc.1 || r.1, r.2)
  else acc

/-- The source function `xmltv_parse_accessibility`. -/
def xmltv_parse_accessibility (db : epg_db) (ebc : Nat) (m : htsmsg) : Bool × epg_db :=
  m.foldl (xmltv_parse_accessibility_step ebc) (false, db)

/-- The source function `_xmltv_parse_categories`: the genre list, allocated
at the first `category` element.  `epg_genre_list_add_by_str` is modelled from
the spec (§4.3): the category is appended to the list. -/
def _xmltv_parse_categories (tags : htsmsg) : Option (List (Option String)) :=
  tags.foldl
    (fun egl f =>
      if f.hmf_name = "category" then
        match htsmsg_get_map_by_field f with
        | some e => some (egl.getD [] ++ [htsmsg_get_str e "cdata"])
        | none => egl
      else egl)
    none

/-- The source function `_xmltv_parse_lang_str`: every element `tname` adds its
text and language to the set, which is created at the first one.
`lang_str_add` is modelled from the spec (§4.3): each occurrence is appended
as a language variant. -/
def _xmltv_parse_lang_str (ls : Option lang_str) (tags : htsmsg) (tname : String) :
    Option lang_str :=
  tags.foldl
    (fun ls f =>
      if f.hmf_name = tname then
        match htsmsg_get_map_by_field f with
        | some e =>
          some (ls.getD [] ++
            [((htsmsg_get_map e "attrib").bind (fun a => htsmsg_get_str a "lang"),
              htsmsg_get_str e "cdata")])
        | none => ls
      else ls)
    ls

/-- The three outputs of `get_episode_info`. -/
structure episode_info where
  uri : Option (List Char)
  suri : Option (List Char)
  epnum : epg_episode_num
deriving DecidableEq, Repr

/-- One iteration of the loop of `get_episode_info`. -/
def get_episode_info_step (env : xmltv_env) (acc : episode_info) (f : htsmsg_field) :
    episode_info :=
  match htsmsg_get_map_by_field f with
  | none => acc
  | some c =>
    if f.hmf_name ≠ "episode-num" then acc
    else
      match htsmsg_get_map c "attrib", htsmsg_get_str c "cdata" with
      | some a, some cdata =>
        match htsmsg_get_str a "system" with
        | none => acc
        | some sys =>
          if sys = "onscreen" then
            { acc with epnum := { acc.epnum with text := some cdata } }
          else if sys = "xmltv_ns" then
            { acc with epnum := parse_xmltv_ns_episode cdata.toList acc.epnum }
          else if sys = "dd_progid" then
            let r := parse_xmltv_dd_progid env.oob env.mod_id cdata.toList acc.uri acc.suri acc.epnum
            { uri := r.1, suri := r.2.1, epnum := r.2.2 }
          else acc
      | _, _ => acc

/-- The source function `get_episode_info`. -/
def get_episode_info (env : xmltv_env) (tags : htsmsg) (init : episode_info) : episode_info :=
  tags.foldl (get_episode_info_step env) init

/-! ## Programmes, channels and the walk over a `tv` document -/

/-- The series-link part of `_xmltv_parse_programme_tags`, run when
`get_episode_info` produced a series key: `(save, save2, db, stats)`. -/
def programme_serieslink (suri : Option (List Char)) (ebc : Nat) (save : Bool)
    (db : epg_db) (stats : epggrab_stats) : Bool × Bool × epg_db × epggrab_stats :=
  match suri with
  | none => (save, false, db, stats)
  | some suri =>
    let r := epg_serieslink_find_by_uri (String.mk suri) true db
    let save2 := r.2.1
    let stats := if r.1.isSome then { stats with seasons := stats.seasons.inc_total } else stats
    let stats := { stats with seasons := stats.seasons.inc_created save2 }
    match r.1 with
    | some es =>
      let w := epg_broadcast_set r.2.2 ebc (fun b => { b with serieslink := some es })
      (save || w.1, save2, w.2, stats)
    | none => (save, save2, r.2.2, stats)

/-- The episode resolution of `_xmltv_parse_programme_tags`: by URI key when
`get_episode_info` produced one, otherwise the episode of the broadcast.  The
creation flag is or-ed into `save3`, which already holds the report of the
description setter: `(ee, save, save3, db)`. -/
def programme_episode (uri : Option (List Char)) (ebc : Nat) (save save3 : Bool)
    (db : epg_db) : Option Nat × Bool × Bool × epg_db :=
  match uri with
  | some uri =>
    let r := epg_episode_find_by_uri (String.mk uri) true db
    match r.1 with
    | some ee =>
      let w := epg_broadcast_set r.2.2 ebc (fun b => { b with episode := some ee })
      (some ee, save || w.1, save3 || r.2.1, w.2)
    | none => (none, save, save3 || r.2.1, r.2.2)
  | none =>
    let r := epg_broadcast_get_episode db ebc true
    (r.1, save, save3 || r.2.1, r.2.2)

/-- The setters of `_xmltv_parse_programme_tags` on a resolved episode: title,
sub-title, genre list and numbering: `(save3, db)`. -/
def programme_episode_attrs (tags : htsmsg) (epnum : epg_episode_num) (ee : Nat)
    (save3 : Bool) (db : epg_db) : Bool × epg_db :=
  let title := _xmltv_parse_lang_str none tags "title"
  let subtitle := _xmltv_parse_lang_str none tags "sub-title"
  let r1 : Bool × epg_db :=
    match title with
    | some t => epg_episode_set db (some ee) (fun e => { e with title := some t })
    | none => (false, db)
  let r2 : Bool × epg_db :=
    match subtitle with
    | some t => epg_episode_set r1.2 (some ee) (fun e => { e with subtitle := some t })
    | none => (false, r1.2)
  let r3 : Bool × epg_db :=
    match _xmltv_parse_categories tags with
    | some egl => epg_episode_set r2.2 (some ee) (fun e => { e with genre := egl })
    | none => (false, r2.2)
  let r4 := epg_episode_set r3.2 (some ee) (fun e => { e with epnum := epnum })
  (save3 || r1.1 || r2.1 || r3.1 || r4.1, r4.2)

/-- The source function `_xmltv_parse_programme_tags` for one receivable
channel `ch`.  The result is `none` when `parse_vid_quality` divides by zero. -/
def _xmltv_parse_programme_tags (env : xmltv_env) (ch : Nat) (tags : htsmsg)
    (start stop : Int) (st : xmltv_state) : Option (Bool × xmltv_state) :=
  let f := epg_broadcast_find_by_time env.dispatch_clock ch start stop true st.db
  match f.1 with
  | none => some (false, st)
  | some ebc =>
    let save := f.2.1
    let stats := { st.stats with broadcasts := st.stats.broadcasts.inc_total }
    let stats := { stats with broadcasts := stats.broadcasts.inc_created save }
    let d : Bool × epg_db :=
      match _xmltv_parse_lang_str none tags "desc" with
      | some desc => epg_broadcast_set f.2.2 ebc (fun b => { b with description := some desc })
      | none => (false, f.2.2)
    let save3 := d.1
    match parse_vid_quality d.2 (some ebc) none (htsmsg_get_map tags "video") with
    | none => none
    | some q =>
      let save := save || q.1
      let a := xmltv_parse_accessibility q.2 ebc tags
      let save := save || a.1
      let m : Bool × epg_db :=
        if (htsmsg_get_map tags "previously-shown").isSome then
          epg_broadcast_set a.2 ebc (fun b => { b with is_repeat := true })
        else if (htsmsg_get_map tags "premiere").isSome ∨ (htsmsg_get_map tags "new").isSome then
          epg_broadcast_set a.2 ebc (fun b => { b with is_new := true })
        else (false, a.2)
      let save := save || m.1
      let info := get_episode_info env tags { uri := none, suri := none, epnum := epnum_zero }
      let s := programme_serieslink info.suri ebc save m.2 stats
      let save := s.1
      let save2 := s.2.1
      let e := programme_episode info.uri ebc save save3 s.2.2.1
      let save := e.2.1
      let save3 := e.2.2.1
      let stats := s.2.2.2
      let stats := if e.1.isSome then { stats with episodes := stats.episodes.inc_total } else stats
      let stats := { stats with episodes := stats.episodes.inc_created save3 }
      let t : Bool × epg_db :=
        match e.1 with
        | some ee => programme_episode_attrs tags info.epnum ee save3 e.2.2.2
        | none => (save3, e.2.2.2)
      let save3 := t.1
      let stats := { stats with broadcasts := stats.broadcasts.inc_modified save }
      let stats := { stats with seasons := stats.seasons.inc_modified save2 }
      let stats := { stats with episodes := stats.episodes.inc_modified save3 }
      some (save || save2 || save3, { st with db := t.2, stats := stats })

/-- The loop `LIST_FOREACH(ecl, &ch->channels, link)` of `_xmltv_parse_programme`. -/
def programme_foreach (env : xmltv_env) (tags : htsmsg) (start stop : Int) :
    List Nat → Bool → xmltv_state → Option (Bool × xmltv_state)
  | [], save, st => some (save, st)
  | ch :: rest, save, st =>
    match _xmltv_parse_programme_tags env ch tags start stop st with
    | none => none
    | some r => programme_foreach env tags start stop rest (save || r.1) r.2

/-- The source function `_xmltv_parse_programme`; `false` is the return value 0. -/
def _xmltv_parse_programme (env : xmltv_env) (body : Option htsmsg) (st : xmltv_state) :
    Option (Bool × xmltv_state) :=
  match body with
  | none => some (false, st)
  | some body =>
    match htsmsg_get_map body "attrib", htsmsg_get_map body "tags" with
    | some attribs, some tags =>
      match htsmsg_get_str attribs "channel" with
      | none => some (false, st)
      | some chid =>
        match (_xmltv_channel_find chid false st.chans).1 with
        | none => some (false, st)
        | some ch =>
          let links := ((st.chans.get? ch).map (fun c => c.channels)).getD []
          if links.isEmpty then some (false, st)
          else
            match htsmsg_get_str attribs "start", htsmsg_get_str attribs "stop" with
            | some s1, some s2 =>
              let start := _xmltv_str2time env.mktime s1.toList
              let stop := _xmltv_str2time env.mktime s2.toList
              if stop ≤ start ∨ stop ≤ env.dispatch_clock then some (false, st)
              else programme_foreach env tags start stop links false st
            | _, _ => some (false, st)
    | _, _ => some (false, st)

/-- The source function `_xmltv_parse_channel`. -/
def _xmltv_parse_channel (body : Option htsmsg) (st : xmltv_state) : Bool × xmltv_state :=
  match body with
  | none => (false, st)
  | some body =>
    match htsmsg_get_map body "attrib" with
    | none => (false, st)
    | some attribs =>
      match htsmsg_get_str attribs "id", htsmsg_get_map body "tags" with
      | some id, some tags =>
        let f := _xmltv_channel_find id true st.chans
        match f.1 with
        | none => (false, st)
        | some ch =>
          let save := f.2.1
          let stats := { st.stats with channels := st.stats.channels.inc_total }
          let stats := { stats with channels := stats.channels.inc_created save }
          let n : Bool × List epggrab_channel :=
            match htsmsg_xml_get_cdata_str tags "display-name" with
            | some name => epggrab_channel_set f.2.2 ch (fun c => { c with name := some name })
            | none => (false, f.2.2)
          let i : Bool × List epggrab_channel :=
            match ((htsmsg_get_map tags "icon").bind (fun t => htsmsg_get_map t "attrib")).bind
                (fun a => htsmsg_get_str a "src") with
            | some icon => epggrab_channel_set n.2 ch (fun c => { c with icon := some icon })
            | none => (false, n.2)
          let save := save || n.1 || i.1
          let chans := if save then (epggrab_channel_set i.2 ch (fun c => { c with updated := true })).2
            else i.2
          let stats := { stats with channels := stats.channels.inc_modified save }
          (save, { st with chans := chans, stats := stats })
      | _, _ => (false, st)

/-- The loop of `_xmltv_parse_tv` over the children of the `tv` element. -/
def parse_tv_foreach (env : xmltv_env) : List htsmsg_field → Bool → xmltv_state →
    Option (Bool × xmltv_state)
  | [], save, st => some (save, st)
  | f :: rest, save, st =>
    if f.hmf_name = "channel" then
      let r := _xmltv_parse_channel (htsmsg_get_map_by_field f) st
      parse_tv_foreach env rest (save || r.1) r.2
    else if f.hmf_name = "programme" then
      match _xmltv_parse_programme env (htsmsg_get_map_by_field f) st with
      | none => none
      | some r => parse_tv_foreach env rest (save || r.1) r.2
    else parse_tv_foreach env rest save st

/-- The source function `_xmltv_parse_tv`. -/
def _xmltv_parse_tv (env : xmltv_env) (body : htsmsg) (st : xmltv_state) :
    Option (Bool × xmltv_state) :=
  match htsmsg_get_map body "tags" with
  | none => some (false, st)
  | some tags => parse_tv_foreach env tags false st


/-! ## Lineups: the channel and service registries -/

/-- Modelled from the spec: a local channel, `channel_t` (§6 receivable-channel
lookup): its id, display name, number and icon. -/
structure channel where
  ch_id : Nat
  ch_name : String
  ch_number : Int
  ch_icon : Option String
deriving DecidableEq, Repr

/-- Modelled from the spec: a receivable service, `service_t` (§6
receivable-service lookup): whether it is enabled, its service id, the local
channel it is mapped to, and whether it is the primary guide source of that
channel (`service_is_primary_epg`). -/
structure service where
  s_enabled : Bool
  s_dvb_service_id : Nat
  s_ch : Option Nat
  primary_epg : Bool
deriving DecidableEq, Repr

/-- A lookup that the lineup code performs: `channel_find_by_name` with a
name, or `_xmltv_find_service` with a service id. -/
inductive lineup_lookup where
  | by_name (name : Option String)
  | by_service (sid : Int)
deriving DecidableEq, Repr

/-- What a lineup run reads and writes: the local channels, the feed-channel
index `_xmltv_channels`, and the record of the lookups performed so far. -/
structure lineup_state where
  channels : List channel
  chans : List epggrab_channel
  lookups : List lineup_lookup
deriving DecidableEq, Repr

/-- What a lineup run only reads: the id of the module, the three update
toggles `epggrab_channel_renumber`, `epggrab_channel_rename` and
`epggrab_channel_reicon`, and the services of the muxes of the adapters
`dvb_adapters`. -/
structure lineup_env where
  mod_id : List Char
  renumber : Bool
  rename : Bool
  reicon : Bool
  dvb_adapters : List (List (List service))

/-- The C library function `atoi`: the leading integer of a string, 0 when
there is none. -/
def atoi (s : List Char) : Int :=
  match scan_int none s with
  | .ok v _ => wrap32 v
  | _ => 0

/-- The decimal text that `%d` prints. -/
def int_to_dec (z : Int) : List Char :=
  if z < 0 then '-' :: Nat.toDigits 10 z.natAbs else Nat.toDigits 10 z.toNat

/-- The source function `_xmltv_find_service`: the first enabled service with
the service id `sid`, over the adapters, their muxes and their services. -/
def _xmltv_find_service (adapters : List (List (List service))) (sid : Int) : Option service :=
  adapters.findSome? (fun tda =>
    tda.findSome? (fun tdmi =>
      tdmi.find? (fun t => t.s_enabled && decide ((t.s_dvb_service_id : Int) = sid))))

/-- The source function `_xmltv_find_epggrab_channel`: the feed channel with
the id `<module id>-<cid>`.  The id is printed into a buffer of 32 bytes; the
result is `none` when it does not fit, where the C program has no defined
behaviour. -/
def _xmltv_find_epggrab_channel (mod_id : List Char) (cid : Int) (create : Bool)
    (chans : List epggrab_channel) : Option (Option Nat × Bool × List epggrab_channel) :=
  let chid := mod_id ++ '-' :: int_to_dec cid
  if chid.length < 32 then some (_xmltv_channel_find (String.mk chid) create chans) else none

/-- Modelled from the spec: `channel_find_by_name` (§6 receivable-channel lookup
by exact display name): the first local channel of that name; none when no
name is given. -/
def channel_find_by_name (name : Option String) (channels : List channel) : Option Nat :=
  match name with
  | some n => find_index (fun c => c.ch_name = n) channels
  | none => none

/-- The source function `_xmltv_find_epggrab_channel_byname`. -/
def _xmltv_find_epggrab_channel_byname (chname : Option String) (channels : List channel) :
    Option Nat :=
  channel_find_by_name chname channels

/-- Modelled from the spec: a setter of the local channel registry
(`channel_set_number`, `channel_rename`, `channel_set_icon`, §4.6). -/
def channel_set (channels : List channel) (chan : Nat) (upd : channel → channel) :
    List channel :=
  match channels.get? chan with
  | some c => channels.set chan (upd c)
  | none => channels

/-! ## Lineups: the source functions -/

/-- The source function `stb_channel`: the number of changed entries (0 or 1)
and the state.  The result is `none` when `atoi` is applied to a null
`chan_number`. -/
def stb_channel (env : lineup_env) (chan_name chan_number logo : Option String)
    (st : lineup_state) : Option (Int × lineup_state) :=
  let st := { st with lookups := st.lookups ++ [.by_name chan_name] }
  match _xmltv_find_epggrab_channel_byname chan_name st.channels with
  | none => some (0, st)
  | some chan =>
    let r1 : Option (List channel) :=
      if env.renumber then
        match chan_number with
        | some s => some (channel_set st.channels chan (fun c => { c with ch_number := atoi s.toList }))
        | none => none
      else some st.channels
    match r1 with
    | none => none
    | some c1 =>
      let c2 :=
        if env.rename then
          channel_set c1 chan (fun c => { c with ch_name := chan_name.getD c.ch_name })
        else c1
      let c3 := if env.reicon then channel_set c2 chan (fun c => { c with ch_icon := logo }) else c2
      some (if env.renumber || env.rename || env.reicon then 1 else 0, { st with channels := c3 })

/-- Modelled from the spec: the setters `epggrab_channel_set_name` and
`epggrab_channel_set_icon` called with a string that may be null (§6); a null
string stores nothing. -/
def epggrab_channel_set_opt (chans : List epggrab_channel) (ec : Nat) (v : Option String)
    (upd : String → epggrab_channel → epggrab_channel) : List epggrab_channel :=
  match v with
  | some s => (epggrab_channel_set chans ec (upd s)).2
  | none => chans

/-- The source function `xmltv_channelupdate`: the number of changed entries
(0 or 1) and the state.  The result is `none` when the id of the feed channel
does not fit its buffer or `atoi` is applied to a null `chan_number`. -/
def xmltv_channelupdate (env : lineup_env) (cid : Int) (chan_name chan_number logo : Option String)
    (st : lineup_state) : Option (Int × lineup_state) :=
  let st := { st with lookups := st.lookups ++ [.by_service cid] }
  match _xmltv_find_service env.dvb_adapters cid with
  | none => some (0, st)
  | some svc =>
    match svc.s_ch with
    | none => some (0, st)
    | some s_ch =>
      match _xmltv_find_epggrab_channel env.mod_id cid true st.chans with
      | none => none
      | some f =>
        match f.1 with
        | none => none
        | some ec =>
          let e0 := (epggrab_channel_set f.2.2 ec (fun c => { c with channel := some s_ch })).2
          let r1 : Option (List epggrab_channel) :=
            if svc.primary_epg && env.renumber then
              match chan_number with
              | some s =>
                some (epggrab_channel_set e0 ec (fun c => { c with number := atoi s.toList })).2
              | none => none
            else some e0
          match r1 with
          | none => none
          | some e1 =>
            let e2 :=
              if env.rename then
                epggrab_channel_set_opt e1 ec chan_name (fun s c => { c with name := some s })
              else e1
            let e3 :=
              if env.reicon then
                epggrab_channel_set_opt e2 ec logo (fun s c => { c with icon := some s })
              else e2
            some (if (svc.primary_epg && env.renumber) || env.rename || env.reicon then 1 else 0,
              { st with chans := e3 })

/-- The string variables of `xmltv_parse_lineups` that are read after they are
assigned; a null pointer is `none`.  They are declared before the loop over
the children of the lineup and keep their values from one child to the next. -/
structure lineup_vars where
  chan_number : Option String
  chan_name : Option String
  logo : Option String
  chan_service_id : Option String
  lineup_section : Option String
  stb_preset : Option String
deriving DecidableEq, Repr

/-- The initial values of the variables: `chan_number = "0"`, `chan_name = ""`,
`logo = ""`, `chan_service_id = "0"`, `lineup_section = ""`, `stb_preset = 0`. -/
def lineup_vars_init : lineup_vars :=
  { chan_number := some "0", chan_name := some "", logo := some "",
    chan_service_id := some "0", lineup_section := some "", stb_preset := none }

/-- The source function `xmltv_lineup_returnvar`: the character data of an
element (null when it has none), the empty string for a field that is not an
element. -/
def xmltv_lineup_returnvar (g : htsmsg_field) : Option String :=
  match htsmsg_get_map_by_field g with
  | some tag => htsmsg_get_str tag "cdata"
  | none => some ""

/-- The source function `xmltv_lineup_returnvarattrib`: the attribute `url` of
an element.  The result is `none` when the element has no attribute message:
the source then hands a null message to `htsmsg_get_str`, which has no
defined behaviour. -/
def xmltv_lineup_returnvarattrib (g : htsmsg_field) : Option (Option String) :=
  match htsmsg_get_map_by_field g with
  | some tag =>
    match htsmsg_get_map tag "attrib" with
    | some a => some (htsmsg_get_str a "url")
    | none => none
  | none => some (some "")

/-- One iteration of the loop over the children of a `station` element.  The
children `short-name` and `commercial-free` and the children of `video` only
assign variables that are never read.  The result is `none` when the logo has
no attribute message or a `video` element has no `tags` member: the source
then iterates over a null message, which has no defined behaviour. -/
def lineup_station_step (v : lineup_vars) (g : htsmsg_field) : Option lineup_vars :=
  let v1 := if g.hmf_name = "name" then { v with chan_name := xmltv_lineup_returnvar g } else v
  let r2 : Option lineup_vars :=
    if g.hmf_name = "logo" then
      (xmltv_lineup_returnvarattrib g).map (fun l => { v1 with logo := l })
    else some v1
  match r2 with
  | none => none
  | some v2 =>
    if g.hmf_name = "video" then
      match htsmsg_get_map_by_field g with
      | some tag => if (htsmsg_get_map tag "tags").isSome then some v2 else none
      | none => some v2
    else some v2

/-- The loop over the children of a `station` element.  The result is `none`
when the element has no `tags` member: the source then iterates over a null
message. -/
def lineup_station (v : lineup_vars) (f : htsmsg_field) : Option lineup_vars :=
  match htsmsg_get_map_by_field f with
  | some tag =>
    match htsmsg_get_map tag "tags" with
    | some chandata => chandata.foldlM lineup_station_step v
    | none => none
  | none => some v

/-- One iteration of the loop over the children of a `dvb-channel` element;
only `service-id` assigns a variable that is read. -/
def lineup_dvb_step (v : lineup_vars) (g : htsmsg_field) : lineup_vars :=
  if g.hmf_name = "service-id" then { v with chan_service_id := xmltv_lineup_returnvar g } else v

/-- One iteration of the loop over the children of an `stb-channel` element. -/
def lineup_stb_step (v : lineup_vars) (g : htsmsg_field) : lineup_vars :=
  if g.hmf_name = "stb-preset" then { v with stb_preset := xmltv_lineup_returnvar g } else v

/-- The loop over the children of a `dvb-channel` or `stb-channel` element; an
element without `tags` member is passed over (`continue`). -/
def lineup_nested (step : lineup_vars → htsmsg_field → lineup_vars) (v : lineup_vars)
    (f : htsmsg_field) : lineup_vars :=
  match htsmsg_get_map_by_field f with
  | some tag =>
    match htsmsg_get_map tag "tags" with
    | some chandata => chandata.foldl step v
    | none => v
  | none => v

/-- One iteration of the loop over the fields of a lineup entry. -/
def lineup_field_step (v : lineup_vars) (f : htsmsg_field) : Option lineup_vars :=
  let v1 := if f.hmf_name = "preset" then { v with chan_number := xmltv_lineup_returnvar f } else v
  let v2 :=
    if f.hmf_name = "section" then { v1 with lineup_section := xmltv_lineup_returnvar f } else v1
  match (if f.hmf_name = "station" then lineup_station v2 f else some v2) with
  | none => none
  | some v3 =>
    let v4 := if f.hmf_name = "dvb-channel" then lineup_nested lineup_dvb_step v3 f else v3
    some (if f.hmf_name = "stb-channel" then lineup_nested lineup_stb_step v4 f else v4)

/-- The classification and action at the end of one iteration of the loop over
the children of the lineup, on the current values of the variables: the state
and the counter `update_counter`.  The result is `none` when `sscanf` or
`strcmp` is applied to a null pointer. -/
def lineup_apply (env : lineup_env) (v : lineup_vars) (st : lineup_state) (n : Nat) :
    Option (lineup_state × Nat) :=
  match v.chan_service_id, v.lineup_section with
  | some sid, some sect =>
    let cid : Int :=
      match scan_int none sid.toList with
      | .ok x _ => wrap32 x
      | _ => 0
    if sect = "Radio channels" then some (st, n)
    else if v.stb_preset.isSome then
      (stb_channel env v.chan_name v.chan_number v.logo st).map
        (fun r => (r.2, if r.1 = 1 then n + 1 else n))
    else if cid ≠ 0 ∧ sect ≠ "Regional" then
      (xmltv_channelupdate env cid v.chan_name v.chan_number v.logo st).map
        (fun r => (r.2, if r.1 = 1 then n + 1 else n))
    else some (st, n)
  | _, _ => none

/-- The first part of one iteration of the loop over the children of the
lineup: the variables after it, and whether the classification is reached
(`false` is the `continue` for a lineup entry without `tags` member). -/
def lineup_collect (v : lineup_vars) (e : htsmsg_field) : Option (Bool × lineup_vars) :=
  if e.hmf_name = "lineup-entry" then
    match htsmsg_get_map_by_field e with
    | some tag =>
      match htsmsg_get_map tag "tags" with
      | some fs => (fs.foldlM lineup_field_step v).map (fun w => (true, w))
      | none => some (false, v)
    | none => some (true, v)
  else some (true, v)

/-- One iteration of the loop over the children of the lineup: variables,
state and `update_counter`. -/
def lineup_entry_step (env : lineup_env) (acc : lineup_vars × lineup_state × Nat)
    (e : htsmsg_field) : Option (lineup_vars × lineup_state × Nat) :=
  match lineup_collect acc.1 e with
  | none => none
  | some (false, v) => some (v, acc.2)
  | some (true, v) => (lineup_apply env v acc.2.1 acc.2.2).map (fun r => (v, r.1, r.2))

/-- The loop of `xmltv_parse_lineups` over the children of the lineup. -/
def lineups_foreach (env : lineup_env) :
    List htsmsg_field → lineup_vars × lineup_state × Nat → Option (lineup_vars × lineup_state × Nat)
  | [], acc => some acc
  | e :: rest, acc =>
    match lineup_entry_step env acc e with
    | none => none
    | some acc2 => lineups_foreach env rest acc2

/-- The result of `xmltv_parse_lineups`: the returned value, the state, and the
value of `update_counter` at the end, which the function writes to the log. -/
structure lineup_result where
  ret : Bool
  state : lineup_state
  update_counter : Nat
deriving DecidableEq, Repr

/-- The source function `xmltv_parse_lineups`.  It returns 0 on every path. -/
def xmltv_parse_lineups (env : lineup_env) (body : htsmsg) (st : lineup_state) :
    Option lineup_result :=
  match ((htsmsg_get_map body "tags").bind (fun t => htsmsg_get_map t "xmltv-lineup")).bind
      (fun t => htsmsg_get_map t "tags") with
  | none => some { ret := false, state := st, update_counter := 0 }
  | some lineups =>
    (lineups_foreach env lineups (lineup_vars_init, st, 0)).map
      (fun r => { ret := false, state := r.2.1, update_counter := r.2.2 })

/-! ## Reference definitions for the claims about the text grammars -/

/-- The character of a decimal digit. -/
def digit_char (d : Fin 10) : Char :=
  Char.ofNat (48 + d.val)

/-- The number written by two digits. -/
def num2 (a b : Fin 10) : Int :=
  10 * a.val + b.val

/-- The number written by four digits. -/
def num4 (a b c d : Fin 10) : Int :=
  1000 * a.val + 100 * b.val + 10 * c.val + d.val

/-- The sign character of an offset. -/
def sign_char (neg : Bool) : Char :=
  if neg then '-' else '+'

/-- The timestamp text `YYYYMMDDhhmmss ±HHMM` built from its eighteen digits
and its sign: fourteen digits, one space, the sign, four digits. -/
def stamp_text (y1 y2 y3 y4 m1 m2 d1 d2 h1 h2 n1 n2 s1 s2 : Fin 10) (neg : Bool)
    (z1 z2 z3 z4 : Fin 10) : List Char :=
  [digit_char y1, digit_char y2, digit_char y3, digit_char y4,
   digit_char m1, digit_char m2, digit_char d1, digit_char d2, digit_char h1, digit_char h2,
   digit_char n1, digit_char n2, digit_char s1, digit_char s2, ' ', sign_char neg,
   digit_char z1, digit_char z2, digit_char z3, digit_char z4]

/-- The first literal form of the timestamp grammar: fourteen decimal digits. -/
def is_local_form (s : List Char) : Bool :=
  s.length = 14 && s.all isdigit

/-- The second literal form of the timestamp grammar: fourteen decimal digits,
one space, a sign and four decimal digits. -/
def is_offset_form (s : List Char) : Bool :=
  s.length = 20 && (s.take 14).all isdigit && s.getD 14 nul = ' '
    && (s.getD 15 nul = '+' || s.getD 15 nul = '-') && (s.drop 16).all isdigit

/-- The value of a decimal numeral. -/
def dec_value (ds : List Char) : Nat :=
  ds.foldl (fun n c => n * 10 + (c.toNat - 48)) 0

/-- A decimal number of the xmltv_ns notation that is at most 65534: a
non-empty run of digits. -/
def is_ns_number (ds : List Char) : Bool :=
  !ds.isEmpty && ds.all isdigit && decide (dec_value ds ≤ 65534)

/-- A field of an xmltv_ns string as the notation writes it: empty, `X` or `X/Y`. -/
inductive ns_field where
  | empty
  | num (x : List Char)
  | frac (x y : List Char)

/-- The numbers of the field are decimal numbers of at most 65534. -/
def ns_field.wf : ns_field → Bool
  | .empty => true
  | .num x => is_ns_number x
  | .frac x y => is_ns_number x && is_ns_number y

/-- The text of a field. -/
def ns_field.text : ns_field → List Char
  | .empty => []
  | .num x => x
  | .frac x y => x ++ '/' :: y

/-- The number the notation assigns to a field: `X + 1`, or 0 when absent. -/
def ns_field.number : ns_field → Nat
  | .empty => 0
  | .num x => dec_value x + 1
  | .frac x _ => dec_value x + 1

/-- The count the notation assigns to a field: `Y + 1`, or 0 when absent. -/
def ns_field.count : ns_field → Nat
  | .frac _ y => dec_value y + 1
  | _ => 0

/-- The text of an xmltv_ns string before its first period. -/
def ns_first_field (s : List Char) : List Char :=
  s.takeWhile (fun c => c ≠ '.')

/-- The text of an xmltv_ns string after its first period. -/
def ns_after_field (s : List Char) : List Char :=
  (s.dropWhile (fun c => c ≠ '.')).drop 1

/-- The part of a field before its slash, where the number stands. -/
def ns_number_part (f : List Char) : List Char :=
  f.takeWhile (fun c => c ≠ '/')

/-- The part of a field after its slash, where the count stands. -/
def ns_count_part (f : List Char) : List Char :=
  (f.dropWhile (fun c => c ≠ '/')).drop 1

/-- The six positions of an xmltv_ns string, in the order season number,
season count, episode number, episode count, part number, part count. -/
def ns_positions (s : List Char) : List (List Char) :=
  let f1 := ns_first_field s
  let f2 := ns_first_field (ns_after_field s)
  let f3 := ns_first_field (ns_after_field (ns_after_field s))
  [ns_number_part f1, ns_count_part f1, ns_number_part f2, ns_count_part f2,
   ns_number_part f3, ns_count_part f3]

/-- Position `i` of an xmltv_ns string. -/
def ns_position (s : List Char) (i : Nat) : List Char :=
  (ns_positions s).getD i []

/-- The position contains a digit. -/
def has_digit (p : List Char) : Bool :=
  p.any isdigit

/-- The number that the digits of a position write. -/
def position_value (p : List Char) : Nat :=
  dec_value (p.filter isdigit)

/-- The raw identity URI `ddprogid://<module id>/<identifier>`. -/
def dd_progid_uri (mod_id s : List Char) : List Char :=
  "ddprogid://".toList ++ mod_id ++ '/' :: s

/-! ## Sample inputs -/

/-- A run at processing time 1700000000 (November 2023) of the module `xmltv`. -/
def sample_env : xmltv_env :=
  { mktime := fun _ => 0, dispatch_clock := 1700000000, mod_id := "xmltv".toList, oob := [] }

/-- A state in which the feed channel `c1` is linked to the receivable channel
1, with an empty guide database and cleared statistics. -/
def sample_state : xmltv_state :=
  { chans := [{ id := "c1", name := none, icon := none, channels := [1], updated := false }]
    db := { broadcasts := [], episodes := [], serieslinks := [] }
    stats := epggrab_stats_zero }

/-- The message of a `programme` element with a description. -/
def programme_body (chid start stop desc : String) : htsmsg :=
  [.map "attrib" [.str "channel" chid, .str "start" start, .str "stop" stop],
   .map "tags" [.map "desc" [.str "cdata" desc]]]

/-- A `tv` document with two programme elements for the same channel and the
same window, which differ in their description. -/
def clash_doc : htsmsg :=
  [.map "tags"
    [.map "programme"
      (programme_body "c1" "20300101000000 +0000" "20300101010000 +0000" "first text"),
     .map "programme"
      (programme_body "c1" "20300101000000 +0000" "20300101010000 +0000" "second text")]]

/-- Two runs of `_xmltv_parse_tv` on the same document, the second on the state
that the first leaves: the states after the first and after the second run. -/
def ingest_twice (env : xmltv_env) (doc : htsmsg) (st : xmltv_state) :
    Option (xmltv_state × xmltv_state) :=
  (_xmltv_parse_tv env doc st).bind (fun r1 =>
    (_xmltv_parse_tv env doc r1.2).map (fun r2 => (r1.2, r2.2)))

/-- A programme whose stop lies before its start. -/
def reversed_programme : htsmsg :=
  programme_body "c1" "20300101010000 +0000" "20300101000000 +0000" "text"

/-- A programme whose start attribute is not a timestamp and whose stop is a
valid instant after the processing time. -/
def bad_start_programme : htsmsg :=
  programme_body "c1" "not a time" "20300101010000 +0000" "text"

/-- A programme whose stop attribute is not a timestamp. -/
def bad_stop_programme : htsmsg :=
  programme_body "c1" "20300101000000 +0000" "not a time" "text"

/-- An identifier of 110 characters: with the module id `xmltv` its raw URI
has 127 characters. -/
def long_progid (last : Char) : List Char :=
  'M' :: 'V' :: List.replicate 107 '0' ++ [last]


/-! ## Reference definitions for the claims about the programme metadata -/

/-- The notation of an `episode-num` element: the value of its attribute
`system`; absent for any other field. -/
def episode_num_system (f : htsmsg_field) : Option String :=
  if f.hmf_name = "episode-num" then
    (htsmsg_get_map_by_field f).bind
      (fun c => (htsmsg_get_map c "attrib").bind (fun a => htsmsg_get_str a "system"))
  else none

/-- An `episode-num` element with its notation and its text. -/
def episode_num_node (system cdata : String) : htsmsg_field :=
  .map "episode-num" [.map "attrib" [.str "system" system], .str "cdata" cdata]

/-- The outputs of `get_episode_info` before the first element. -/
def episode_info_init : episode_info :=
  { uri := none, suri := none, epnum := epnum_zero }

/-- The values `hd`, `lines` and `aspect` that `parse_vid_quality` holds when
it reaches its setters: the HD flag and the scan lines of the quality text,
and the final aspect, which is `(100 * w) / h` of an aspect text that scans as
`w:h` and the aspect of the quality text otherwise.  The result is `none`
when the division traps: the aspect text scans with `h = 0`, or with `h = -1`
and the product `100 * w` the least `int`. -/
def vid_quality_values (m : htsmsg) : Option (Bool × Int × Int) :=
  let q : Bool × Int × Int :=
    match htsmsg_xml_get_cdata_str m "quality" with
    | some str => vid_quality_of str.toList
    | none => (false, 0, 0)
  match (htsmsg_xml_get_cdata_str m "aspect").bind (fun str => sscanf_aspect str.toList) with
  | some (w, h) =>
    if h = 0 ∨ (wrap32 (100 * w) = -2147483648 ∧ h = -1) then none
    else some (q.1, q.2.1, wrap32 (Int.tdiv (wrap32 (100 * w)) h))
  | none => some q

/-- What the setters of `parse_vid_quality` store in a broadcast for given
`hd`, `lines` and `aspect`: the HD flag always, widescreen flag and aspect
when the aspect is not 0, the scan lines when they are not 0. -/
def vid_quality_store (hd : Bool) (lines aspect : Int) (b : epg_broadcast) : epg_broadcast :=
  { b with
    is_hd := hd
    is_widescreen := if aspect ≠ 0 then hd || decide (aspect > 137) else b.is_widescreen
    aspect := if aspect ≠ 0 then aspect else b.aspect
    lines := if lines ≠ 0 then lines else b.lines }

/-- The colour setter at the head of `parse_vid_quality`, as a function of its
own: the report and the database after `epg_episode_set_is_bw`. -/
def vid_colour_setter (db : epg_db) (ee : Option Nat) (m : htsmsg) : Bool × epg_db :=
  match htsmsg_xml_get_cdata_str m "colour" with
  | some str => epg_episode_set db ee (fun e => { e with is_bw := decide (str = "no") })
  | none => (false, db)

/-- The setters at the tail of `parse_vid_quality`, as a function of its own:
the or of their reports and the database after them. -/
def vid_quality_setters (db : epg_db) (ebc : Nat) (hd : Bool) (lines aspect : Int) :
    Bool × epg_db :=
  let r1 := epg_broadcast_set db ebc (fun b => { b with is_hd := hd })
  let r2 : Bool × epg_db :=
    if aspect ≠ 0 then
      let a := epg_broadcast_set r1.2 ebc
        (fun b => { b with is_widescreen := hd || decide (aspect > 137) })
      let b := epg_broadcast_set a.2 ebc (fun b => { b with aspect := aspect })
      (a.1 || b.1, b.2)
    else (false, r1.2)
  let r3 : Bool × epg_db :=
    if lines ≠ 0 then epg_broadcast_set r2.2 ebc (fun b => { b with lines := lines })
    else (false, r2.2)
  (r1.1 || r2.1 || r3.1, r3.2)

/-! ## Reference definitions for the claims about channel elements -/

/-- The display name that a channel element gives. -/
def channel_node_name (tags : htsmsg) : Option String :=
  htsmsg_xml_get_cdata_str tags "display-name"

/-- The icon source that a channel element gives. -/
def channel_node_icon (tags : htsmsg) : Option String :=
  ((htsmsg_get_map tags "icon").bind (fun t => htsmsg_get_map t "attrib")).bind
    (fun a => htsmsg_get_str a "src")

/-- The report of a setter that is called with the value `new` when one is
given, on a stored value `stored`: a change is reported when they differ. -/
def setter_reports (stored new : Option String) : Bool :=
  match new with
  | some n => decide (stored ≠ some n)
  | none => false

/-- The message of a `channel` element with an id and a display name. -/
def channel_body (id name : String) : htsmsg :=
  [.map "attrib" [.str "id" id], .map "tags" [.map "display-name" [.str "cdata" name]]]

/-- A feed channel after the merge of a channel element that gives the display
name `name` and the icon `icon` and is marked updated. -/
def channel_merged (c : epggrab_channel) (name icon : Option String) : epggrab_channel :=
  { c with
    name := match name with
      | some n => some n
      | none => c.name
    icon := match icon with
      | some i => some i
      | none => c.icon
    updated := true }

/-- The channel counters after one channel element: `total` is incremented,
`created` and `modified` are incremented when their flags are set. -/
def channel_stats_after (stats : epggrab_stats) (created save : Bool) : epggrab_stats :=
  { stats with
    channels :=
      { total := stats.channels.total + 1
        created := stats.channels.created + (if created then 1 else 0)
        modified := stats.channels.modified + (if save then 1 else 0) } }

/-! ## Reference definitions for the claims about the programme pipeline -/

/-- A view of a broadcast that does not depend on the attributes that the
setters of the pipeline other than the repeat and new setters store. -/
structure bc_frame {α : Type} (view : epg_broadcast → α) : Prop where
  description : ∀ b x, view { b with description := x } = view b
  is_hd : ∀ b x, view { b with is_hd := x } = view b
  is_widescreen : ∀ b x, view { b with is_widescreen := x } = view b
  aspect : ∀ b x, view { b with aspect := x } = view b
  lines : ∀ b x, view { b with lines := x } = view b
  is_subtitled : ∀ b x, view { b with is_subtitled := x } = view b
  is_deafsigned : ∀ b x, view { b with is_deafsigned := x } = view b
  is_audio_desc : ∀ b x, view { b with is_audio_desc := x } = view b
  serieslink : ∀ b x, view { b with serieslink := x } = view b
  episode : ∀ b x, view { b with episode := x } = view b

/-- The repeat flag and the new flag of a broadcast. -/
def bc_flags (b : epg_broadcast) : Bool × Bool :=
  (b.is_repeat, b.is_new)

/-- The identity of a broadcast: receivable channel, start and stop. -/
def bc_key (b : epg_broadcast) : Nat × Int × Int :=
  (b.channel, b.start, b.stop)

/-- The aspect text of the `video` element of a programme scans as `W:H` with
`H = 0`, or with `H = -1` and `100 * W` the least `int`, so that the division
in `parse_vid_quality` traps. -/
def video_aspect_traps (tags : htsmsg) : Bool :=
  match htsmsg_get_map tags "video" with
  | some m =>
    match (htsmsg_xml_get_cdata_str m "aspect").bind (fun str => sscanf_aspect str.toList) with
    | some wh => decide (wh.2 = 0 ∨ (wrap32 (100 * wh.1) = -2147483648 ∧ wh.2 = -1))
    | none => false
  | none => false

/-- A `previously-shown` element is present. -/
def has_previously_shown (tags : htsmsg) : Bool :=
  (htsmsg_get_map tags "previously-shown").isSome

/-- A `premiere` or a `new` element is present. -/
def has_premiere_or_new (tags : htsmsg) : Bool :=
  (htsmsg_get_map tags "premiere").isSome || (htsmsg_get_map tags "new").isSome

/-- Two databases hold the same number of broadcasts and every broadcast looks
the same in both through `view`. -/
def bc_same {α : Type} (view : epg_broadcast → α) (db db2 : epg_db) : Prop :=
  (∀ j, (db2.broadcasts.get? j).map view = (db.broadcasts.get? j).map view)
  ∧ db2.broadcasts.length = db.broadcasts.length

/-- The repeat or new setter of `_xmltv_parse_programme_tags`, as a function of
its own: the report and the database after it. -/
def programme_repeat_new (tags : htsmsg) (ebc : Nat) (db : epg_db) : Bool × epg_db :=
  if (htsmsg_get_map tags "previously-shown").isSome then
    epg_broadcast_set db ebc (fun b => { b with is_repeat := true })
  else if (htsmsg_get_map tags "premiere").isSome ∨ (htsmsg_get_map tags "new").isSome then
    epg_broadcast_set db ebc (fun b => { b with is_new := true })
  else (false, db)

/-- The tags of a programme that hold only a description. -/
def described_tags (desc : String) : htsmsg :=
  [.map "desc" [.str "cdata" desc]]

/-- Two calls of `_xmltv_parse_programme_tags` for the receivable channel 1 and
the same window, the second on the state that the first leaves: the states
after the first and after the second call. -/
def tags_twice (env : xmltv_env) (tags1 tags2 : htsmsg) (st : xmltv_state) :
    Option (xmltv_state × xmltv_state) :=
  (_xmltv_parse_programme_tags env 1 tags1 1893456000 1893459600 st).bind (fun r1 =>
    (_xmltv_parse_programme_tags env 1 tags2 1893456000 1893459600 r1.2).map
      (fun r2 => (r1.2, r2.2)))

/-- The children of a nested element of a lineup entry. -/
def lineup_children (f : htsmsg_field) : htsmsg :=
  match htsmsg_get_map_by_field f with
  | some tag => (htsmsg_get_map tag "tags").getD []
  | none => []

/-- The values that the fields named `name` of a message deliver, in the
order of the document; a field that is an element without character data
delivers `none`. -/
def entry_values (name : String) (fs : htsmsg) : List (Option String) :=
  fs.flatMap (fun f => if f.hmf_name = name then [xmltv_lineup_returnvar f] else [])

/-- The values that the children named `inner` of the fields named `outer` of
a lineup entry deliver, in the order of the document. -/
def entry_nested_values (outer inner : String) (fs : htsmsg) : List (Option String) :=
  fs.flatMap (fun f =>
    if f.hmf_name = outer then entry_values inner (lineup_children f) else [])

/-- The channel that `stb_channel` leaves of a local channel it found: each
enabled toggle sets its own member from the variables of the lineup. -/
def stb_actions (env : lineup_env) (v : lineup_vars) (c : channel) : channel :=
  { ch_id := c.ch_id
    ch_name := if env.rename then v.chan_name.getD c.ch_name else c.ch_name
    ch_number := if env.renumber then atoi (v.chan_number.getD "").toList else c.ch_number
    ch_icon := if env.reicon then v.logo else c.ch_icon }

/-- An element that holds character data only. -/
def lineup_leaf (name cdata : String) : htsmsg_field :=
  .map name [.str "cdata" cdata]

/-- An element that holds child elements only. -/
def lineup_node (name : String) (children : htsmsg) : htsmsg_field :=
  .map name [.map "tags" children]

/-- A lineup document with the given children of the lineup. -/
def lineup_doc (entries : htsmsg) : htsmsg :=
  [.map "tags" [lineup_node "xmltv-lineup" entries]]

/-- A sample: all three toggles enabled, one enabled primary service 4164
mapped to the local channel 2. -/
def sample_lineup_env : lineup_env :=
  { mod_id := "xmltv".toList, renumber := true, rename := true, reicon := true,
    dvb_adapters :=
      [[[{ s_enabled := true, s_dvb_service_id := 4164, s_ch := some 2, primary_epg := true }]]] }

/-- A sample: two local channels, no feed channel, no lookup made so far. -/
def sample_lineup_state : lineup_state :=
  { channels :=
      [{ ch_id := 1, ch_name := "Sky One", ch_number := 0, ch_icon := none },
       { ch_id := 2, ch_name := "BBC One", ch_number := 0, ch_icon := none }],
    chans := [], lookups := [] }

/-- A sample entry with an STB preset and no service id. -/
def sample_stb_fields : htsmsg :=
  [lineup_leaf "preset" "106", lineup_leaf "section" "Entertainment",
   lineup_node "station" [lineup_leaf "name" "Sky One"],
   lineup_node "stb-channel" [lineup_leaf "stb-preset" "106"]]

/-- A sample entry with a service id and no STB preset. -/
def sample_dvb_fields : htsmsg :=
  [lineup_leaf "preset" "1", lineup_leaf "section" "Entertainment",
   lineup_node "station" [lineup_leaf "name" "BBC One"],
   lineup_node "dvb-channel" [lineup_leaf "service-id" "4164"]]

/-- A sample entry with a station name only. -/
def sample_plain_fields : htsmsg :=
  [lineup_node "station" [lineup_leaf "name" "Sky One"]]

/-- A sample radio entry that has an STB preset and a service id as well. -/
def sample_radio_fields : htsmsg :=
  [lineup_leaf "preset" "1", lineup_leaf "section" "Radio channels",
   lineup_node "station" [lineup_leaf "name" "BBC One"],
   lineup_node "dvb-channel" [lineup_leaf "service-id" "4164"],
   lineup_node "stb-channel" [lineup_leaf "stb-preset" "1"]]

/-- A sample entry whose `stb-preset` element is empty and that has a service
id. -/
def sample_empty_preset_fields : htsmsg :=
  [lineup_leaf "preset" "1", lineup_leaf "section" "Entertainment",
   lineup_node "station" [lineup_leaf "name" "BBC One"],
   lineup_node "dvb-channel" [lineup_leaf "service-id" "4164"],
   lineup_node "stb-channel" [.map "stb-preset" []]]
/-! ## The entry point `_xmltv_parse` -/

/-- The state that `_xmltv_parse` reads and writes: the state of a walk over
a `tv` document, whose feed channels `_xmltv_channels` the lineup code shares,
the local channels, and the record of the lookups of the lineup code. -/
structure parse_state where
  st : xmltv_state
  channels : List channel
  lookups : List lineup_lookup
deriving DecidableEq, Repr

/-- The source function `_xmltv_parse`: a document with a `tv` element goes to
`_xmltv_parse_tv`, one with an `xmltv-lineups` element to
`xmltv_parse_lineups`, and the value of the callee is returned. -/
def _xmltv_parse (env : xmltv_env) (lenv : lineup_env) (data : htsmsg) (ps : parse_state) :
    Option (Bool × parse_state) :=
  match htsmsg_get_map data "tags" with
  | none => some (false, ps)
  | some tags =>
    match htsmsg_get_map tags "tv" with
    | some tv => (_xmltv_parse_tv env tv ps.st).map (fun r => (r.1, { ps with st := r.2 }))
    | none =>
      match htsmsg_get_map tags "xmltv-lineups" with
      | some lineup =>
        (xmltv_parse_lineups lenv lineup
            { channels := ps.channels, chans := ps.st.chans, lookups := ps.lookups }).map
          (fun r => (r.ret,
            { st := { ps.st with chans := r.state.chans }, channels := r.state.channels,
              lookups := r.state.lookups }))
      | none => some (false, ps)

/-! ## Reference definitions for the claims about standard lineup entries -/

/-- The value that `sscanf(chan_service_id, "%d", &cid)` leaves in `cid`, 0
when nothing is scanned. -/
def lineup_cid (sid : String) : Int :=
  match scan_int none sid.toList with
  | .ok x _ => wrap32 x
  | _ => 0

/-- The services of all muxes of all adapters, in the order of the registry. -/
def all_services (adapters : List (List (List service))) : List service :=
  (adapters.flatMap id).flatMap id

/-- The first enabled service of the registry with the service id `cid`. -/
def standard_service (env : lineup_env) (cid : Int) : Option service :=
  (all_services env.dvb_adapters).find?
    (fun t => t.s_enabled && decide ((t.s_dvb_service_id : Int) = cid))

/-- A feed channel of the index replaced by its update. -/
def feed_channel_set (chans : List epggrab_channel) (ec : Nat)
    (upd : epggrab_channel → epggrab_channel) : List epggrab_channel :=
  match chans.get? ec with
  | some c => chans.set ec (upd c)
  | none => chans

/-- The feed channel that `xmltv_channelupdate` leaves for the service `svc`
mapped to the local channel `s_ch`: it is linked to that channel; the number
is set when the service is primary and renumbering is enabled; the name is set
when renaming is enabled, the icon when re-iconing is enabled (a null string
sets nothing). -/
def channelupdate_actions (env : lineup_env) (svc : service) (s_ch : Nat) (v : lineup_vars)
    (c : epggrab_channel) : epggrab_channel :=
  { id := c.id
    name := if env.rename then (v.chan_name.map some).getD c.name else c.name
    icon := if env.reicon then (v.logo.map some).getD c.icon else c.icon
    channels := c.channels
    updated := c.updated
    number :=
      if svc.primary_epg && env.renumber then atoi (v.chan_number.getD "").toList else c.number
    channel := some s_ch }

/-- The report of `xmltv_channelupdate` for the service id `cid`: the first
enabled service of the registry with that id exists and is mapped to a local
channel, and renaming or re-iconing is enabled, or renumbering is enabled and
that service is primary. -/
def standard_changed (env : lineup_env) (cid : Int) : Bool :=
  match standard_service env cid with
  | some svc =>
    svc.s_ch.isSome && (env.rename || env.reicon || (env.renumber && svc.primary_epg))
  | none => false

/-- The state after `xmltv_channelupdate` for the service id `cid`: the lookup
by service id is recorded; when the first enabled service with that id exists
and is mapped to a local channel, the feed channel `<module id>-<cid>` is found or created and updated
by `channelupdate_actions`. -/
def standard_result (env : lineup_env) (v : lineup_vars) (cid : Int) (st : lineup_state) :
    lineup_state :=
  { channels := st.channels
    lookups := st.lookups ++ [.by_service cid]
    chans :=
      match standard_service env cid with
      | some svc =>
        match svc.s_ch with
        | some s_ch =>
          feed_channel_set
            (_xmltv_channel_find (String.mk (env.mod_id ++ '-' :: int_to_dec cid)) true
              st.chans).2.2
            ((_xmltv_channel_find (String.mk (env.mod_id ++ '-' :: int_to_dec cid)) true
              st.chans).1.getD 0)
            (channelupdate_actions env svc s_ch v)
        | none => st.chans
      | none => st.chans }

/-- A lineup document as `_xmltv_parse` receives it. -/
def lineups_document (entries : htsmsg) : htsmsg :=
  [.map "tags" [.map "xmltv-lineups" (lineup_doc entries)]]

/-- A sample: the state of `_xmltv_parse` with the sample registries. -/
def sample_parse_state : parse_state :=
  { st := sample_state, channels := sample_lineup_state.channels, lookups := [] }

/-- The tags of a programme that hold a description and a title. -/
def titled_tags (desc title : String) : htsmsg :=
  [.map "desc" [.str "cdata" desc], .map "title" [.str "cdata" title]]
/-! ## Reference definitions and samples for the claims on traps and on entries after entries -/

/-- A sample entry with an STB preset and a station name, without section and
without service id. -/
def sample_stb_bare_fields : htsmsg :=
  [lineup_leaf "preset" "106",
   lineup_node "station" [lineup_leaf "name" "Sky One"],
   lineup_node "stb-channel" [lineup_leaf "stb-preset" "106"]]

/-- A sample entry with the service id 4164 and no STB preset, whose station
name "BBC Two" is the name of no local channel of the sample. -/
def sample_other_dvb_fields : htsmsg :=
  [lineup_leaf "preset" "2", lineup_leaf "section" "Entertainment",
   lineup_node "station" [lineup_leaf "name" "BBC Two"],
   lineup_node "dvb-channel" [lineup_leaf "service-id" "4164"]]

/-! ## Lemmas on the timestamp scanner -/

theorem digit_char_toNat (d : Fin 10) : (digit_char d).toNat = 48 + d.val := by
  revert d; decide

theorem isdigit_digit_char (d : Fin 10) : isdigit (digit_char d) = true := by
  revert d; decide

theorem isspace_digit_char (d : Fin 10) : isspace (digit_char d) = false := by
  revert d; decide

theorem digit_val_digit_char (d : Fin 10) : digit_val (digit_char d) = d.val := by
  simp [digit_val, digit_char_toNat]

theorem digit_char_not_sign (d : Fin 10) :
    ((digit_char d).toNat = 45) = False ∧ ((digit_char d).toNat = 43) = False := by
  revert d; decide

theorem wrap32_small (z : Int) (h1 : -2147483648 ≤ z) (h2 : z < 2147483648) : wrap32 z = z := by
  unfold wrap32; omega

theorem skip_space_digit_char (d : Fin 10) (cs : List Char) :
    skip_space (digit_char d :: cs) = digit_char d :: cs := by
  simp [skip_space, isspace_digit_char]

theorem scan_int_two (a b : Fin 10) (rest : List Char) :
    scan_int (some 2) (digit_char a :: digit_char b :: rest) = .ok (num2 a b) rest := by
  cases rest <;>
  simp [scan_int, skip_space_digit_char, scan_digits, isdigit_digit_char, digit_val_digit_char,
    digit_char_not_sign, num2] <;> ring

theorem scan_int_four (a b c d : Fin 10) (rest : List Char) :
    scan_int (some 4) (digit_char a :: digit_char b :: digit_char c :: digit_char d :: rest)
      = .ok (num4 a b c d) rest := by
  cases rest <;>
  simp [scan_int, skip_space_digit_char, scan_digits, isdigit_digit_char, digit_val_digit_char,
    digit_char_not_sign, num4] <;> ring

theorem scan_int_offset (neg : Bool) (a b c d : Fin 10) :
    scan_int none [' ', sign_char neg, digit_char a, digit_char b, digit_char c, digit_char d]
      = .ok ((if neg then -1 else 1) * num4 a b c d) [] := by
  cases neg <;>
  simp [scan_int, skip_space, sign_char, isspace, scan_digits, isdigit_digit_char,
    digit_val_digit_char, num4] <;> ring

theorem num2_bounds (a b : Fin 10) : 0 ≤ num2 a b ∧ num2 a b ≤ 99 := by
  unfold num2; omega

theorem num4_bounds (a b c d : Fin 10) : 0 ≤ num4 a b c d ∧ num4 a b c d ≤ 9999 := by
  unfold num4; omega

theorem scan_fields_stamp (y1 y2 y3 y4 m1 m2 d1 d2 h1 h2 n1 n2 s1 s2 : Fin 10) (neg : Bool)
    (z1 z2 z3 z4 : Fin 10) :
    scan_fields stamp_format (stamp_text y1 y2 y3 y4 m1 m2 d1 d2 h1 h2 n1 n2 s1 s2 neg z1 z2 z3 z4) =
    [num4 y1 y2 y3 y4, num2 m1 m2, num2 d1 d2, num2 h1 h2, num2 n1 n2, num2 s1 s2,
      (if neg then -1 else 1) * num4 z1 z2 z3 z4] := by
  have b4 := num4_bounds y1 y2 y3 y4
  have bm := num2_bounds m1 m2
  have bd := num2_bounds d1 d2
  have bh := num2_bounds h1 h2
  have bn := num2_bounds n1 n2
  have bs := num2_bounds s1 s2
  have bz := num4_bounds z1 z2 z3 z4
  simp only [scan_fields, stamp_format, stamp_text, scan_int_four, scan_int_two, scan_int_offset]
  rw [wrap32_small _ (by omega) (by omega), wrap32_small (num2 m1 m2) (by omega) (by omega),
    wrap32_small (num2 d1 d2) (by omega) (by omega), wrap32_small (num2 h1 h2) (by omega) (by omega),
    wrap32_small (num2 n1 n2) (by omega) (by omega), wrap32_small (num2 s1 s2) (by omega) (by omega),
    wrap32_small _ (by cases neg <;> simp <;> omega) (by cases neg <;> simp <;> omega)]

theorem tdiv_hhmm (q r : Int) (h0 : 0 ≤ q) (h1 : 0 ≤ r) (h2 : r < 100) :
    Int.tdiv (100 * q + r) 100 = q := by
  rw [Int.tdiv_eq_ediv (by omega) (by omega)]; omega

theorem hhmm_minutes (neg : Bool) (q r : Int) (h0 : 0 ≤ q) (h1 : 0 ≤ r) (h2 : r < 100) :
    Int.tmod ((if neg then -1 else 1) * (100 * q + r)) 100
      + Int.tdiv ((if neg then -1 else 1) * (100 * q + r)) 100 * 60
      = (if neg then -1 else 1) * (60 * q + r) := by
  rw [Int.tmod_def]
  cases neg
  · simp only [Bool.false_eq_true, if_false, one_mul, tdiv_hhmm q r h0 h1 h2]; ring
  · simp only [if_true, neg_one_mul, Int.neg_tdiv, tdiv_hhmm q r h0 h1 h2]; ring
theorem isspace_not_isdigit (c : Char) (h : isspace c = true) : isdigit c = false := by
  simp only [isspace, isdigit, Bool.or_eq_true, Bool.and_eq_true, decide_eq_true_eq] at h
  simp only [isdigit, Bool.and_eq_false_iff, decide_eq_false_iff_not]
  omega

theorem countP_skip_space (s : List Char) :
    (skip_space s).countP isdigit = s.countP isdigit := by
  induction s with
  | nil => rfl
  | cons c cs ih =>
    unfold skip_space
    by_cases h : isspace c = true
    · simp only [h, if_true, ih]
      rw [List.countP_cons_of_neg _ _ (by simp [isspace_not_isdigit c h])]
    · simp only [h]; rfl

theorem countP_scan_digits (s : List Char) (w : Option Nat) (acc : Int) :
    (scan_digits w acc s).2.countP isdigit ≤ s.countP isdigit := by
  induction s generalizing w acc with
  | nil => simp [scan_digits]
  | cons c cs ih =>
    unfold scan_digits
    split
    · exact Nat.le_refl _
    · split
      · rename_i hd
        rw [List.countP_cons_of_pos _ _ hd]
        exact Nat.le_succ_of_le (ih _ _)
      · exact Nat.le_refl _

theorem countP_scan_digits_lt (d : Char) (cs : List Char) (w : Option Nat) (acc : Int)
    (hd : isdigit d = true) (hw : w ≠ some 0) :
    (scan_digits w acc (d :: cs)).2.countP isdigit + 1 ≤ (d :: cs).countP isdigit := by
  unfold scan_digits
  simp only [hw, if_false, hd, if_true]
  rw [List.countP_cons_of_pos _ _ hd]
  exact Nat.succ_le_succ (countP_scan_digits _ _ _)

theorem countP_scan_int (w : Option Nat) (s : List Char) (v : Int) (rest : List Char)
    (h : scan_int w s = .ok v rest) :
    rest.countP isdigit + 1 ≤ s.countP isdigit := by
  unfold scan_int at h
  rw [← countP_skip_space s]
  cases hs : skip_space s with
  | nil => simp [hs] at h
  | cons c cs =>
    simp only [hs] at h
    by_cases hsg : (decide (c.toNat = 45) || decide (c.toNat = 43)) = true
    · have hnd : isdigit c = false := by
        simp only [Bool.or_eq_true, decide_eq_true_eq] at hsg
        simp only [isdigit, Bool.and_eq_false_iff, decide_eq_false_iff_not]
        omega
      simp only [hsg, if_true] at h
      rw [List.countP_cons_of_neg _ _ (by simp [hnd])]
      cases cs with
      | nil => simp at h
      | cons d ds =>
        simp only [] at h
        split at h
        · rename_i hc
          simp only [Bool.and_eq_true, decide_eq_true_eq] at hc
          simp only [scan_result.ok.injEq] at h
          rw [← h.2]
          exact countP_scan_digits_lt d ds _ 0 hc.1 hc.2
        · simp at h
    · have hsg2 : (decide (c.toNat = 45) || decide (c.toNat = 43)) = false := by
        simpa using hsg
      simp only [hsg2, Bool.false_eq_true, if_false] at h
      split at h
      · rename_i hc
        simp only [Bool.and_eq_true, decide_eq_true_eq] at hc
        simp only [scan_result.ok.injEq] at h
        rw [← h.2]
        exact countP_scan_digits_lt c cs _ 0 hc.1 hc.2
      · simp at h

theorem length_scan_fields (ws : List (Option Nat)) (s : List Char) :
    (scan_fields ws s).length ≤ s.countP isdigit := by
  induction ws generalizing s with
  | nil => simp [scan_fields]
  | cons w ws ih =>
    unfold scan_fields
    cases h : scan_int w s with
    | ok v rest =>
      simp only [List.length_cons]
      have h1 := countP_scan_int w s v rest h
      have h2 := ih rest
      omega
    | matching_failure => simp
    | input_failure => simp

theorem length_scan_fields_le (ws : List (Option Nat)) (s : List Char) :
    (scan_fields ws s).length ≤ ws.length := by
  induction ws generalizing s with
  | nil => simp [scan_fields]
  | cons w ws ih =>
    unfold scan_fields
    cases h : scan_int w s with
    | ok v rest => simp only [List.length_cons]; exact Nat.succ_le_succ (ih rest)
    | matching_failure => simp
    | input_failure => simp

theorem sscanf_count_le (str : List Char) :
    sscanf_count str ≤ (scan_fields stamp_format str).length := by
  unfold sscanf_count
  split
  · rename_i h; rw [h]; split <;> simp
  · exact Int.le_refl _

theorem str2time_zero_of_count (mktime : tm → Int) (str : List Char)
    (h : sscanf_count str < 6) : _xmltv_str2time mktime str = 0 := by
  unfold _xmltv_str2time
  simp only []
  rw [if_neg (by omega), if_neg (by omega)]

/-! ## Lemmas on the xmltv_ns scanner -/

theorem foldl_dec_ge (ds : List Char) (n : Nat) :
    n ≤ ds.foldl (fun n c => n * 10 + (c.toNat - 48)) n := by
  induction ds generalizing n with
  | nil => exact Nat.le_refl _
  | cons c cs ih =>
    simp only [List.foldl_cons]
    exact Nat.le_trans (by omega) (ih _)

theorem digit_val_of_isdigit (c : Char) (h : isdigit c = true) :
    digit_val c = ((c.toNat - 48 : Nat) : Int) ∧ c.toNat - 48 ≤ 9 := by
  simp only [isdigit, Bool.and_eq_true, decide_eq_true_eq] at h
  unfold digit_val
  omega

theorem foldl_ns_accum_nonneg (ds : List Char) (hd : ∀ c ∈ ds, isdigit c = true) (n : Nat)
    (hb : ds.foldl (fun n c => n * 10 + (c.toNat - 48)) n ≤ 65534) :
    ds.foldl ns_accum (n : Int) = ((ds.foldl (fun n c => n * 10 + (c.toNat - 48)) n : Nat) : Int) := by
  induction ds generalizing n with
  | nil => rfl
  | cons c cs ih =>
    simp only [List.foldl_cons] at hb ⊢
    have hc := digit_val_of_isdigit c (hd c (List.mem_cons_self _ _))
    have hge := foldl_dec_ge cs (n * 10 + (c.toNat - 48))
    have hstep : ns_accum (n : Int) c = ((n * 10 + (c.toNat - 48) : Nat) : Int) := by
      unfold ns_accum
      rw [if_neg (by omega), hc.1]
      unfold wrap32
      omega
    rw [hstep]
    exact ih (fun c h => hd c (List.mem_cons_of_mem _ h)) _ hb

theorem foldl_ns_accum_value (ds : List Char) (hd : ∀ c ∈ ds, isdigit c = true)
    (hb : dec_value ds ≤ 65534) :
    ds.foldl ns_accum (-1) = if ds = [] then -1 else (dec_value ds : Int) := by
  cases ds with
  | nil => rfl
  | cons c cs =>
    simp only [List.foldl_cons, reduceCtorEq, if_false]
    have hc := digit_val_of_isdigit c (hd c (List.mem_cons_self _ _))
    have hstep : ns_accum (-1) c = ((0 * 10 + (c.toNat - 48) : Nat) : Int) := by
      unfold ns_accum
      rw [if_pos rfl, hc.1]
      unfold wrap32
      omega
    rw [hstep]
    exact foldl_ns_accum_nonneg cs (fun c h => hd c (List.mem_cons_of_mem _ h)) _ hb

theorem stored_of_value (ds : List Char) (hd : ∀ c ∈ ds, isdigit c = true)
    (hb : dec_value ds ≤ 65534) :
    to_u16 (wrap32 (ds.foldl ns_accum (-1) + 1)) = if ds = [] then 0 else dec_value ds + 1 := by
  rw [foldl_ns_accum_value ds hd hb]
  split
  · rfl
  · unfold to_u16 wrap32; omega

theorem ns_scan_count_eq (s : List Char) (b : Int) :
    ns_scan_count b s
      = (((ns_first_field s).filter isdigit).foldl ns_accum b, ns_after_field s) := by
  induction s generalizing b with
  | nil => rfl
  | cons c cs ih =>
    unfold ns_scan_count
    by_cases h1 : c = '.'
    · simp [h1, ns_first_field, ns_after_field]
    · by_cases h2 : isdigit c = true
      · simp [h1, h2, ih, ns_first_field, ns_after_field]
      · simp [h1, h2, ih, ns_first_field, ns_after_field]

theorem ns_scan_num_eq (s : List Char) (a : Int) :
    ns_scan_num a s
      = (((ns_number_part (ns_first_field s)).filter isdigit).foldl ns_accum a,
         ((ns_count_part (ns_first_field s)).filter isdigit).foldl ns_accum (-1),
         ns_after_field s) := by
  induction s generalizing a with
  | nil => rfl
  | cons c cs ih =>
    unfold ns_scan_num
    by_cases h1 : c = '.'
    · simp [h1, ns_first_field, ns_after_field, ns_number_part, ns_count_part]
    · by_cases h3 : c = '/'
      · simp [h3, ns_scan_count_eq, ns_first_field, ns_after_field, ns_number_part, ns_count_part]
      · by_cases h2 : isdigit c = true
        · simp [h1, h2, h3, ih, ns_first_field, ns_after_field, ns_number_part, ns_count_part]
        · simp [h1, h2, h3, ih, ns_first_field, ns_after_field, ns_number_part, ns_count_part]

theorem xmltv_ns_get_parse_num_eq (s : List Char) :
    xmltv_ns_get_parse_num s
      = (to_u16 (wrap32 (((ns_number_part (ns_first_field s)).filter isdigit).foldl ns_accum (-1) + 1)),
         to_u16 (wrap32 (((ns_count_part (ns_first_field s)).filter isdigit).foldl ns_accum (-1) + 1)),
         ns_after_field s) := by
  unfold xmltv_ns_get_parse_num
  rw [ns_scan_num_eq]

theorem isdigit_ne_sep (c : Char) (h : isdigit c = true) : c ≠ '.' ∧ c ≠ '/' := by
  simp only [isdigit, Bool.and_eq_true, decide_eq_true_eq] at h
  constructor
  · intro hc; rw [hc] at h; revert h; decide
  · intro hc; rw [hc] at h; revert h; decide

theorem is_ns_number_spec (x : List Char) (h : is_ns_number x = true) :
    x ≠ [] ∧ (∀ c ∈ x, isdigit c = true) ∧ dec_value x ≤ 65534 := by
  simp only [is_ns_number, Bool.and_eq_true, Bool.not_eq_true', List.isEmpty_eq_false,
    List.all_eq_true, decide_eq_true_eq] at h
  exact ⟨by simpa using h.1.1, h.1.2, h.2⟩

theorem stored_number (x : List Char) (h : is_ns_number x = true) :
    to_u16 (wrap32 ((x.filter isdigit).foldl ns_accum (-1) + 1)) = dec_value x + 1 := by
  obtain ⟨h1, h2, h3⟩ := is_ns_number_spec x h
  rw [List.filter_eq_self.mpr h2, stored_of_value x h2 h3, if_neg h1]

theorem ns_field_text_no_period (f : ns_field) (hw : f.wf = true) :
    ∀ c ∈ f.text, (decide (c ≠ '.')) = true := by
  intro c hc
  cases f with
  | empty => simp [ns_field.text] at hc
  | num x =>
    have := (is_ns_number_spec x hw).2.1 c hc
    simpa using (isdigit_ne_sep c this).1
  | frac x y =>
    simp only [ns_field.wf, Bool.and_eq_true] at hw
    simp only [ns_field.text, List.mem_append, List.mem_cons] at hc
    rcases hc with hc | hc | hc
    · simpa using (isdigit_ne_sep c ((is_ns_number_spec x hw.1).2.1 c hc)).1
    · rw [hc]; decide
    · simpa using (isdigit_ne_sep c ((is_ns_number_spec y hw.2).2.1 c hc)).1

theorem ns_field_parts (f : ns_field) (hw : f.wf = true) :
    to_u16 (wrap32 (((ns_number_part f.text).filter isdigit).foldl ns_accum (-1) + 1)) = f.number
    ∧ to_u16 (wrap32 (((ns_count_part f.text).filter isdigit).foldl ns_accum (-1) + 1)) = f.count := by
  cases f with
  | empty => exact ⟨rfl, rfl⟩
  | num x =>
    have hx := is_ns_number_spec x hw
    have hns : ∀ c ∈ x, (decide (c ≠ '/')) = true := fun c hc => by
      simpa using (isdigit_ne_sep c (hx.2.1 c hc)).2
    have h1 : ns_number_part x = x := by
      unfold ns_number_part; exact List.takeWhile_eq_self_iff.mpr hns
    have h2 : ns_count_part x = [] := by
      unfold ns_count_part
      rw [List.dropWhile_eq_nil_iff.mpr hns]; rfl
    simp only [ns_field.text, ns_field.number, ns_field.count, h1, h2]
    exact ⟨stored_number x hw, rfl⟩
  | frac x y =>
    simp only [ns_field.wf, Bool.and_eq_true] at hw
    have hx := is_ns_number_spec x hw.1
    have hns : ∀ c ∈ x, (decide (c ≠ '/')) = true := fun c hc => by
      simpa using (isdigit_ne_sep c (hx.2.1 c hc)).2
    have h1 : ns_number_part (x ++ '/' :: y) = x := by
      unfold ns_number_part
      rw [List.takeWhile_append_of_pos hns]; simp
    have h2 : ns_count_part (x ++ '/' :: y) = y := by
      unfold ns_count_part
      rw [List.dropWhile_append_of_pos hns]; simp
    simp only [ns_field.text, ns_field.number, ns_field.count, h1, h2]
    exact ⟨stored_number x hw.1, stored_number y hw.2⟩

theorem parse_num_field (f : ns_field) (hw : f.wf = true) (rest : List Char) :
    xmltv_ns_get_parse_num (f.text ++ '.' :: rest) = (f.number, f.count, rest) := by
  have hp := ns_field_text_no_period f hw
  have h1 : ns_first_field (f.text ++ '.' :: rest) = f.text := by
    unfold ns_first_field
    rw [List.takeWhile_append_of_pos hp]; simp
  have h2 : ns_after_field (f.text ++ '.' :: rest) = rest := by
    unfold ns_after_field
    rw [List.dropWhile_append_of_pos hp]; simp
  rw [xmltv_ns_get_parse_num_eq, h1, h2, (ns_field_parts f hw).1, (ns_field_parts f hw).2]

theorem parse_num_field_end (f : ns_field) (hw : f.wf = true) :
    xmltv_ns_get_parse_num f.text = (f.number, f.count, []) := by
  have hp := ns_field_text_no_period f hw
  have h1 : ns_first_field f.text = f.text := by
    unfold ns_first_field; exact List.takeWhile_eq_self_iff.mpr hp
  have h2 : ns_after_field f.text = [] := by
    unfold ns_after_field
    rw [List.dropWhile_eq_nil_iff.mpr hp]; rfl
  rw [xmltv_ns_get_parse_num_eq, h1, h2, (ns_field_parts f hw).1, (ns_field_parts f hw).2]

theorem parse_ns_three_fields (f1 f2 f3 : ns_field) (epnum : epg_episode_num)
    (h1 : f1.wf = true) (h2 : f2.wf = true) (h3 : f3.wf = true) :
    parse_xmltv_ns_episode (f1.text ++ '.' :: (f2.text ++ '.' :: f3.text)) epnum
      = { epnum with
          s_num := f1.number, s_cnt := f1.count
          e_num := f2.number, e_cnt := f2.count
          p_num := f3.number, p_cnt := f3.count } := by
  unfold parse_xmltv_ns_episode
  simp only [parse_num_field f1 h1, parse_num_field f2 h2, parse_num_field_end f3 h3]

theorem stored_position (p : List Char) (hb : position_value p ≤ 65534) :
    to_u16 (wrap32 ((p.filter isdigit).foldl ns_accum (-1) + 1))
      = if has_digit p = true then position_value p + 1 else 0 := by
  rw [stored_of_value (p.filter isdigit) (fun c hc => (List.mem_filter.mp hc).2) hb]
  have h : (p.filter isdigit = []) ↔ ¬ (has_digit p = true) := by
    unfold has_digit
    rw [List.filter_eq_nil_iff, List.any_eq_true]
    constructor
    · rintro h ⟨c, hc, hd⟩; exact h c hc hd
    · intro h c hc hd; exact h ⟨c, hc, hd⟩
  by_cases hp : has_digit p = true
  · rw [if_neg (fun e => (h.mp e) hp), if_pos hp]; rfl
  · rw [if_pos (h.mpr hp), if_neg hp]

theorem stored_zero_iff (p : List Char) (hb : position_value p ≤ 65534) :
    to_u16 (wrap32 ((p.filter isdigit).foldl ns_accum (-1) + 1)) = 0 ↔ has_digit p = false := by
  rw [stored_position p hb]
  by_cases hp : has_digit p = true
  · simp [hp]
  · simp [hp]

theorem ns_scan_count_strip (s : List Char) (b : Int) :
    ns_scan_count b (s.filter (fun c => c ≠ ' '))
      = ((ns_scan_count b s).1, (ns_scan_count b s).2.filter (fun c => c ≠ ' ')) := by
  induction s generalizing b with
  | nil => rfl
  | cons c cs ih =>
    by_cases hc : c = ' '
    · subst hc
      have h : ns_scan_count b (' ' :: cs) = ns_scan_count b cs := by
        rw [ns_scan_count]; simp [isdigit]
      rw [h, ← ih]; simp
    · have hf : (c :: cs).filter (fun c => c ≠ ' ') = c :: cs.filter (fun c => c ≠ ' ') := by
        simp [hc]
      rw [hf]
      unfold ns_scan_count
      by_cases h1 : c = '.'
      · simp [h1]
      · by_cases h2 : isdigit c = true
        · simp only [h1, h2, if_false, if_true]; exact ih _
        · simp only [h1, h2, if_false]; exact ih _

theorem ns_scan_num_strip (s : List Char) (a : Int) :
    ns_scan_num a (s.filter (fun c => c ≠ ' '))
      = ((ns_scan_num a s).1, (ns_scan_num a s).2.1,
         (ns_scan_num a s).2.2.filter (fun c => c ≠ ' ')) := by
  induction s generalizing a with
  | nil => rfl
  | cons c cs ih =>
    by_cases hc : c = ' '
    · subst hc
      have h : ns_scan_num a (' ' :: cs) = ns_scan_num a cs := by
        rw [ns_scan_num]; simp [isdigit]
      rw [h, ← ih]; simp
    · have hf : (c :: cs).filter (fun c => c ≠ ' ') = c :: cs.filter (fun c => c ≠ ' ') := by
        simp [hc]
      rw [hf]
      unfold ns_scan_num
      by_cases h1 : c = '.'
      · simp [h1]
      · by_cases h3 : c = '/'
        · simp only [h3, if_true, ns_scan_count_strip]
          simp
        · by_cases h2 : isdigit c = true
          · simp only [h1, h2, h3, if_false, if_true]; exact ih _
          · simp only [h1, h2, h3, if_false]; exact ih _

theorem xmltv_ns_get_parse_num_strip (s : List Char) :
    xmltv_ns_get_parse_num (s.filter (fun c => c ≠ ' '))
      = ((xmltv_ns_get_parse_num s).1, (xmltv_ns_get_parse_num s).2.1,
         (xmltv_ns_get_parse_num s).2.2.filter (fun c => c ≠ ' ')) := by
  unfold xmltv_ns_get_parse_num
  rw [ns_scan_num_strip]

theorem parse_ns_strip (s : List Char) (epnum : epg_episode_num) :
    parse_xmltv_ns_episode (s.filter (fun c => c ≠ ' ')) epnum = parse_xmltv_ns_episode s epnum := by
  unfold parse_xmltv_ns_episode
  simp only [xmltv_ns_get_parse_num_strip]

theorem parse_ns_unknown_iff (s : List Char) (epnum : epg_episode_num)
    (hb : ∀ i, i < 6 → position_value (ns_position s i) ≤ 65534) :
    ((parse_xmltv_ns_episode s epnum).s_num = 0 ↔ has_digit (ns_position s 0) = false)
    ∧ ((parse_xmltv_ns_episode s epnum).s_cnt = 0 ↔ has_digit (ns_position s 1) = false)
    ∧ ((parse_xmltv_ns_episode s epnum).e_num = 0 ↔ has_digit (ns_position s 2) = false)
    ∧ ((parse_xmltv_ns_episode s epnum).e_cnt = 0 ↔ has_digit (ns_position s 3) = false)
    ∧ ((parse_xmltv_ns_episode s epnum).p_num = 0 ↔ has_digit (ns_position s 4) = false)
    ∧ ((parse_xmltv_ns_episode s epnum).p_cnt = 0 ↔ has_digit (ns_position s 5) = false) := by
  have h0 := stored_zero_iff _ (hb 0 (by omega))
  have h1 := stored_zero_iff _ (hb 1 (by omega))
  have h2 := stored_zero_iff _ (hb 2 (by omega))
  have h3 := stored_zero_iff _ (hb 3 (by omega))
  have h4 := stored_zero_iff _ (hb 4 (by omega))
  have h5 := stored_zero_iff _ (hb 5 (by omega))
  unfold parse_xmltv_ns_episode
  simp only [xmltv_ns_get_parse_num_eq]
  exact ⟨h0, h1, h2, h3, h4, h5⟩

/-! ## Lemmas on programmes and identifiers -/

theorem parse_programme_dropped (env : xmltv_env) (body attribs : htsmsg) (st : xmltv_state)
    (s2 : String)
    (ha : htsmsg_get_map body "attrib" = some attribs)
    (h2 : htsmsg_get_str attribs "stop" = some s2)
    (hw : ∀ s1, htsmsg_get_str attribs "start" = some s1 →
      _xmltv_str2time env.mktime s2.toList ≤ _xmltv_str2time env.mktime s1.toList
        ∨ _xmltv_str2time env.mktime s2.toList ≤ env.dispatch_clock) :
    _xmltv_parse_programme env (some body) st = some (false, st) := by
  unfold _xmltv_parse_programme
  simp only [ha]
  cases htsmsg_get_map body "tags" with
  | none => rfl
  | some tags =>
    simp only []
    cases htsmsg_get_str attribs "channel" with
    | none => rfl
    | some chid =>
      simp only []
      cases (_xmltv_channel_find chid false st.chans).1 with
      | none => rfl
      | some ch =>
        simp only []
        split
        · rfl
        · cases h1 : htsmsg_get_str attribs "start" with
          | none => rfl
          | some s1 => simp only [h2, hw s1 h1, if_true]

theorem dd_progid_uri_out (oob mod_id s : List Char) (uri suri : Option (List Char))
    (epnum : epg_episode_num) :
    (parse_xmltv_dd_progid oob mod_id s uri suri epnum).1
      = if s.length < 2 then uri
        else if s.take 2 ≠ ['S', 'H'] then some ((dd_progid_uri mod_id s).take 126) else uri := by
  unfold parse_xmltv_dd_progid dd_progid_buf dd_progid_uri
  split
  · rfl
  · simp only []
    split <;> (try split) <;> rfl


/-! ## Lemmas on the episode information -/

theorem dd_progid_epnum_frame (oob mod_id s : List Char) (uri suri : Option (List Char))
    (epnum : epg_episode_num) :
    (parse_xmltv_dd_progid oob mod_id s uri suri epnum).2.2
      = { epnum with e_num := (parse_xmltv_dd_progid oob mod_id s uri suri epnum).2.2.e_num } := by
  unfold parse_xmltv_dd_progid
  simp only []
  repeat' (first | rfl | split)

theorem get_episode_info_snoc (env : xmltv_env) (tags : htsmsg) (f : htsmsg_field)
    (init : episode_info) :
    get_episode_info env (tags ++ [f]) init
      = get_episode_info_step env (get_episode_info env tags init) f := by
  unfold get_episode_info
  rw [List.foldl_append]
  rfl

theorem episode_info_step_frame (env : xmltv_env) (acc : episode_info) (f : htsmsg_field) :
    (episode_num_system f ≠ some "onscreen" →
      (get_episode_info_step env acc f).epnum.text = acc.epnum.text)
    ∧ (episode_num_system f ≠ some "xmltv_ns" →
      (get_episode_info_step env acc f).epnum.s_num = acc.epnum.s_num
      ∧ (get_episode_info_step env acc f).epnum.s_cnt = acc.epnum.s_cnt
      ∧ (get_episode_info_step env acc f).epnum.e_cnt = acc.epnum.e_cnt
      ∧ (get_episode_info_step env acc f).epnum.p_num = acc.epnum.p_num
      ∧ (get_episode_info_step env acc f).epnum.p_cnt = acc.epnum.p_cnt)
    ∧ (episode_num_system f ≠ some "xmltv_ns" → episode_num_system f ≠ some "dd_progid" →
      (get_episode_info_step env acc f).epnum.e_num = acc.epnum.e_num) := by
  cases hc : htsmsg_get_map_by_field f with
  | none => simp [get_episode_info_step, episode_num_system, hc]
  | some c =>
    by_cases hn : f.hmf_name = "episode-num"
    · cases ha : htsmsg_get_map c "attrib" with
      | none => simp [get_episode_info_step, episode_num_system, hc, hn, ha]
      | some a =>
        cases hs : htsmsg_get_str a "system" with
        | none =>
          cases hd : htsmsg_get_str c "cdata" <;>
            simp [get_episode_info_step, episode_num_system, hc, hn, ha, hs, hd]
        | some sys =>
          cases hd : htsmsg_get_str c "cdata" with
          | none => simp [get_episode_info_step, episode_num_system, hc, hn, ha, hs, hd]
          | some cdata =>
            have hfr := dd_progid_epnum_frame env.oob env.mod_id cdata.toList acc.uri
              acc.suri acc.epnum
            by_cases h1 : sys = "onscreen"
            · subst h1
              simp [get_episode_info_step, episode_num_system, hc, hn, ha, hs, hd]
            · by_cases h2 : sys = "xmltv_ns"
              · subst h2
                simp [get_episode_info_step, episode_num_system, hc, hn, ha, hs, hd,
                  parse_xmltv_ns_episode]
              · by_cases h3 : sys = "dd_progid"
                · subst h3
                  have hsys : episode_num_system f = some "dd_progid" := by
                    simp [episode_num_system, hc, hn, ha, hs]
                  have hstep : (get_episode_info_step env acc f).epnum
                      = (parse_xmltv_dd_progid env.oob env.mod_id cdata.toList acc.uri
                          acc.suri acc.epnum).2.2 := by
                    simp [get_episode_info_step, hc, hn, ha, hs, hd]
                  rw [hsys, hstep, hfr]
                  exact ⟨fun _ => rfl, fun _ => ⟨rfl, rfl, rfl, rfl, rfl⟩,
                    fun _ h => absurd rfl h⟩
                · simp [get_episode_info_step, episode_num_system, hc, hn, ha, hs, hd, h1, h2, h3]
    · simp [get_episode_info_step, episode_num_system, hc, hn]

/-! ## Lemmas on the setters of the guide database -/

theorem epg_broadcast_set_get (db : epg_db) (i : Nat) (upd : epg_broadcast → epg_broadcast)
    (j : Nat) :
    (epg_broadcast_set db i upd).2.broadcasts.get? j
      = if j = i then (db.broadcasts.get? i).map upd else db.broadcasts.get? j := by
  unfold epg_broadcast_set
  cases h : db.broadcasts.get? i with
  | none =>
    simp only []
    split
    · rename_i hj; rw [hj, h]; rfl
    · rfl
  | some b =>
    simp only []
    by_cases hu : upd b = b
    · simp only [hu, if_true]
      split
      · rename_i hj; rw [hj, h]; simp [hu]
      · rfl
    · simp only [hu, if_false]
      split
      · rename_i hj
        subst hj
        have hlt : j < db.broadcasts.length := by
          have := List.get?_eq_some.mp h
          exact this.1
        simp [List.getElem?_set, hlt]
      · rename_i hj
        simp [List.getElem?_set, Ne.symm hj]

theorem epg_broadcast_set_rest (db : epg_db) (i : Nat) (upd : epg_broadcast → epg_broadcast) :
    (epg_broadcast_set db i upd).2.episodes = db.episodes
    ∧ (epg_broadcast_set db i upd).2.serieslinks = db.serieslinks
    ∧ (epg_broadcast_set db i upd).2.broadcasts.length = db.broadcasts.length := by
  unfold epg_broadcast_set
  cases db.broadcasts.get? i with
  | none => exact ⟨rfl, rfl, rfl⟩
  | some b =>
    simp only []
    split
    · exact ⟨rfl, rfl, rfl⟩
    · exact ⟨rfl, rfl, by simp⟩

theorem epg_episode_set_rest (db : epg_db) (ee : Option Nat) (upd : epg_episode → epg_episode) :
    (epg_episode_set db ee upd).2.broadcasts = db.broadcasts
    ∧ (epg_episode_set db ee upd).2.serieslinks = db.serieslinks
    ∧ (epg_episode_set db ee upd).2.episodes.length = db.episodes.length := by
  unfold epg_episode_set
  cases ee with
  | none => exact ⟨rfl, rfl, rfl⟩
  | some i =>
    simp only []
    cases db.episodes.get? i with
    | none => exact ⟨rfl, rfl, rfl⟩
    | some e =>
      simp only []
      split
      · exact ⟨rfl, rfl, rfl⟩
      · exact ⟨rfl, rfl, by simp⟩

/-! ## Lemmas on `parse_vid_quality` -/

theorem parse_vid_quality_eq (db : epg_db) (ebc : Nat) (ee : Option Nat) (m : htsmsg) :
    parse_vid_quality db (some ebc) ee (some m)
      = (vid_quality_values m).map (fun v =>
          ((vid_colour_setter db ee m).1
              || (vid_quality_setters (vid_colour_setter db ee m).2 ebc v.1 v.2.1 v.2.2).1,
            (vid_quality_setters (vid_colour_setter db ee m).2 ebc v.1 v.2.1 v.2.2).2)) := by
  unfold parse_vid_quality vid_quality_values vid_quality_setters vid_colour_setter
  simp only []
  cases (htsmsg_xml_get_cdata_str m "aspect").bind (fun str => sscanf_aspect str.toList) with
  | some wh =>
    obtain ⟨w, h⟩ := wh
    simp only []
    by_cases hz : h = 0 ∨ (wrap32 (100 * w) = -2147483648 ∧ h = -1)
    · simp only [if_pos hz, Option.map_none']
    · simp only [if_neg hz, Option.map_some', Bool.or_assoc]
  | none =>
    simp only [Option.map_some', Bool.or_assoc]

theorem vid_quality_setters_get (db : epg_db) (ebc : Nat) (hd : Bool) (lines a : Int) (j : Nat) :
    (vid_quality_setters db ebc hd lines a).2.broadcasts.get? j
      = if j = ebc then (db.broadcasts.get? ebc).map (vid_quality_store hd lines a)
        else db.broadcasts.get? j := by
  unfold vid_quality_setters
  simp only []
  by_cases hl : lines ≠ 0 <;> by_cases ha : a ≠ 0
  · rw [if_pos hl, if_pos ha]
    simp only [epg_broadcast_set_get]
    by_cases hj : j = ebc
    · simp only [hj, if_true]
      cases db.broadcasts.get? ebc <;> simp [vid_quality_store, hl, ha]
    · simp only [hj, if_false]
  · rw [if_pos hl, if_neg ha]
    simp only [epg_broadcast_set_get]
    by_cases hj : j = ebc
    · simp only [hj, if_true]
      cases db.broadcasts.get? ebc <;> simp [vid_quality_store, hl, ha]
    · simp only [hj, if_false]
  · rw [if_neg hl, if_pos ha]
    simp only [epg_broadcast_set_get]
    by_cases hj : j = ebc
    · simp only [hj, if_true]
      cases db.broadcasts.get? ebc <;> simp [vid_quality_store, hl, ha]
    · simp only [hj, if_false]
  · rw [if_neg hl, if_neg ha]
    simp only [epg_broadcast_set_get]
    by_cases hj : j = ebc
    · simp only [hj, if_true]
      cases db.broadcasts.get? ebc <;> simp [vid_quality_store, hl, ha]
    · simp only [hj, if_false]

theorem vid_quality_setters_rest (db : epg_db) (ebc : Nat) (hd : Bool) (lines a : Int) :
    (vid_quality_setters db ebc hd lines a).2.episodes = db.episodes
    ∧ (vid_quality_setters db ebc hd lines a).2.serieslinks = db.serieslinks
    ∧ (vid_quality_setters db ebc hd lines a).2.broadcasts.length = db.broadcasts.length := by
  unfold vid_quality_setters
  simp only []
  by_cases hl : lines ≠ 0 <;> by_cases ha : a ≠ 0 <;>
    simp only [hl, ha, if_true, if_false, ne_eq, not_true_eq_false, not_false_eq_true,
      epg_broadcast_set_rest, and_self]

theorem vid_colour_setter_rest (db : epg_db) (ee : Option Nat) (m : htsmsg) :
    (vid_colour_setter db ee m).2.broadcasts = db.broadcasts
    ∧ (vid_colour_setter db ee m).2.serieslinks = db.serieslinks
    ∧ (vid_colour_setter db ee m).2.episodes.length = db.episodes.length := by
  unfold vid_colour_setter
  split
  · exact epg_episode_set_rest _ _ _
  · exact ⟨rfl, rfl, rfl⟩

theorem vid_quality_values_plain (m : htsmsg) (str : String)
    (hq : htsmsg_xml_get_cdata_str m "quality" = some str)
    (ha : (htsmsg_xml_get_cdata_str m "aspect").bind (fun s => sscanf_aspect s.toList) = none) :
    vid_quality_values m = some (vid_quality_of str.toList) := by
  unfold vid_quality_values
  simp only [hq, ha]

theorem find_index_some {α : Type} (p : α → Bool) (l : List α) (i : Nat)
    (h : find_index p l = some i) : ∃ x, l.get? i = some x ∧ p x = true := by
  induction l generalizing i with
  | nil => simp [find_index] at h
  | cons a as ih =>
    unfold find_index at h
    by_cases hp : p a = true
    · simp only [hp, if_true, Option.some.injEq] at h
      subst h
      exact ⟨a, rfl, hp⟩
    · simp only [hp] at h
      cases hf : find_index p as with
      | none => simp [hf] at h
      | some k =>
        simp only [hf, Option.map_some', Option.some.injEq, Bool.false_eq_true, if_false] at h
        subst h
        obtain ⟨x, hx, hpx⟩ := ih k hf
        exact ⟨x, by simpa using hx, hpx⟩

theorem epggrab_channel_set_report (chans : List epggrab_channel) (i : Nat)
    (upd : epggrab_channel → epggrab_channel) (c : epggrab_channel)
    (hc : chans.get? i = some c) :
    (epggrab_channel_set chans i upd).1 = decide (upd c ≠ c)
    ∧ (epggrab_channel_set chans i upd).2.get? i = some (upd c)
    ∧ ((epggrab_channel_set chans i upd).1 = false → (epggrab_channel_set chans i upd).2 = chans)
    ∧ (epggrab_channel_set chans i upd).2.length = chans.length := by
  unfold epggrab_channel_set
  simp only [hc]
  by_cases hu : upd c = c
  · have hc2 : chans[i]? = some c := by simpa using hc
    simp [hu, hc2]
  · have hlt : i < chans.length := (List.get?_eq_some.mp hc).1
    simp [hu, List.getElem?_set, hlt]

theorem channel_name_step (chans : List epggrab_channel) (ch : Nat) (c : epggrab_channel)
    (new : Option String) (hc : chans.get? ch = some c) :
    (match new with
      | some name => epggrab_channel_set chans ch (fun c => { c with name := some name })
      | none => (false, chans)).1 = setter_reports c.name new
    ∧ (match new with
      | some name => epggrab_channel_set chans ch (fun c => { c with name := some name })
      | none => (false, chans)).2.get? ch
        = some { c with name := match new with
                  | some n => some n
                  | none => c.name }
    ∧ ((match new with
      | some name => epggrab_channel_set chans ch (fun c => { c with name := some name })
      | none => (false, chans)).1 = false →
        (match new with
        | some name => epggrab_channel_set chans ch (fun c => { c with name := some name })
        | none => (false, chans)).2 = chans) := by
  cases new with
  | none => exact ⟨rfl, hc, fun _ => rfl⟩
  | some name =>
    obtain ⟨h1, h2, h3, _⟩ := epggrab_channel_set_report chans ch
      (fun c => { c with name := some name }) c hc
    refine ⟨?_, h2, h3⟩
    rw [h1]
    unfold setter_reports
    cases c
    simp [eq_comm]

theorem channel_icon_step (chans : List epggrab_channel) (ch : Nat) (c : epggrab_channel)
    (new : Option String) (hc : chans.get? ch = some c) :
    (match new with
      | some icon => epggrab_channel_set chans ch (fun c => { c with icon := some icon })
      | none => (false, chans)).1 = setter_reports c.icon new
    ∧ (match new with
      | some icon => epggrab_channel_set chans ch (fun c => { c with icon := some icon })
      | none => (false, chans)).2.get? ch
        = some { c with icon := match new with
                  | some n => some n
                  | none => c.icon }
    ∧ ((match new with
      | some icon => epggrab_channel_set chans ch (fun c => { c with icon := some icon })
      | none => (false, chans)).1 = false →
        (match new with
        | some icon => epggrab_channel_set chans ch (fun c => { c with icon := some icon })
        | none => (false, chans)).2 = chans) := by
  cases new with
  | none => exact ⟨rfl, hc, fun _ => rfl⟩
  | some icon =>
    obtain ⟨h1, h2, h3, _⟩ := epggrab_channel_set_report chans ch
      (fun c => { c with icon := some icon }) c hc
    refine ⟨?_, h2, h3⟩
    rw [h1]
    unfold setter_reports
    cases c
    simp [eq_comm]

theorem parse_channel_found (st : xmltv_state) (body attribs tags : htsmsg) (id : String)
    (chans1 : List epggrab_channel) (ch : Nat) (created : Bool) (c : epggrab_channel)
    (ha : htsmsg_get_map body "attrib" = some attribs)
    (hi : htsmsg_get_str attribs "id" = some id)
    (ht : htsmsg_get_map body "tags" = some tags)
    (hf : _xmltv_channel_find id true st.chans = (some ch, created, chans1))
    (hc : chans1.get? ch = some c) :
    (_xmltv_parse_channel (some body) st).1
      = (created || setter_reports c.name (channel_node_name tags)
          || setter_reports c.icon (channel_node_icon tags))
    ∧ (_xmltv_parse_channel (some body) st).2.db = st.db
    ∧ (_xmltv_parse_channel (some body) st).2.stats
        = channel_stats_after st.stats created (_xmltv_parse_channel (some body) st).1
    ∧ ((_xmltv_parse_channel (some body) st).1 = true →
        (_xmltv_parse_channel (some body) st).2.chans.get? ch
          = some (channel_merged c (channel_node_name tags) (channel_node_icon tags)))
    ∧ ((_xmltv_parse_channel (some body) st).1 = false →
        (_xmltv_parse_channel (some body) st).2.chans = chans1) := by
  unfold _xmltv_parse_channel
  simp only [ha, hi, ht, hf]
  unfold channel_node_name channel_node_icon
  obtain ⟨n1, n2, n3⟩ := channel_name_step chans1 ch c
    (htsmsg_xml_get_cdata_str tags "display-name") hc
  generalize (match htsmsg_xml_get_cdata_str tags "display-name" with
      | some name => epggrab_channel_set chans1 ch (fun c => { c with name := some name })
      | none => (false, chans1)) = n at n1 n2 n3
  obtain ⟨i1, i2, i3⟩ := channel_icon_step n.2 ch _
    (((htsmsg_get_map tags "icon").bind (fun t => htsmsg_get_map t "attrib")).bind
      (fun a => htsmsg_get_str a "src")) n2
  generalize (match ((htsmsg_get_map tags "icon").bind (fun t => htsmsg_get_map t "attrib")).bind
        (fun a => htsmsg_get_str a "src") with
      | some icon => epggrab_channel_set n.2 ch (fun c => { c with icon := some icon })
      | none => (false, n.2)) = i at i1 i2 i3
  simp only [] at i1
  rw [n1, i1]
  generalize hsv : (created || setter_reports c.name (htsmsg_xml_get_cdata_str tags "display-name")
      || setter_reports c.icon
        (((htsmsg_get_map tags "icon").bind (fun t => htsmsg_get_map t "attrib")).bind
          (fun a => htsmsg_get_str a "src"))) = save
  refine ⟨rfl, trivial, ?_, ?_, ?_⟩
  · cases save <;> cases created <;>
      simp [channel_stats_after, epggrab_stats_part.inc_total, epggrab_stats_part.inc_created,
        epggrab_stats_part.inc_modified]
  · intro hs
    simp only [hs, if_true]
    rw [(epggrab_channel_set_report i.2 ch (fun c => { c with updated := true }) _ i2).2.1]
    rfl
  · intro hs
    rw [hs] at hsv
    simp only [Bool.or_eq_false_iff] at hsv
    simp only [hs, Bool.false_eq_true, if_false]
    rw [i3 (by rw [i1]; exact hsv.2), n3 (by rw [n1]; exact hsv.1.2)]

theorem parse_channel_dropped (st : xmltv_state) (body : htsmsg)
    (h : (htsmsg_get_map body "attrib").bind (fun a => htsmsg_get_str a "id") = none
      ∨ htsmsg_get_map body "tags" = none) :
    _xmltv_parse_channel (some body) st = (false, st) := by
  cases ha : htsmsg_get_map body "attrib" with
  | none => simp only [_xmltv_parse_channel, ha]
  | some attribs =>
    cases hi : htsmsg_get_str attribs "id" with
    | none => simp only [_xmltv_parse_channel, ha, hi]
    | some id =>
      cases ht : htsmsg_get_map body "tags" with
      | none => simp only [_xmltv_parse_channel, ha, hi, ht]
      | some tags =>
        rw [ha, ht] at h
        simp [hi] at h

/-! ## Lemmas on the programme pipeline -/

theorem bc_flags_frame : bc_frame bc_flags :=
  ⟨fun _ _ => rfl, fun _ _ => rfl, fun _ _ => rfl, fun _ _ => rfl, fun _ _ => rfl,
   fun _ _ => rfl, fun _ _ => rfl, fun _ _ => rfl, fun _ _ => rfl, fun _ _ => rfl⟩

theorem bc_key_frame : bc_frame bc_key :=
  ⟨fun _ _ => rfl, fun _ _ => rfl, fun _ _ => rfl, fun _ _ => rfl, fun _ _ => rfl,
   fun _ _ => rfl, fun _ _ => rfl, fun _ _ => rfl, fun _ _ => rfl, fun _ _ => rfl⟩

theorem epg_broadcast_set_view {α : Type} (view : epg_broadcast → α) (db : epg_db) (i : Nat)
    (upd : epg_broadcast → epg_broadcast) (hupd : ∀ b, view (upd b) = view b) (j : Nat) :
    ((epg_broadcast_set db i upd).2.broadcasts.get? j).map view
      = (db.broadcasts.get? j).map view := by
  rw [epg_broadcast_set_get]
  split
  · rename_i h
    rw [h]
    cases db.broadcasts.get? i with
    | none => rfl
    | some b => simp [hupd]
  · rfl

theorem vid_quality_store_view {α : Type} (view : epg_broadcast → α) (hv : bc_frame view)
    (hd : Bool) (lines aspect : Int) (b : epg_broadcast) :
    view (vid_quality_store hd lines aspect b) = view b := by
  unfold vid_quality_store
  have h1 := hv.is_hd b hd
  have h2 := hv.is_widescreen { b with is_hd := hd }
    (if aspect ≠ 0 then hd || decide (aspect > 137) else b.is_widescreen)
  have h3 := hv.aspect
    { b with is_hd := hd
             is_widescreen := if aspect ≠ 0 then hd || decide (aspect > 137) else b.is_widescreen }
    (if aspect ≠ 0 then aspect else b.aspect)
  have h4 := hv.lines
    { b with is_hd := hd
             is_widescreen := if aspect ≠ 0 then hd || decide (aspect > 137) else b.is_widescreen
             aspect := if aspect ≠ 0 then aspect else b.aspect }
    (if lines ≠ 0 then lines else b.lines)
  exact h4.trans (h3.trans (h2.trans h1))

theorem video_aspect_traps_iff (tags : htsmsg) :
    (match htsmsg_get_map tags "video" with
      | some m => vid_quality_values m = none
      | none => False) ↔ video_aspect_traps tags = true := by
  unfold video_aspect_traps vid_quality_values
  cases htsmsg_get_map tags "video" with
  | none => simp
  | some m =>
    simp only []
    cases (htsmsg_xml_get_cdata_str m "aspect").bind (fun str => sscanf_aspect str.toList) with
    | none => simp
    | some wh =>
      obtain ⟨w, h⟩ := wh
      by_cases hz : h = 0 ∨ (wrap32 (100 * w) = -2147483648 ∧ h = -1)
      · simp only [if_pos hz, decide_eq_true_eq, true_iff]; exact hz
      · simp only [if_neg hz, decide_eq_true_eq, reduceCtorEq, false_iff]; exact hz

theorem parse_vid_quality_view {α : Type} (view : epg_broadcast → α) (hv : bc_frame view)
    (db : epg_db) (ebc : Nat) (ee : Option Nat) (tags : htsmsg)
    (ht : video_aspect_traps tags = false) :
    ∃ r, parse_vid_quality db (some ebc) ee (htsmsg_get_map tags "video") = some r
      ∧ (∀ j, (r.2.broadcasts.get? j).map view = (db.broadcasts.get? j).map view)
      ∧ r.2.broadcasts.length = db.broadcasts.length := by
  have hn := (video_aspect_traps_iff tags).not.mpr (by simp [ht])
  cases hm : htsmsg_get_map tags "video" with
  | none => exact ⟨(false, db), by simp [parse_vid_quality], fun _ => rfl, rfl⟩
  | some m =>
    rw [hm] at hn
    simp only [] at hn
    cases hq : vid_quality_values m with
    | none => exact absurd hq hn
    | some v =>
      rw [parse_vid_quality_eq, hq]
      refine ⟨_, rfl, ?_, ?_⟩
      · intro j
        simp only [vid_quality_setters_get, (vid_colour_setter_rest db ee m).1]
        split
        · rename_i h
          rw [h]
          cases db.broadcasts.get? ebc with
          | none => rfl
          | some b => simp [vid_quality_store_view view hv]
        · rfl
      · simp only [(vid_quality_setters_rest _ _ _ _ _).2.2, (vid_colour_setter_rest db ee m).1]

theorem bc_same_refl {α : Type} (view : epg_broadcast → α) (db : epg_db) : bc_same view db db :=
  ⟨fun _ => rfl, rfl⟩

theorem bc_same_trans {α : Type} (view : epg_broadcast → α) (a b c : epg_db)
    (h1 : bc_same view a b) (h2 : bc_same view b c) : bc_same view a c :=
  ⟨fun j => (h2.1 j).trans (h1.1 j), h2.2.trans h1.2⟩

theorem bc_same_of_eq {α : Type} (view : epg_broadcast → α) (db db2 : epg_db)
    (h : db2.broadcasts = db.broadcasts) : bc_same view db db2 :=
  ⟨fun j => by rw [h], by rw [h]⟩

theorem bc_same_set {α : Type} (view : epg_broadcast → α) (db : epg_db) (i : Nat)
    (upd : epg_broadcast → epg_broadcast) (hupd : ∀ b, view (upd b) = view b) :
    bc_same view db (epg_broadcast_set db i upd).2 :=
  ⟨epg_broadcast_set_view view db i upd hupd, (epg_broadcast_set_rest db i upd).2.2⟩

theorem accessibility_step_same {α : Type} (view : epg_broadcast → α) (hv : bc_frame view)
    (ebc : Nat) (acc : Bool × epg_db) (f : htsmsg_field) :
    bc_same view acc.2 (xmltv_parse_accessibility_step ebc acc f).2 := by
  unfold xmltv_parse_accessibility_step
  split
  · split
    · split
      · split
        · exact bc_same_set view _ _ _ (fun b => hv.is_subtitled b true)
        · split
          · exact bc_same_set view _ _ _ (fun b => hv.is_deafsigned b true)
          · exact bc_same_refl view _
      · exact bc_same_refl view _
    · exact bc_same_refl view _
  · split
    · exact bc_same_set view _ _ _ (fun b => hv.is_audio_desc b true)
    · exact bc_same_refl view _

theorem accessibility_same {α : Type} (view : epg_broadcast → α) (hv : bc_frame view)
    (db : epg_db) (ebc : Nat) (m : htsmsg) :
    bc_same view db (xmltv_parse_accessibility db ebc m).2 := by
  unfold xmltv_parse_accessibility
  have h : ∀ (l : htsmsg) (acc : Bool × epg_db),
      bc_same view acc.2 (l.foldl (xmltv_parse_accessibility_step ebc) acc).2 := by
    intro l
    induction l with
    | nil => intro acc; exact bc_same_refl view _
    | cons f fs ih =>
      intro acc
      simp only [List.foldl_cons]
      exact bc_same_trans view _ _ _ (accessibility_step_same view hv ebc acc f) (ih _)
  exact h m (false, db)

theorem serieslink_find_broadcasts (uri : String) (create : Bool) (db : epg_db) :
    (epg_serieslink_find_by_uri uri create db).2.2.broadcasts = db.broadcasts
    ∧ (epg_serieslink_find_by_uri uri create db).2.2.episodes = db.episodes := by
  unfold epg_serieslink_find_by_uri
  split
  · exact ⟨rfl, rfl⟩
  · split <;> exact ⟨rfl, rfl⟩

theorem episode_find_broadcasts (uri : String) (create : Bool) (db : epg_db) :
    (epg_episode_find_by_uri uri create db).2.2.broadcasts = db.broadcasts := by
  unfold epg_episode_find_by_uri
  split
  · rfl
  · split <;> rfl

theorem programme_serieslink_same {α : Type} (view : epg_broadcast → α) (hv : bc_frame view)
    (suri : Option (List Char)) (ebc : Nat) (save : Bool) (db : epg_db) (stats : epggrab_stats) :
    bc_same view db (programme_serieslink suri ebc save db stats).2.2.1 := by
  unfold programme_serieslink
  cases suri with
  | none => exact bc_same_refl view _
  | some s =>
    simp only []
    split
    · exact bc_same_trans view _ _ _
        (bc_same_of_eq view _ _ (serieslink_find_broadcasts _ _ _).1)
        (bc_same_set view _ _ _ (fun b => hv.serieslink b _))
    · exact bc_same_of_eq view _ _ (serieslink_find_broadcasts _ _ _).1

theorem get_episode_same {α : Type} (view : epg_broadcast → α) (hv : bc_frame view)
    (db : epg_db) (ebc : Nat) (create : Bool) :
    bc_same view db (epg_broadcast_get_episode db ebc create).2.2 := by
  unfold epg_broadcast_get_episode
  cases hb : db.broadcasts.get? ebc with
  | none => exact bc_same_refl view _
  | some b =>
    simp only []
    split
    · exact bc_same_refl view _
    · split
      · have hlt : ebc < db.broadcasts.length := (List.get?_eq_some.mp hb).1
        have hb2 : db.broadcasts[ebc]? = some b := by simpa using hb
        refine ⟨fun j => ?_, by simp⟩
        by_cases hj : ebc = j
        · subst hj
          simp [List.getElem?_set, hlt, hb2, hv.episode]
        · simp [List.getElem?_set, hj]
      · exact bc_same_refl view _

theorem programme_episode_same {α : Type} (view : epg_broadcast → α) (hv : bc_frame view)
    (uri : Option (List Char)) (ebc : Nat) (save save3 : Bool) (db : epg_db) :
    bc_same view db (programme_episode uri ebc save save3 db).2.2.2 := by
  unfold programme_episode
  cases uri with
  | some u =>
    simp only []
    split
    · exact bc_same_trans view _ _ _
        (bc_same_of_eq view _ _ (episode_find_broadcasts _ _ _))
        (bc_same_set view _ _ _ (fun b => hv.episode b _))
    · exact bc_same_of_eq view _ _ (episode_find_broadcasts _ _ _)
  | none => exact get_episode_same view hv db ebc true

theorem programme_episode_attrs_same {α : Type} (view : epg_broadcast → α)
    (tags : htsmsg) (epnum : epg_episode_num) (ee : Nat) (save3 : Bool) (db : epg_db) :
    bc_same view db (programme_episode_attrs tags epnum ee save3 db).2 := by
  unfold programme_episode_attrs
  simp only []
  refine bc_same_of_eq view _ _ ?_
  rw [(epg_episode_set_rest _ _ _).1]
  have h3 : ∀ (d : epg_db) (o : Option (List (Option String))),
      (match o with
        | some egl => epg_episode_set d (some ee) (fun e => { e with genre := egl })
        | none => (false, d)).2.broadcasts = d.broadcasts := by
    intro d o; cases o
    · rfl
    · exact (epg_episode_set_rest _ _ _).1
  have h2 : ∀ (d : epg_db) (o : Option lang_str),
      (match o with
        | some t => epg_episode_set d (some ee) (fun e => { e with subtitle := some t })
        | none => (false, d)).2.broadcasts = d.broadcasts := by
    intro d o; cases o
    · rfl
    · exact (epg_episode_set_rest _ _ _).1
  have h1 : ∀ (d : epg_db) (o : Option lang_str),
      (match o with
        | some t => epg_episode_set d (some ee) (fun e => { e with title := some t })
        | none => (false, d)).2.broadcasts = d.broadcasts := by
    intro d o; cases o
    · rfl
    · exact (epg_episode_set_rest _ _ _).1
  rw [h3, h2, h1]

theorem inc_created_total (p : epggrab_stats_part) (flag : Bool) :
    (p.inc_created flag).total = p.total := by
  unfold epggrab_stats_part.inc_created
  split <;> rfl

theorem inc_modified_total (p : epggrab_stats_part) (flag : Bool) :
    (p.inc_modified flag).total = p.total := by
  unfold epggrab_stats_part.inc_modified
  split <;> rfl

theorem programme_serieslink_stats (suri : Option (List Char)) (ebc : Nat) (save : Bool)
    (db : epg_db) (stats : epggrab_stats) :
    (programme_serieslink suri ebc save db stats).2.2.2.broadcasts = stats.broadcasts
    ∧ (programme_serieslink suri ebc save db stats).2.2.2.episodes = stats.episodes
    ∧ (programme_serieslink suri ebc save db stats).2.2.2.channels = stats.channels := by
  unfold programme_serieslink
  cases suri with
  | none => exact ⟨rfl, rfl, rfl⟩
  | some s =>
    simp only []
    split <;> split <;> exact ⟨rfl, rfl, rfl⟩

theorem programme_attrs_or_same {α : Type} (view : epg_broadcast → α) (o : Option Nat)
    (tags : htsmsg) (epnum : epg_episode_num) (save3 : Bool) (db : epg_db) :
    bc_same view db
      (match o with
        | some ee => programme_episode_attrs tags epnum ee save3 db
        | none => (save3, db)).2 := by
  cases o with
  | none => exact bc_same_refl view _
  | some ee => exact programme_episode_attrs_same view tags epnum ee save3 db

theorem programme_tags_decompose {α : Type} (view : epg_broadcast → α) (hv : bc_frame view)
    (env : xmltv_env) (ch : Nat) (tags : htsmsg) (start stop : Int) (st : xmltv_state)
    (ebc : Nat)
    (hf : (epg_broadcast_find_by_time env.dispatch_clock ch start stop true st.db).1 = some ebc)
    (ht : video_aspect_traps tags = false) :
    ∃ r dbA, _xmltv_parse_programme_tags env ch tags start stop st = some r
      ∧ bc_same view (epg_broadcast_find_by_time env.dispatch_clock ch start stop true st.db).2.2
          dbA
      ∧ bc_same view (programme_repeat_new tags ebc dbA).2 r.2.db
      ∧ r.2.chans = st.chans
      ∧ r.2.stats.broadcasts.total = st.stats.broadcasts.total + 1
      ∧ r.2.stats.channels = st.stats.channels := by
  unfold _xmltv_parse_programme_tags
  simp only [hf]
  generalize hd : (match _xmltv_parse_lang_str none tags "desc" with
      | some desc =>
        epg_broadcast_set (epg_broadcast_find_by_time env.dispatch_clock ch start stop true st.db).2.2
          ebc (fun b => { b with description := some desc })
      | none => (false, (epg_broadcast_find_by_time env.dispatch_clock ch start stop true st.db).2.2))
    = d
  have hds : bc_same view
      (epg_broadcast_find_by_time env.dispatch_clock ch start stop true st.db).2.2 d.2 := by
    rw [← hd]
    split
    · exact bc_same_set view _ _ _ (fun b => hv.description b _)
    · exact bc_same_refl view _
  obtain ⟨q, hq, hq1, hq2⟩ := parse_vid_quality_view view hv d.2 ebc none tags ht
  rw [hq]
  simp only []
  refine ⟨_, (xmltv_parse_accessibility q.2 ebc tags).2, rfl, ?_, ?_, rfl, ?_, ?_⟩
  · exact bc_same_trans view _ _ _ hds
      (bc_same_trans view _ _ _ ⟨hq1, hq2⟩ (accessibility_same view hv _ _ _))
  · unfold programme_repeat_new
    refine bc_same_trans view _ _ _ ?_ (programme_attrs_or_same view _ tags _ _ _)
    refine bc_same_trans view _ _ _ ?_ (programme_episode_same view hv _ ebc _ _ _)
    exact programme_serieslink_same view hv _ ebc _ _ _
  · simp only [apply_ite epggrab_stats.broadcasts, ite_self, inc_modified_total,
      inc_created_total, (programme_serieslink_stats _ _ _ _ _).1,
      epggrab_stats_part.inc_total]
  · simp only [apply_ite epggrab_stats.channels, ite_self,
      (programme_serieslink_stats _ _ _ _ _).2.2]

theorem find_by_time_valid (now : Int) (ch : Nat) (start stop : Int) (db : epg_db)
    (hw : ¬ (stop ≤ start ∨ stop ≤ now)) :
    ∃ ebc b0, (epg_broadcast_find_by_time now ch start stop true db).1 = some ebc
      ∧ (epg_broadcast_find_by_time now ch start stop true db).2.2.broadcasts.get? ebc = some b0
      ∧ bc_key b0 = (ch, start, stop)
      ∧ (∀ j b, db.broadcasts.get? j = some b →
          (epg_broadcast_find_by_time now ch start stop true db).2.2.broadcasts.get? j = some b) := by
  unfold epg_broadcast_find_by_time
  rw [if_neg hw]
  cases hfi : find_index (fun b => decide (b.channel = ch ∧ b.start = start ∧ b.stop = stop))
      db.broadcasts with
  | some i =>
    obtain ⟨x, hx, hp⟩ := find_index_some _ _ _ hfi
    simp only [decide_eq_true_eq] at hp
    refine ⟨i, x, rfl, hx, ?_, fun j b h => h⟩
    unfold bc_key
    rw [hp.1, hp.2.1, hp.2.2]
  | none =>
    refine ⟨db.broadcasts.length, epg_broadcast_new ch start stop, rfl, ?_, rfl, ?_⟩
    · simp
    · intro j b h
      have hlt : j < db.broadcasts.length := (List.get?_eq_some.mp h).1
      have h2 : db.broadcasts[j]? = some b := by simpa using h
      simp [List.getElem?_append_left hlt, h2]

theorem find_by_time_rejected (now : Int) (ch : Nat) (start stop : Int) (create : Bool)
    (db : epg_db) (hw : stop ≤ start ∨ stop ≤ now) :
    epg_broadcast_find_by_time now ch start stop create db = (none, false, db) := by
  unfold epg_broadcast_find_by_time
  rw [if_pos hw]

theorem programme_repeat_new_flags (tags : htsmsg) (ebc : Nat) (db : epg_db) :
    ((programme_repeat_new tags ebc db).2.broadcasts.get? ebc).map bc_flags
      = (db.broadcasts.get? ebc).map (fun b =>
          (b.is_repeat || has_previously_shown tags,
           b.is_new || (!has_previously_shown tags && has_premiere_or_new tags))) := by
  unfold programme_repeat_new has_previously_shown has_premiere_or_new
  by_cases h1 : (htsmsg_get_map tags "previously-shown").isSome = true
  · rw [if_pos h1, epg_broadcast_set_get, if_pos rfl]
    cases db.broadcasts.get? ebc <;> simp [bc_flags, h1]
  · rw [if_neg h1]
    by_cases h2 : (htsmsg_get_map tags "premiere").isSome = true
        ∨ (htsmsg_get_map tags "new").isSome = true
    · rw [if_pos h2, epg_broadcast_set_get, if_pos rfl]
      have h3 : ((htsmsg_get_map tags "premiere").isSome
          || (htsmsg_get_map tags "new").isSome) = true := by
        simpa using h2
      cases db.broadcasts.get? ebc <;> simp [bc_flags, h1, h3]
    · rw [if_neg h2]
      have h3 : ((htsmsg_get_map tags "premiere").isSome
          || (htsmsg_get_map tags "new").isSome) = false := by
        simpa using h2
      cases db.broadcasts.get? ebc <;> simp [bc_flags, h1, h3]

theorem programme_repeat_new_key (tags : htsmsg) (ebc : Nat) (db : epg_db) :
    bc_same bc_key db (programme_repeat_new tags ebc db).2 := by
  unfold programme_repeat_new
  split
  · exact bc_same_set bc_key _ _ _ (fun _ => rfl)
  · split
    · exact bc_same_set bc_key _ _ _ (fun _ => rfl)
    · exact bc_same_refl bc_key _

theorem programme_tags_flags (env : xmltv_env) (ch : Nat) (tags : htsmsg) (start stop : Int)
    (st : xmltv_state)
    (hw : ¬ (stop ≤ start ∨ stop ≤ env.dispatch_clock))
    (ht : video_aspect_traps tags = false) :
    ∃ r ebc b0 b, _xmltv_parse_programme_tags env ch tags start stop st = some r
      ∧ (epg_broadcast_find_by_time env.dispatch_clock ch start stop true st.db).1 = some ebc
      ∧ (epg_broadcast_find_by_time env.dispatch_clock ch start stop true st.db).2.2.broadcasts.get?
          ebc = some b0
      ∧ r.2.db.broadcasts.get? ebc = some b
      ∧ b.is_repeat = (b0.is_repeat || has_previously_shown tags)
      ∧ b.is_new = (b0.is_new || (!has_previously_shown tags && has_premiere_or_new tags)) := by
  obtain ⟨ebc, b0, hf, hb0, _, _⟩ := find_by_time_valid env.dispatch_clock ch start stop st.db hw
  obtain ⟨r, dbA, hr, hA, hM, _⟩ := programme_tags_decompose bc_flags bc_flags_frame env ch tags
    start stop st ebc hf ht
  have h1 := hM.1 ebc
  rw [programme_repeat_new_flags] at h1
  have h2 := hA.1 ebc
  rw [hb0] at h2
  cases hdA : dbA.broadcasts.get? ebc with
  | none => rw [hdA] at h2; simp at h2
  | some bA =>
    rw [hdA] at h1 h2
    cases hrb : r.2.db.broadcasts.get? ebc with
    | none => rw [hrb] at h1; simp at h1
    | some b =>
      rw [hrb] at h1
      simp only [Option.map_some', Option.some.injEq, bc_flags, Prod.mk.injEq] at h1 h2
      refine ⟨r, ebc, b0, b, hr, hf, hb0, hrb, ?_, ?_⟩
      · rw [h1.1, h2.1]
      · rw [h1.2, h2.2]

theorem programme_tags_step (env : xmltv_env) (ch : Nat) (tags : htsmsg) (start stop : Int)
    (st : xmltv_state)
    (hw : ¬ (stop ≤ start ∨ stop ≤ env.dispatch_clock))
    (ht : video_aspect_traps tags = false) :
    ∃ r, _xmltv_parse_programme_tags env ch tags start stop st = some r
      ∧ r.2.stats.broadcasts.total = st.stats.broadcasts.total + 1
      ∧ r.2.chans = st.chans
      ∧ r.2.stats.channels = st.stats.channels
      ∧ (∃ b ∈ r.2.db.broadcasts, bc_key b = (ch, start, stop))
      ∧ (∀ b ∈ st.db.broadcasts, ∃ c ∈ r.2.db.broadcasts, bc_key c = bc_key b) := by
  obtain ⟨ebc, b0, hf, hb0, hk0, hpre⟩ :=
    find_by_time_valid env.dispatch_clock ch start stop st.db hw
  obtain ⟨r, dbA, hr, hA, hM, hch, htot, hcs⟩ := programme_tags_decompose bc_key bc_key_frame
    env ch tags start stop st ebc hf ht
  have hK := bc_same_trans bc_key _ _ _ hA
    (bc_same_trans bc_key _ _ _ (programme_repeat_new_key tags ebc dbA) hM)
  have hex : ∀ j b, (epg_broadcast_find_by_time env.dispatch_clock ch start stop true
      st.db).2.2.broadcasts.get? j = some b → ∃ c ∈ r.2.db.broadcasts, bc_key c = bc_key b := by
    intro j b hj
    have h := hK.1 j
    rw [hj] at h
    cases hc : r.2.db.broadcasts.get? j with
    | none => rw [hc] at h; simp at h
    | some c =>
      rw [hc] at h
      simp only [Option.map_some', Option.some.injEq] at h
      exact ⟨c, List.get?_mem hc, h⟩
  refine ⟨r, hr, htot, hch, hcs, ?_, ?_⟩
  · obtain ⟨c, hc, hkc⟩ := hex ebc b0 hb0
    exact ⟨c, hc, hkc.trans hk0⟩
  · intro b hb
    obtain ⟨j, hj⟩ := List.mem_iff_get?.mp hb
    exact hex j b (hpre j b hj)

theorem programme_foreach_total (env : xmltv_env) (tags : htsmsg) (start stop : Int)
    (hw : ¬ (stop ≤ start ∨ stop ≤ env.dispatch_clock))
    (ht : video_aspect_traps tags = false)
    (links : List Nat) (save : Bool) (st : xmltv_state) :
    ∃ r, programme_foreach env tags start stop links save st = some r
      ∧ r.2.stats.broadcasts.total = st.stats.broadcasts.total + links.length
      ∧ r.2.chans = st.chans
      ∧ r.2.stats.channels = st.stats.channels
      ∧ (∀ ch ∈ links, ∃ b ∈ r.2.db.broadcasts, bc_key b = (ch, start, stop))
      ∧ (∀ b ∈ st.db.broadcasts, ∃ c ∈ r.2.db.broadcasts, bc_key c = bc_key b) := by
  induction links generalizing save st with
  | nil =>
    exact ⟨(save, st), rfl, rfl, rfl, rfl, fun _ h => absurd h (List.not_mem_nil _),
      fun b hb => ⟨b, hb, rfl⟩⟩
  | cons ch rest ih =>
    obtain ⟨r1, hr1, t1, c1, s1, e1, m1⟩ := programme_tags_step env ch tags start stop st hw ht
    obtain ⟨r, hr, t2, c2, s2, e2, m2⟩ := ih (save || r1.1) r1.2
    refine ⟨r, ?_, ?_, c2.trans c1, s2.trans s1, ?_, ?_⟩
    · unfold programme_foreach
      rw [hr1]
      exact hr
    · rw [t2, t1, List.length_cons]
      omega
    · intro x hx
      rcases List.mem_cons.mp hx with hx | hx
      · subst hx
        obtain ⟨b, hb, hk⟩ := e1
        obtain ⟨c, hc, hkc⟩ := m2 b hb
        exact ⟨c, hc, hkc.trans hk⟩
      · exact e2 x hx
    · intro b hb
      obtain ⟨c, hc, hkc⟩ := m1 b hb
      obtain ⟨d, hd, hkd⟩ := m2 c hc
      exact ⟨d, hd, hkd.trans hkc⟩

/-! ## Lineups: which field of an entry sets which variable -/

theorem foldl_last {α β γ : Type} (step : α → β → α) (proj : α → γ) (assigns : β → List γ)
    (h : ∀ a b, proj (step a b) = ((assigns b).getLast?).getD (proj a)) :
    ∀ (fs : List β) (a : α),
      proj (fs.foldl step a) = ((fs.flatMap assigns).getLast?).getD (proj a) := by
  intro fs
  induction fs with
  | nil => intro a; simp
  | cons b rest ih =>
    intro a
    rw [List.foldl_cons, ih, h, List.flatMap_cons, List.getLast?_append]
    cases (List.flatMap rest assigns).getLast? <;> simp

theorem foldlM_last {α β γ : Type} (step : α → β → Option α) (proj : α → γ)
    (assigns : β → List γ)
    (h : ∀ a b a2, step a b = some a2 → proj a2 = ((assigns b).getLast?).getD (proj a)) :
    ∀ (fs : List β) (a a2 : α), fs.foldlM step a = some a2 →
      proj a2 = ((fs.flatMap assigns).getLast?).getD (proj a) := by
  intro fs
  induction fs with
  | nil => intro a a2 hf; simp at hf; subst hf; simp
  | cons b rest ih =>
    intro a a2 hf
    rw [List.foldlM_cons] at hf
    cases hs : step a b with
    | none => rw [hs] at hf; simp at hf
    | some a1 =>
      rw [hs] at hf
      simp only [Option.bind_eq_bind, Option.some_bind] at hf
      rw [ih a1 a2 hf, h a b a1 hs, List.flatMap_cons, List.getLast?_append]
      cases (List.flatMap rest assigns).getLast? <;> simp

theorem foldlM_frame {α β γ : Type} (step : α → β → Option α) (proj : α → γ)
    (h : ∀ a b a2, step a b = some a2 → proj a2 = proj a) :
    ∀ (fs : List β) (a a2 : α), fs.foldlM step a = some a2 → proj a2 = proj a := by
  intro fs
  induction fs with
  | nil => intro a a2 hf; simp at hf; subst hf; rfl
  | cons b rest ih =>
    intro a a2 hf
    rw [List.foldlM_cons] at hf
    cases hs : step a b with
    | none => rw [hs] at hf; simp at hf
    | some a1 =>
      rw [hs] at hf
      simp only [Option.bind_eq_bind, Option.some_bind] at hf
      rw [ih a1 a2 hf, h a b a1 hs]

theorem foldl_frame {α β γ : Type} (step : α → β → α) (proj : α → γ)
    (h : ∀ a b, proj (step a b) = proj a) :
    ∀ (fs : List β) (a : α), proj (fs.foldl step a) = proj a := by
  intro fs
  induction fs with
  | nil => intro a; rfl
  | cons b rest ih => intro a; rw [List.foldl_cons, ih, h]

/-- The loop over a `station` element leaves the section, the service id and
the STB preset as they are. -/
theorem lineup_station_step_frame (v w : lineup_vars) (g : htsmsg_field)
    (h : lineup_station_step v g = some w) :
    w.lineup_section = v.lineup_section ∧ w.stb_preset = v.stb_preset ∧
      w.chan_service_id = v.chan_service_id ∧ w.chan_number = v.chan_number := by
  unfold lineup_station_step at h
  simp only [] at h
  split at h
  · exact absurd h (by simp)
  · rename_i v2 hv2
    have hw : w = v2 := by
      split at h
      · split at h
        · split at h
          · exact (Option.some.inj h).symm
          · exact absurd h (by simp)
        · exact (Option.some.inj h).symm
      · exact (Option.some.inj h).symm
    subst hw
    split at hv2
    · cases hr : xmltv_lineup_returnvarattrib g with
      | none => rw [hr] at hv2; simp at hv2
      | some l =>
        rw [hr] at hv2
        simp only [Option.map_some'] at hv2
        cases hv2
        split <;> exact ⟨rfl, rfl, rfl, rfl⟩
    · cases hv2
      split <;> exact ⟨rfl, rfl, rfl, rfl⟩

theorem lineup_station_frame (v w : lineup_vars) (f : htsmsg_field)
    (h : lineup_station v f = some w) :
    w.lineup_section = v.lineup_section ∧ w.stb_preset = v.stb_preset ∧
      w.chan_service_id = v.chan_service_id ∧ w.chan_number = v.chan_number := by
  unfold lineup_station at h
  split at h
  · split at h
    · exact ⟨foldlM_frame _ (fun x => x.lineup_section)
          (fun a b a2 hs => (lineup_station_step_frame a a2 b hs).1) _ _ _ h,
        foldlM_frame _ (fun x => x.stb_preset)
          (fun a b a2 hs => (lineup_station_step_frame a a2 b hs).2.1) _ _ _ h,
        foldlM_frame _ (fun x => x.chan_service_id)
          (fun a b a2 hs => (lineup_station_step_frame a a2 b hs).2.2.1) _ _ _ h,
        foldlM_frame _ (fun x => x.chan_number)
          (fun a b a2 hs => (lineup_station_step_frame a a2 b hs).2.2.2) _ _ _ h⟩
    · exact absurd h (by simp)
  · cases h; exact ⟨rfl, rfl, rfl, rfl⟩

/-- The loop over a `dvb-channel` element leaves all variables but the service
id as they are. -/
theorem lineup_dvb_frame (v : lineup_vars) (f : htsmsg_field) :
    (lineup_nested lineup_dvb_step v f).lineup_section = v.lineup_section ∧
      (lineup_nested lineup_dvb_step v f).stb_preset = v.stb_preset ∧
      (lineup_nested lineup_dvb_step v f).chan_name = v.chan_name ∧
      (lineup_nested lineup_dvb_step v f).chan_number = v.chan_number ∧
      (lineup_nested lineup_dvb_step v f).logo = v.logo := by
  have hstep : ∀ (a : lineup_vars) (b : htsmsg_field),
      (lineup_dvb_step a b).lineup_section = a.lineup_section ∧
      (lineup_dvb_step a b).stb_preset = a.stb_preset ∧
      (lineup_dvb_step a b).chan_name = a.chan_name ∧
      (lineup_dvb_step a b).chan_number = a.chan_number ∧
      (lineup_dvb_step a b).logo = a.logo := by
    intro a b; unfold lineup_dvb_step; split <;> exact ⟨rfl, rfl, rfl, rfl, rfl⟩
  unfold lineup_nested
  split
  · split
    · exact ⟨foldl_frame _ (fun x => x.lineup_section) (fun a b => (hstep a b).1) _ _,
        foldl_frame _ (fun x => x.stb_preset) (fun a b => (hstep a b).2.1) _ _,
        foldl_frame _ (fun x => x.chan_name) (fun a b => (hstep a b).2.2.1) _ _,
        foldl_frame _ (fun x => x.chan_number) (fun a b => (hstep a b).2.2.2.1) _ _,
        foldl_frame _ (fun x => x.logo) (fun a b => (hstep a b).2.2.2.2) _ _⟩
    · exact ⟨rfl, rfl, rfl, rfl, rfl⟩
  · exact ⟨rfl, rfl, rfl, rfl, rfl⟩

/-- The loop over an `stb-channel` element sets the STB preset to the value of
the last `stb-preset` child, and leaves the other variables as they are. -/
theorem lineup_stb_effect (v : lineup_vars) (f : htsmsg_field) :
    (lineup_nested lineup_stb_step v f).stb_preset =
        ((entry_values "stb-preset" (lineup_children f)).getLast?).getD v.stb_preset ∧
      (lineup_nested lineup_stb_step v f).lineup_section = v.lineup_section ∧
      (lineup_nested lineup_stb_step v f).chan_name = v.chan_name ∧
      (lineup_nested lineup_stb_step v f).chan_number = v.chan_number ∧
      (lineup_nested lineup_stb_step v f).logo = v.logo ∧
      (lineup_nested lineup_stb_step v f).chan_service_id = v.chan_service_id := by
  have hstep : ∀ (a : lineup_vars) (b : htsmsg_field),
      (lineup_stb_step a b).lineup_section = a.lineup_section ∧
      (lineup_stb_step a b).chan_name = a.chan_name ∧
      (lineup_stb_step a b).chan_number = a.chan_number ∧
      (lineup_stb_step a b).logo = a.logo ∧
      (lineup_stb_step a b).chan_service_id = a.chan_service_id := by
    intro a b; unfold lineup_stb_step; split <;> exact ⟨rfl, rfl, rfl, rfl, rfl⟩
  have hset : ∀ (a : lineup_vars) (b : htsmsg_field),
      (lineup_stb_step a b).stb_preset =
        ((if b.hmf_name = "stb-preset" then [xmltv_lineup_returnvar b] else []).getLast?).getD
          a.stb_preset := by
    intro a b; unfold lineup_stb_step; split <;> simp
  unfold lineup_nested lineup_children entry_values
  split
  · split
    · rename_i tag _ chandata hc
      simp only [hc, Option.getD_some]
      exact ⟨foldl_last lineup_stb_step (fun x => x.stb_preset) _ hset _ _,
        foldl_frame _ (fun x => x.lineup_section) (fun a b => (hstep a b).1) _ _,
        foldl_frame _ (fun x => x.chan_name) (fun a b => (hstep a b).2.1) _ _,
        foldl_frame _ (fun x => x.chan_number) (fun a b => (hstep a b).2.2.1) _ _,
        foldl_frame _ (fun x => x.logo) (fun a b => (hstep a b).2.2.2.1) _ _,
        foldl_frame _ (fun x => x.chan_service_id) (fun a b => (hstep a b).2.2.2.2) _ _⟩
    · rename_i tag _ hc
      simp [hc]
  · simp

/-- One field of a lineup entry: the section becomes the value of a `section`
field, the STB preset the value of the last `stb-preset` child of an
`stb-channel` field, and they stay as they are otherwise. -/
theorem lineup_field_step_effect (v w : lineup_vars) (f : htsmsg_field)
    (h : lineup_field_step v f = some w) :
    w.lineup_section =
        ((if f.hmf_name = "section" then [xmltv_lineup_returnvar f] else []).getLast?).getD
          v.lineup_section ∧
      w.stb_preset =
        ((if f.hmf_name = "stb-channel" then entry_values "stb-preset" (lineup_children f)
          else []).getLast?).getD v.stb_preset := by
  unfold lineup_field_step at h
  simp only [] at h
  split at h
  · exact absurd h (by simp)
  · rename_i v3 h3
    have hw := (Option.some.inj h).symm
    clear h
    have h3f : v3.lineup_section =
        (if f.hmf_name = "section" then xmltv_lineup_returnvar f else v.lineup_section) ∧
        v3.stb_preset = v.stb_preset := by
      split at h3
      · have hfr := lineup_station_frame _ _ _ h3
        rw [hfr.1, hfr.2.1]
        constructor
        · split <;> split <;> rfl
        · split <;> split <;> rfl
      · cases h3
        constructor
        · split <;> split <;> rfl
        · split <;> split <;> rfl
    have h4 : ∀ x : lineup_vars,
        (if f.hmf_name = "dvb-channel" then lineup_nested lineup_dvb_step x f else x).lineup_section
            = x.lineup_section ∧
          (if f.hmf_name = "dvb-channel" then lineup_nested lineup_dvb_step x f else x).stb_preset
            = x.stb_preset := by
      intro x
      split
      · exact ⟨(lineup_dvb_frame x f).1, (lineup_dvb_frame x f).2.1⟩
      · exact ⟨rfl, rfl⟩
    subst hw
    by_cases hstb : f.hmf_name = "stb-channel"
    · have hns : ¬ f.hmf_name = "section" := by rw [hstb]; decide
      rw [if_pos hstb, if_neg hns, if_pos hstb]
      rw [(lineup_stb_effect _ f).1, (lineup_stb_effect _ f).2.1, (h4 v3).1, (h4 v3).2, h3f.1,
        h3f.2, if_neg hns]
      simp
    · rw [if_neg hstb, if_neg hstb, (h4 v3).1, (h4 v3).2, h3f.1, h3f.2]
      constructor
      · split <;> simp
      · simp

/-- The fields of a lineup entry: the section after them is the value of the
last `section` field, the STB preset the value of the last `stb-preset` child
of the `stb-channel` fields; each keeps the value it had before the entry when
the entry has no such field. -/
theorem lineup_fields_effect (fs : htsmsg) (v w : lineup_vars)
    (h : fs.foldlM lineup_field_step v = some w) :
    w.lineup_section = ((entry_values "section" fs).getLast?).getD v.lineup_section ∧
      w.stb_preset =
        ((entry_nested_values "stb-channel" "stb-preset" fs).getLast?).getD v.stb_preset :=
  ⟨foldlM_last lineup_field_step (fun x => x.lineup_section) _
      (fun a b a2 hs => (lineup_field_step_effect a a2 b hs).1) fs v w h,
    foldlM_last lineup_field_step (fun x => x.stb_preset) _
      (fun a b a2 hs => (lineup_field_step_effect a a2 b hs).2) fs v w h⟩

/-! ## Lineups: the two actions -/

theorem channel_set_set (cs : List channel) (i : Nat) (f g : channel → channel) :
    channel_set (channel_set cs i f) i g = channel_set cs i (fun c => g (f c)) := by
  unfold channel_set
  cases h : cs.get? i with
  | none => simp only [h]
  | some c =>
    have h2 : (cs.set i (f c)).get? i = some (f c) := by
      rw [List.get?_eq_getElem?, List.getElem?_set]
      have hlt : i < cs.length := by
        by_contra hge
        rw [List.get?_eq_getElem?, List.getElem?_eq_none (Nat.le_of_not_lt hge)] at h
        exact absurd h (by simp)
      simp [hlt]
    simp only [h2, List.set_set]

theorem channel_set_id (cs : List channel) (i : Nat) (f : channel → channel)
    (hf : ∀ c, f c = c) : channel_set cs i f = cs := by
  unfold channel_set
  cases h : cs.get? i with
  | none => rfl
  | some c =>
    simp only [hf]
    apply List.ext_getElem?
    intro j
    rw [List.getElem?_set]
    split
    · rename_i hij; subst hij; split
      · simpa using h.symm
      · rename_i hlt; simp at hlt; simp [List.getElem?_eq_none hlt]
    · rfl

/-- The function `stb_channel` records exactly one lookup, by the name; a
channel that it finds is left as `stb_actions` says, and the entry is changed
exactly when one of the toggles is enabled. -/
theorem stb_channel_eq (env : lineup_env) (v : lineup_vars) (st : lineup_state)
    (hnum : env.renumber = true → v.chan_number ≠ none) :
    stb_channel env v.chan_name v.chan_number v.logo st =
      match channel_find_by_name v.chan_name st.channels with
      | none =>
        some (0, { channels := st.channels, chans := st.chans,
                   lookups := st.lookups ++ [.by_name v.chan_name] })
      | some chan =>
        some (if env.renumber || env.rename || env.reicon then 1 else 0,
          { channels := channel_set st.channels chan (stb_actions env v), chans := st.chans,
            lookups := st.lookups ++ [.by_name v.chan_name] }) := by
  unfold stb_channel _xmltv_find_epggrab_channel_byname
  simp only []
  cases hf : channel_find_by_name v.chan_name st.channels with
  | none => rfl
  | some chan =>
    simp only []
    cases hrn : env.renumber with
    | true =>
      cases hn : v.chan_number with
      | none => exact absurd hn (hnum hrn)
      | some s =>
        cases hre : env.rename <;> cases hri : env.reicon <;>
          simp only [if_true, Bool.false_eq_true, if_false, channel_set_set, Bool.true_or,
            Bool.or_true, Bool.or_false, Option.some.injEq, Prod.mk.injEq, true_and,
            lineup_state.mk.injEq, and_true] <;>
          (congr 1; funext c; simp [stb_actions, hrn, hre, hri, hn])
    | false =>
      cases hre : env.rename <;> cases hri : env.reicon <;>
        simp only [if_true, Bool.false_eq_true, if_false, channel_set_set, Bool.true_or,
          Bool.or_true, Bool.or_false, Bool.false_or, Option.some.injEq, Prod.mk.injEq, true_and,
          lineup_state.mk.injEq, and_true]
      · exact (channel_set_id _ _ _ (by intro c; simp [stb_actions, hrn, hre, hri])).symm
      all_goals (congr 1; funext c; simp [stb_actions, hrn, hre, hri])

/-- The loop body of `xmltv_parse_lineups` on a lineup entry with fields: the
variables collected from the fields, then the classification on them. -/
theorem lineup_entry_step_collected (env : lineup_env) (vars v : lineup_vars)
    (st : lineup_state) (n : Nat) (sub fs : htsmsg)
    (htags : htsmsg_get_map sub "tags" = some fs)
    (hcollect : fs.foldlM lineup_field_step vars = some v) :
    lineup_entry_step env (vars, st, n) (.map "lineup-entry" sub) =
      (lineup_apply env v st n).map (fun r => (v, r.1, r.2)) := by
  have hc : lineup_collect vars (.map "lineup-entry" sub) = some (true, v) := by
    unfold lineup_collect
    simp only [htsmsg_field.hmf_name, if_true, htsmsg_get_map_by_field, htags, hcollect,
      Option.map_some']
  unfold lineup_entry_step
  simp only [hc]
/-! ## Lineups: the update by service id -/

theorem findSome_find {α : Type} (p : α → Bool) (l : List (List α)) :
    l.findSome? (fun x => x.find? p) = (l.flatMap id).find? p := by
  induction l with
  | nil => rfl
  | cons a rest ih =>
    rw [List.findSome?_cons, List.flatMap_cons, List.find?_append, ih]
    cases h : a.find? p <;> simp [h]

theorem findSome_findSome {α β : Type} (g : α → Option β) (l : List (List α)) :
    l.findSome? (fun x => x.findSome? g) = (l.flatMap id).findSome? g := by
  induction l with
  | nil => rfl
  | cons a rest ih =>
    rw [List.findSome?_cons, List.flatMap_cons, List.findSome?_append, ih]
    cases h : a.findSome? g <;> simp [h]

/-- The function `_xmltv_find_service` returns the first enabled service of the
registry with the given id. -/
theorem find_service_eq (env : lineup_env) (cid : Int) :
    _xmltv_find_service env.dvb_adapters cid = standard_service env cid := by
  unfold _xmltv_find_service standard_service all_services
  rw [findSome_findSome, findSome_find]

theorem feed_channel_set_self (cs : List epggrab_channel) (i : Nat) (c : epggrab_channel)
    (h : cs.get? i = some c) : cs.set i c = cs := by
  apply List.ext_getElem?
  intro j
  rw [List.getElem?_set]
  split
  · rename_i hij; subst hij; split
    · simpa using h.symm
    · rename_i hlt; simp at hlt; simp [List.getElem?_eq_none hlt]
  · rfl

theorem epggrab_channel_set_eq (cs : List epggrab_channel) (i : Nat)
    (upd : epggrab_channel → epggrab_channel) :
    (epggrab_channel_set cs i upd).2 = feed_channel_set cs i upd := by
  unfold epggrab_channel_set feed_channel_set
  cases h : cs.get? i with
  | none => rfl
  | some c =>
    simp only []
    split
    · rename_i he; rw [he, feed_channel_set_self cs i c h]
    · rfl

theorem feed_channel_set_set (cs : List epggrab_channel) (i : Nat)
    (f g : epggrab_channel → epggrab_channel) :
    feed_channel_set (feed_channel_set cs i f) i g = feed_channel_set cs i (fun c => g (f c)) := by
  unfold feed_channel_set
  cases h : cs.get? i with
  | none => simp only [h]
  | some c =>
    have h2 : (cs.set i (f c)).get? i = some (f c) := by
      rw [List.get?_eq_getElem?, List.getElem?_set]
      have hlt : i < cs.length := by
        by_contra hge
        rw [List.get?_eq_getElem?, List.getElem?_eq_none (Nat.le_of_not_lt hge)] at h
        exact absurd h (by simp)
      simp [hlt]
    simp only [h2, List.set_set]

theorem epggrab_channel_set_opt_eq (cs : List epggrab_channel) (i : Nat) (v : Option String)
    (upd : String → epggrab_channel → epggrab_channel) :
    epggrab_channel_set_opt cs i v upd =
      feed_channel_set cs i (fun c => match v with | some s => upd s c | none => c) := by
  unfold epggrab_channel_set_opt
  cases v with
  | some s => exact epggrab_channel_set_eq cs i (upd s)
  | none =>
    simp only []
    unfold feed_channel_set
    cases h : cs.get? i with
    | none => rfl
    | some c => exact (feed_channel_set_self cs i c h).symm

theorem channel_find_create (id : String) (chans : List epggrab_channel) :
    ∃ i, (_xmltv_channel_find id true chans).1 = some i := by
  unfold _xmltv_channel_find
  cases find_index (fun c => c.id = id) chans with
  | none => exact ⟨_, rfl⟩
  | some i => exact ⟨i, rfl⟩

/-- The function `xmltv_channelupdate` records one lookup by service id, and
leaves the feed channels and the change report that `standard_result` and
`standard_changed` describe. -/
theorem channelupdate_eq (env : lineup_env) (v : lineup_vars) (cid : Int) (st : lineup_state)
    (hbuf : (env.mod_id ++ '-' :: int_to_dec cid).length < 32)
    (hnum : env.renumber = true → v.chan_number ≠ none) :
    xmltv_channelupdate env cid v.chan_name v.chan_number v.logo st =
      some (if standard_changed env cid then 1 else 0, standard_result env v cid st) := by
  have hfs := find_service_eq env cid
  cases hs : standard_service env cid with
  | none =>
    rw [hs] at hfs
    simp [xmltv_channelupdate, standard_changed, standard_result, hs, hfs]
  | some svc =>
    rw [hs] at hfs
    cases hch : svc.s_ch with
    | none => simp [xmltv_channelupdate, standard_changed, standard_result, hs, hfs, hch]
    | some s_ch =>
      obtain ⟨ec, hec⟩ := channel_find_create (String.mk (env.mod_id ++ '-' :: int_to_dec cid))
        st.chans
      cases hrn : env.renumber with
      | false =>
        cases hre : env.rename <;> cases hri : env.reicon <;>
          simp only [xmltv_channelupdate, standard_changed, standard_result, hs, hfs, hch,
            _xmltv_find_epggrab_channel, if_pos hbuf, hec, Option.getD_some,
            epggrab_channel_set_eq, epggrab_channel_set_opt_eq, Option.isSome_some,
            Bool.true_and, hrn, hre, hri,
            Bool.and_false, Bool.false_and, Bool.false_eq_true, if_false, if_true,
            Bool.or_false, Bool.or_true, Bool.true_or, Bool.false_or, feed_channel_set_set,
            Option.some.injEq, Prod.mk.injEq, true_and, lineup_state.mk.injEq, and_true] <;>
          (congr 1; funext c; cases hn : v.chan_name <;> cases hl : v.logo <;>
            simp [channelupdate_actions, hrn, hre, hri, hn, hl])
      | true =>
        cases hn : v.chan_number with
        | none => exact absurd hn (hnum hrn)
        | some s =>
          cases hp : svc.primary_epg <;> cases hre : env.rename <;> cases hri : env.reicon <;>
            simp only [xmltv_channelupdate, standard_changed, standard_result, hs, hfs, hch,
              _xmltv_find_epggrab_channel, if_pos hbuf, hec, Option.getD_some,
              epggrab_channel_set_eq, epggrab_channel_set_opt_eq, Option.isSome_some,
              hrn, hre, hri, hp, hn,
              Bool.and_false, Bool.false_and, Bool.and_true, Bool.true_and,
              Bool.false_eq_true, if_false, if_true,
              Bool.or_false, Bool.or_true, Bool.true_or, Bool.false_or, feed_channel_set_set,
              Option.some.injEq, Prod.mk.injEq, true_and, lineup_state.mk.injEq, and_true] <;>
            (congr 1; funext c; cases hn2 : v.chan_name <;> cases hl : v.logo <;>
              simp [channelupdate_actions, hrn, hre, hri, hp, hn, hn2, hl])

/-- The classification at the end of an iteration, on variables whose service
id and section are not null. -/
theorem lineup_apply_eq (env : lineup_env) (v : lineup_vars) (st : lineup_state) (n : Nat)
    (sid sect : String) (hsid : v.chan_service_id = some sid)
    (hsect : v.lineup_section = some sect) :
    lineup_apply env v st n =
      if sect = "Radio channels" then some (st, n)
      else if v.stb_preset.isSome then
        (stb_channel env v.chan_name v.chan_number v.logo st).map
          (fun r => (r.2, if r.1 = 1 then n + 1 else n))
      else if lineup_cid sid ≠ 0 ∧ sect ≠ "Regional" then
        (xmltv_channelupdate env (lineup_cid sid) v.chan_name v.chan_number v.logo st).map
          (fun r => (r.2, if r.1 = 1 then n + 1 else n))
      else some (st, n) := by
  unfold lineup_apply lineup_cid
  simp only [hsid, hsect]

/-- The function `xmltv_parse_lineups` has the result 0 whenever it has a
result. -/
theorem parse_lineups_ret (env : lineup_env) (body : htsmsg) (st : lineup_state)
    (r : lineup_result) (h : xmltv_parse_lineups env body st = some r) : r.ret = false := by
  unfold xmltv_parse_lineups at h
  split at h
  · cases h; rfl
  · cases hl : lineups_foreach env _ (lineup_vars_init, st, 0) with
    | none => rw [hl] at h; simp at h
    | some acc => rw [hl] at h; simp only [Option.map_some'] at h; cases h; rfl
/-! ## The claims -/

/-- C1 (evaluated at a failing input): the document `clash_doc` holds two
programme elements for the same channel and window with different
descriptions.  Both runs leave one episode in the database, so the second run
creates none, yet it adds 2 to `episodes.created` (2 after the first run, 4
after the second): the flag `save3` that guards `episodes.created++` still
holds the report of the description setter of the broadcast. -/
theorem parse_tv_second_run_counts_created :
    (ingest_twice sample_env clash_doc sample_state).map
      (fun r => (r.1.db.episodes.length, r.2.db.episodes.length,
        r.1.stats.episodes.created, r.2.stats.episodes.created))
      = some (1, 1, 2, 4) := by
  decide

/-- C2: a programme element whose parsed stop is at or before its parsed
start, or at or before the processing time, makes `_xmltv_parse_programme`
return 0 and leave the feed channels, the guide database (no broadcast is
created) and every statistics counter as they were. -/
theorem parse_programme_window_validation (env : xmltv_env) (body attribs : htsmsg)
    (st : xmltv_state) (s1 s2 : String)
    (ha : htsmsg_get_map body "attrib" = some attribs)
    (h1 : htsmsg_get_str attribs "start" = some s1)
    (h2 : htsmsg_get_str attribs "stop" = some s2)
    (hw : _xmltv_str2time env.mktime s2.toList ≤ _xmltv_str2time env.mktime s1.toList
      ∨ _xmltv_str2time env.mktime s2.toList ≤ env.dispatch_clock) :
    _xmltv_parse_programme env (some body) st = some (false, st) :=
  parse_programme_dropped env body attribs st s2 ha h2
    (fun s h => by rw [h1] at h; cases h; exact hw)

/-- C2, at the programme `reversed_programme`, whose stop is one hour before
its start. -/
theorem parse_programme_window_validation_witness :
    _xmltv_parse_programme sample_env (some reversed_programme) sample_state
      = some (false, sample_state) :=
  parse_programme_window_validation sample_env reversed_programme
    [.str "channel" "c1", .str "start" "20300101010000 +0000",
      .str "stop" "20300101000000 +0000"]
    sample_state "20300101010000 +0000" "20300101000000 +0000" rfl rfl rfl
    (Or.inl (by decide))

/-- C3 (counterexample): the start attribute of `bad_start_programme` is not a
timestamp and maps to the instant 0, its stop is valid and after the
processing time.  The programme is not dropped: `_xmltv_parse_programme`
returns 1, a broadcast that starts at 0 is created and `broadcasts.total`
becomes 1. -/
theorem parse_programme_bad_start_kept :
    _xmltv_str2time sample_env.mktime "not a time".toList = 0
    ∧ (_xmltv_parse_programme sample_env (some bad_start_programme) sample_state).map
        (fun r => (r.1, r.2.db.broadcasts.map (fun b => (b.channel, b.start, b.stop)),
          r.2.stats.broadcasts.total))
      = some (true, [(1, 0, 1893459600)], 1) := by
  decide

/-- C3 (amended): a programme element whose stop attribute maps to the instant
0, at a processing time that is not before the epoch, is dropped:
`_xmltv_parse_programme` returns 0 and leaves the guide database and every
statistics counter as they were. -/
theorem parse_programme_bad_stop_dropped (env : xmltv_env) (body attribs : htsmsg)
    (st : xmltv_state) (s2 : String)
    (ha : htsmsg_get_map body "attrib" = some attribs)
    (h2 : htsmsg_get_str attribs "stop" = some s2)
    (hz : _xmltv_str2time env.mktime s2.toList = 0)
    (hn : 0 ≤ env.dispatch_clock) :
    _xmltv_parse_programme env (some body) st = some (false, st) :=
  parse_programme_dropped env body attribs st s2 ha h2
    (fun _ _ => Or.inr (by rw [hz]; exact hn))

/-- C3 (amended), at the programme `bad_stop_programme`. -/
theorem parse_programme_bad_stop_dropped_witness :
    _xmltv_parse_programme sample_env (some bad_stop_programme) sample_state
      = some (false, sample_state) :=
  parse_programme_bad_stop_dropped sample_env bad_stop_programme
    [.str "channel" "c1", .str "start" "20300101000000 +0000", .str "stop" "not a time"]
    sample_state "not a time" rfl rfl (by decide) (by decide)

/-- C4: for fourteen digits, one space, a sign and four digits HHMM,
`_xmltv_str2time` returns `timegm` of the civil fields minus
`60 * s * (60 * HH + MM)`, where `s` is the sign; and
"20230101120000 +0100" gives 1672570800. -/
theorem str2time_offset_form (mktime : tm → Int)
    (y1 y2 y3 y4 m1 m2 d1 d2 h1 h2 n1 n2 s1 s2 : Fin 10) (neg : Bool) (z1 z2 z3 z4 : Fin 10) :
    _xmltv_str2time mktime (stamp_text y1 y2 y3 y4 m1 m2 d1 d2 h1 h2 n1 n2 s1 s2 neg z1 z2 z3 z4)
      = timegm { tm_year := num4 y1 y2 y3 y4 - 1900, tm_mon := num2 m1 m2 - 1,
                 tm_mday := num2 d1 d2, tm_hour := num2 h1 h2, tm_min := num2 n1 n2,
                 tm_sec := num2 s1 s2, tm_isdst := -1 }
        - 60 * (if neg then -1 else 1) * (60 * num2 z1 z2 + num2 z3 z4)
    ∧ _xmltv_str2time mktime "20230101120000 +0100".toList = 1672570800 := by
  refine ⟨?_, by rfl⟩
  have hz : num4 z1 z2 z3 z4 = 100 * num2 z1 z2 + num2 z3 z4 := by unfold num4 num2; ring
  have b1 := num2_bounds z1 z2
  have b2 := num2_bounds z3 z4
  unfold _xmltv_str2time sscanf_count
  rw [scan_fields_stamp]
  simp only [stamp_tm, List.getD_cons_zero, List.getD_cons_succ, List.length_cons, List.length_nil]
  rw [hz, hhmm_minutes neg _ _ b1.1 b2.1 (by omega)]
  have hm : -6039 ≤ (if neg then (-1 : Int) else 1) * (60 * num2 z1 z2 + num2 z3 z4)
      ∧ (if neg then (-1 : Int) else 1) * (60 * num2 z1 z2 + num2 z3 z4) ≤ 6039 := by
    cases neg <;> simp <;> omega
  have hr : 60 * (if neg then (-1 : Int) else 1) * (60 * num2 z1 z2 + num2 z3 z4)
      = (if neg then (-1 : Int) else 1) * (60 * num2 z1 z2 + num2 z3 z4) * 60 := by ring
  rw [hr]
  generalize (if neg then (-1 : Int) else 1) * (60 * num2 z1 z2 + num2 z3 z4) = m at hm ⊢
  rw [wrap32_small m (by omega) (by omega), wrap32_small (m * 60) (by omega) (by omega)]
  norm_num

/-- C5 (counterexample): "20230101120000+0100", with no space before the
offset, is neither of the two literal forms, and `_xmltv_str2time` returns
1672570800 for it, not 0. -/
theorem str2time_accepts_other_form :
    is_local_form "20230101120000+0100".toList = false
    ∧ is_offset_form "20230101120000+0100".toList = false
    ∧ _xmltv_str2time sample_env.mktime "20230101120000+0100".toList = 1672570800 := by
  decide

/-- C5 (amended): `_xmltv_str2time` returns 0 for every string in which the
scanner recognises a number of numeric fields other than six or seven, and so
for every string with fewer than six decimal digits. -/
theorem str2time_soft_failure (mktime : tm → Int) (str : List Char) :
    (sscanf_count str ≠ 6 → sscanf_count str ≠ 7 → _xmltv_str2time mktime str = 0)
    ∧ (str.countP isdigit < 6 → _xmltv_str2time mktime str = 0) := by
  refine ⟨fun h6 h7 => ?_, fun h => str2time_zero_of_count mktime str ?_⟩
  · unfold _xmltv_str2time
    simp only []
    rw [if_neg h6, if_neg h7]
  · have h1 := sscanf_count_le str
    have h2 := length_scan_fields stamp_format str
    omega

/-- C5 (amended), at the string "12:30 today", in which one field is scanned
and which holds four digits. -/
theorem str2time_soft_failure_witness :
    (sscanf_count "12:30 today".toList ≠ 6 ∧ sscanf_count "12:30 today".toList ≠ 7
      ∧ _xmltv_str2time sample_env.mktime "12:30 today".toList = 0)
    ∧ ("12:30 today".toList.countP isdigit < 6
      ∧ _xmltv_str2time sample_env.mktime "12:30 today".toList = 0) :=
  ⟨⟨by decide, by decide,
      (str2time_soft_failure sample_env.mktime "12:30 today".toList).1 (by decide) (by decide)⟩,
    ⟨by decide,
      (str2time_soft_failure sample_env.mktime "12:30 today".toList).2 (by decide)⟩⟩

/-- C6: for an xmltv_ns string `f1.f2.f3` whose fields are empty, `X` or `X/Y`
with numbers of at most 65534, `parse_xmltv_ns_episode` stores `X + 1` and
`Y + 1` for season, episode and part in that order, and 0 for every absent
number; "1.0.0/1" gives season 2/0, episode 1/0, part 1/2 and "0.." gives
season 1/0, episode 0/0, part 0/0. -/
theorem xmltv_ns_fields_stored :
    (∀ (f1 f2 f3 : ns_field) (epnum : epg_episode_num),
      f1.wf = true → f2.wf = true → f3.wf = true →
      parse_xmltv_ns_episode (f1.text ++ '.' :: (f2.text ++ '.' :: f3.text)) epnum
        = { epnum with
            s_num := f1.number, s_cnt := f1.count
            e_num := f2.number, e_cnt := f2.count
            p_num := f3.number, p_cnt := f3.count })
    ∧ parse_xmltv_ns_episode "1.0.0/1".toList epnum_zero
        = { s_num := 2, s_cnt := 0, e_num := 1, e_cnt := 0, p_num := 1, p_cnt := 2, text := none }
    ∧ parse_xmltv_ns_episode "0..".toList epnum_zero
        = { s_num := 1, s_cnt := 0, e_num := 0, e_cnt := 0, p_num := 0, p_cnt := 0, text := none } :=
  ⟨fun f1 f2 f3 epnum h1 h2 h3 => parse_ns_three_fields f1 f2 f3 epnum h1 h2 h3,
    by decide, by decide⟩

/-- C6, at the string "12.3/24." (season 12, episode 3 of 24, no part). -/
theorem xmltv_ns_fields_stored_witness :
    parse_xmltv_ns_episode "12.3/24.".toList epnum_zero
      = { s_num := 13, s_cnt := 0, e_num := 4, e_cnt := 25, p_num := 0, p_cnt := 0, text := none } :=
  xmltv_ns_fields_stored.1 (.num "12".toList) (.frac "3".toList "24".toList) .empty epnum_zero
    (by decide) (by decide) (by decide)

/-- C7 (counterexample): in "65535.." the position of the season number holds
digits, and the stored season number is 0, the value of "unknown". -/
theorem xmltv_ns_65535_reads_unknown :
    has_digit (ns_position "65535..".toList 0) = true
    ∧ (parse_xmltv_ns_episode "65535..".toList epnum_zero).s_num = 0 := by
  decide

/-- C7 (amended): for every xmltv_ns string whose six positions write numbers
of at most 65534, each of the six stored counters is 0 if and only if its
position contains no digit. -/
theorem xmltv_ns_unknown_iff_no_digit (s : List Char) (epnum : epg_episode_num)
    (hb : ∀ i, i < 6 → position_value (ns_position s i) ≤ 65534) :
    ((parse_xmltv_ns_episode s epnum).s_num = 0 ↔ has_digit (ns_position s 0) = false)
    ∧ ((parse_xmltv_ns_episode s epnum).s_cnt = 0 ↔ has_digit (ns_position s 1) = false)
    ∧ ((parse_xmltv_ns_episode s epnum).e_num = 0 ↔ has_digit (ns_position s 2) = false)
    ∧ ((parse_xmltv_ns_episode s epnum).e_cnt = 0 ↔ has_digit (ns_position s 3) = false)
    ∧ ((parse_xmltv_ns_episode s epnum).p_num = 0 ↔ has_digit (ns_position s 4) = false)
    ∧ ((parse_xmltv_ns_episode s epnum).p_cnt = 0 ↔ has_digit (ns_position s 5) = false) :=
  parse_ns_unknown_iff s epnum hb

/-- C7 (amended), at the string "0 . 12/13 . 0/3". -/
theorem xmltv_ns_unknown_iff_no_digit_witness :
    ((parse_xmltv_ns_episode "0 . 12/13 . 0/3".toList epnum_zero).s_cnt = 0
      ↔ has_digit (ns_position "0 . 12/13 . 0/3".toList 1) = false)
    ∧ ((parse_xmltv_ns_episode "0 . 12/13 . 0/3".toList epnum_zero).e_cnt = 0
      ↔ has_digit (ns_position "0 . 12/13 . 0/3".toList 3) = false) :=
  have h := xmltv_ns_unknown_iff_no_digit "0 . 12/13 . 0/3".toList epnum_zero (by decide)
  ⟨h.2.1, h.2.2.2.1⟩

/-- C8: `parse_xmltv_ns_episode` gives the same numbering for a string and for
the string with all its space characters removed; "0 . 12/13 . 0/3" reads as
"0.12/13.0/3". -/
theorem xmltv_ns_spaces_ignored (s : List Char) (epnum : epg_episode_num) :
    parse_xmltv_ns_episode s epnum
      = parse_xmltv_ns_episode (s.filter (fun c => c ≠ ' ')) epnum
    ∧ parse_xmltv_ns_episode "0 . 12/13 . 0/3".toList epnum
      = parse_xmltv_ns_episode "0.12/13.0/3".toList epnum :=
  ⟨(parse_ns_strip s epnum).symm, parse_ns_strip "0 . 12/13 . 0/3".toList epnum ▸ rfl⟩

/-- C9 (evaluated at a failing input): for the module `xmltv` and the
identifier "EP00001234.5" the raw URI is "ddprogid://xmltv/EP00001234.5".
The period is looked for in the identifier and the cut is made in the URI at
the index found there, 10: the series key is "ddprogid:/" and not
"ddprogid://xmltv/EP00001234".  The episode number is 5. -/
theorem dd_progid_series_key_cut :
    (parse_xmltv_dd_progid [] "xmltv".toList "EP00001234.5".toList none none epnum_zero).2.1
      = some "ddprogid:/".toList
    ∧ (parse_xmltv_dd_progid [] "xmltv".toList "EP00001234.5".toList none none epnum_zero).2.1
      ≠ some "ddprogid://xmltv/EP00001234".toList
    ∧ (parse_xmltv_dd_progid [] "xmltv".toList "EP00001234.5".toList none none epnum_zero).2.2.e_num
      = 5 := by
  decide

/-- C10 (counterexample): an identifier of 110 characters under the module
`xmltv` has a raw URI of 127 characters; the episode key is not that URI, and
two such identifiers that differ in their last character get the same key. -/
theorem dd_progid_key_truncated :
    (parse_xmltv_dd_progid [] "xmltv".toList (long_progid '1') none none epnum_zero).1
      ≠ some (dd_progid_uri "xmltv".toList (long_progid '1'))
    ∧ long_progid '1' ≠ long_progid '2'
    ∧ (parse_xmltv_dd_progid [] "xmltv".toList (long_progid '1') none none epnum_zero).1
      = (parse_xmltv_dd_progid [] "xmltv".toList (long_progid '2') none none epnum_zero).1 := by
  decide

/-- C10 (amended): for an identifier of length at least 2 that does not begin
with "SH", the episode key is set to the first 126 characters of
`ddprogid://<module id>/<identifier>`, which is the whole URI when it has at
most 126 characters (and then distinct identifiers under one module give
distinct keys); for an identifier that begins with "SH" the episode key is
left as it was; for an identifier shorter than 2 characters the episode key,
the series key and the numbering are left as they were. -/
theorem dd_progid_episode_key (oob mod_id s : List Char) (uri suri : Option (List Char))
    (epnum : epg_episode_num) :
    (2 ≤ s.length → s.take 2 ≠ ['S', 'H'] →
      (parse_xmltv_dd_progid oob mod_id s uri suri epnum).1
        = some ((dd_progid_uri mod_id s).take 126))
    ∧ (2 ≤ s.length → s.take 2 ≠ ['S', 'H'] → (dd_progid_uri mod_id s).length ≤ 126 →
      (parse_xmltv_dd_progid oob mod_id s uri suri epnum).1 = some (dd_progid_uri mod_id s)
      ∧ ∀ t : List Char, 2 ≤ t.length → t.take 2 ≠ ['S', 'H'] →
          (dd_progid_uri mod_id t).length ≤ 126 →
          (parse_xmltv_dd_progid oob mod_id t uri suri epnum).1
            = (parse_xmltv_dd_progid oob mod_id s uri suri epnum).1 → t = s)
    ∧ (s.take 2 = ['S', 'H'] → (parse_xmltv_dd_progid oob mod_id s uri suri epnum).1 = uri)
    ∧ (s.length < 2 → parse_xmltv_dd_progid oob mod_id s uri suri epnum = (uri, suri, epnum)) := by
  have key : ∀ t : List Char, 2 ≤ t.length → t.take 2 ≠ ['S', 'H'] →
      (parse_xmltv_dd_progid oob mod_id t uri suri epnum).1
        = some ((dd_progid_uri mod_id t).take 126) := by
    intro t h1 h2
    rw [dd_progid_uri_out, if_neg (by omega), if_pos h2]
  refine ⟨key s, ?_, ?_, ?_⟩
  · intro h1 h2 h3
    refine ⟨by rw [key s h1 h2, List.take_of_length_le h3], ?_⟩
    intro t g1 g2 g3 he
    rw [key s h1 h2, key t g1 g2, List.take_of_length_le h3, List.take_of_length_le g3] at he
    unfold dd_progid_uri at he
    have he2 := List.append_cancel_left (Option.some.inj he)
    exact (List.cons.inj he2).2
  · intro h
    rw [dd_progid_uri_out]
    split
    · rfl
    · rw [if_neg (by simp [h])]
  · intro h
    unfold parse_xmltv_dd_progid
    rw [if_pos h]

/-- C10 (amended), at the identifiers "MV00001234.0000", "SH00001234.0000" and "M". -/
theorem dd_progid_episode_key_witness :
    (parse_xmltv_dd_progid [] "xmltv".toList "MV00001234.0000".toList none none epnum_zero).1
      = some ("ddprogid://xmltv/MV00001234.0000".toList.take 126)
    ∧ (parse_xmltv_dd_progid [] "xmltv".toList "MV00001234.0000".toList none none epnum_zero).1
      = some "ddprogid://xmltv/MV00001234.0000".toList
    ∧ "MV00001234.0000".toList = "MV00001234.0000".toList
    ∧ (parse_xmltv_dd_progid [] "xmltv".toList "SH00001234.0000".toList none none epnum_zero).1
      = none
    ∧ parse_xmltv_dd_progid [] "xmltv".toList "M".toList none none epnum_zero
      = (none, none, epnum_zero) :=
  ⟨(dd_progid_episode_key [] "xmltv".toList "MV00001234.0000".toList none none epnum_zero).1
      (by decide) (by decide),
   ((dd_progid_episode_key [] "xmltv".toList "MV00001234.0000".toList none none epnum_zero).2.1
      (by decide) (by decide) (by decide)).1,
   ((dd_progid_episode_key [] "xmltv".toList "MV00001234.0000".toList none none epnum_zero).2.1
      (by decide) (by decide) (by decide)).2 "MV00001234.0000".toList
      (by decide) (by decide) (by decide) rfl,
   (dd_progid_episode_key [] "xmltv".toList "SH00001234.0000".toList none none epnum_zero).2.2.1
      (by decide),
   (dd_progid_episode_key [] "xmltv".toList "M".toList none none epnum_zero).2.2.2 (by decide)⟩


/-- C11 (counterexample): a dd_progid element that gives the episode number 5,
followed by the xmltv_ns element "1.2.3", leaves the episode number at 3; the
xmltv_ns element "1.." after it leaves it at 0. -/
theorem episode_info_ns_overwrites_progid :
    (get_episode_info sample_env [episode_num_node "dd_progid" "EP00001234.5"]
      episode_info_init).epnum.e_num = 5
    ∧ (get_episode_info sample_env
        [episode_num_node "dd_progid" "EP00001234.5", episode_num_node "xmltv_ns" "1.2.3"]
        episode_info_init).epnum.e_num = 3
    ∧ (get_episode_info sample_env
        [episode_num_node "dd_progid" "EP00001234.5", episode_num_node "xmltv_ns" "1.."]
        episode_info_init).epnum.e_num = 0 := by
  decide

/-- C11 (amended): in `get_episode_info` an element writes only what its own
notation writes.  After any list of elements, one more element leaves the
onscreen text as it was unless it is an onscreen element; it leaves season
number and count, episode count, part number and count as they were unless it
is an xmltv_ns element; and it leaves the episode number as it was unless it
is an xmltv_ns or a dd_progid element (each of the two overwrites it). -/
theorem episode_info_frame (env : xmltv_env) (tags : htsmsg) (f : htsmsg_field)
    (init : episode_info) :
    (episode_num_system f ≠ some "onscreen" →
      (get_episode_info env (tags ++ [f]) init).epnum.text
        = (get_episode_info env tags init).epnum.text)
    ∧ (episode_num_system f ≠ some "xmltv_ns" →
      (get_episode_info env (tags ++ [f]) init).epnum.s_num
        = (get_episode_info env tags init).epnum.s_num
      ∧ (get_episode_info env (tags ++ [f]) init).epnum.s_cnt
        = (get_episode_info env tags init).epnum.s_cnt
      ∧ (get_episode_info env (tags ++ [f]) init).epnum.e_cnt
        = (get_episode_info env tags init).epnum.e_cnt
      ∧ (get_episode_info env (tags ++ [f]) init).epnum.p_num
        = (get_episode_info env tags init).epnum.p_num
      ∧ (get_episode_info env (tags ++ [f]) init).epnum.p_cnt
        = (get_episode_info env tags init).epnum.p_cnt)
    ∧ (episode_num_system f ≠ some "xmltv_ns" → episode_num_system f ≠ some "dd_progid" →
      (get_episode_info env (tags ++ [f]) init).epnum.e_num
        = (get_episode_info env tags init).epnum.e_num) := by
  rw [get_episode_info_snoc]
  exact episode_info_step_frame env (get_episode_info env tags init) f

/-- C11 (amended), at an xmltv_ns element followed by an onscreen element and
at an xmltv_ns element followed by a dd_progid element. -/
theorem episode_info_frame_witness :
    ((get_episode_info sample_env
        ([episode_num_node "xmltv_ns" "1.2.3"] ++ [episode_num_node "dd_progid" "EP00001234.5"])
        episode_info_init).epnum.text = none
      ∧ (get_episode_info sample_env
        ([episode_num_node "xmltv_ns" "1.2.3"] ++ [episode_num_node "dd_progid" "EP00001234.5"])
        episode_info_init).epnum.s_num = 2)
    ∧ (get_episode_info sample_env
        ([episode_num_node "xmltv_ns" "1.2.3"] ++ [episode_num_node "onscreen" "S2 E3"])
        episode_info_init).epnum.e_num = 3 :=
  ⟨⟨(episode_info_frame sample_env [episode_num_node "xmltv_ns" "1.2.3"]
        (episode_num_node "dd_progid" "EP00001234.5") episode_info_init).1 (by decide),
    ((episode_info_frame sample_env [episode_num_node "xmltv_ns" "1.2.3"]
        (episode_num_node "dd_progid" "EP00001234.5") episode_info_init).2.1 (by decide)).1⟩,
   (episode_info_frame sample_env [episode_num_node "xmltv_ns" "1.2.3"]
      (episode_num_node "onscreen" "S2 E3") episode_info_init).2.2 (by decide) (by decide)⟩

/-- C17: a channel element without id attribute or without tags container
makes `_xmltv_parse_channel` return 0 and leave the whole state as it was.
For any other channel element `channels.total` grows by one; when the id was
not known a feed channel is created, `channels.created` and
`channels.modified` grow by one and the new channel is marked updated; when
the id was known `channels.created` stays, and `channels.modified` grows by
one and the channel is marked updated exactly when the name setter or the icon
setter reports a change (the result is that report), the feed channels being
left as they were otherwise.  The guide database is never touched. -/
theorem parse_channel_ingestion (st : xmltv_state) (body : htsmsg) :
    ((htsmsg_get_map body "attrib").bind (fun a => htsmsg_get_str a "id") = none
        ∨ htsmsg_get_map body "tags" = none →
      _xmltv_parse_channel (some body) st = (false, st))
    ∧ (∀ attribs id tags,
        htsmsg_get_map body "attrib" = some attribs →
        htsmsg_get_str attribs "id" = some id →
        htsmsg_get_map body "tags" = some tags →
        find_index (fun c => c.id = id) st.chans = none →
        (_xmltv_parse_channel (some body) st).1 = true
        ∧ (_xmltv_parse_channel (some body) st).2.db = st.db
        ∧ (_xmltv_parse_channel (some body) st).2.stats = channel_stats_after st.stats true true
        ∧ (_xmltv_parse_channel (some body) st).2.chans.get? st.chans.length
            = some (channel_merged
                { id := id, name := none, icon := none, channels := [], updated := false }
                (channel_node_name tags) (channel_node_icon tags)))
    ∧ (∀ attribs id tags i,
        htsmsg_get_map body "attrib" = some attribs →
        htsmsg_get_str attribs "id" = some id →
        htsmsg_get_map body "tags" = some tags →
        find_index (fun c => c.id = id) st.chans = some i →
        ∃ c, st.chans.get? i = some c
          ∧ (_xmltv_parse_channel (some body) st).1
              = (setter_reports c.name (channel_node_name tags)
                  || setter_reports c.icon (channel_node_icon tags))
          ∧ (_xmltv_parse_channel (some body) st).2.db = st.db
          ∧ (_xmltv_parse_channel (some body) st).2.stats
              = channel_stats_after st.stats false (_xmltv_parse_channel (some body) st).1
          ∧ ((_xmltv_parse_channel (some body) st).1 = true →
              (_xmltv_parse_channel (some body) st).2.chans.get? i
                = some (channel_merged c (channel_node_name tags) (channel_node_icon tags)))
          ∧ ((_xmltv_parse_channel (some body) st).1 = false →
              (_xmltv_parse_channel (some body) st).2.chans = st.chans)) := by
  refine ⟨parse_channel_dropped st body, ?_, ?_⟩
  · intro attribs id tags ha hi ht hk
    have hf : _xmltv_channel_find id true st.chans
        = (some st.chans.length, true,
            st.chans ++ [{ id := id, name := none, icon := none, channels := [],
                           updated := false }]) := by
      unfold _xmltv_channel_find
      rw [hk]
      rfl
    obtain ⟨h1, h2, h3, h4, _⟩ := parse_channel_found st body attribs tags id _ _ true
      { id := id, name := none, icon := none, channels := [], updated := false }
      ha hi ht hf (by simp)
    rw [Bool.true_or, Bool.true_or] at h1
    refine ⟨h1, h2, ?_, h4 h1⟩
    rw [h3, h1]
  · intro attribs id tags i ha hi ht hk
    obtain ⟨c, hc, _⟩ := find_index_some _ _ _ hk
    have hf : _xmltv_channel_find id true st.chans = (some i, false, st.chans) := by
      unfold _xmltv_channel_find
      rw [hk]
    obtain ⟨h1, h2, h3, h4, h5⟩ := parse_channel_found st body attribs tags id _ _ false c
      ha hi ht hf hc
    rw [Bool.false_or] at h1
    exact ⟨c, hc, h1, h2, h3, h4, h5⟩

/-- C17, at a channel element without tags container, at one with the new id
`c2`, and at one with the known id `c1` that gives it a name. -/
theorem parse_channel_ingestion_witness :
    _xmltv_parse_channel (some [.map "attrib" [.str "id" "c2"]]) sample_state
      = (false, sample_state)
    ∧ (_xmltv_parse_channel (some (channel_body "c2" "Two")) sample_state).2.stats.channels
        = { total := 1, created := 1, modified := 1 }
    ∧ (∃ c, sample_state.chans.get? 0 = some c
        ∧ (_xmltv_parse_channel (some (channel_body "c1" "One")) sample_state).2.stats
            = channel_stats_after sample_state.stats false
                (_xmltv_parse_channel (some (channel_body "c1" "One")) sample_state).1) :=
  ⟨(parse_channel_ingestion sample_state [.map "attrib" [.str "id" "c2"]]).1 (Or.inr rfl),
   congrArg epggrab_stats.channels
     ((parse_channel_ingestion sample_state (channel_body "c2" "Two")).2.1
       [.str "id" "c2"] "c2" [.map "display-name" [.str "cdata" "Two"]]
       rfl rfl rfl (by decide)).2.2.1,
   ((parse_channel_ingestion sample_state (channel_body "c1" "One")).2.2
       [.str "id" "c1"] "c1" [.map "display-name" [.str "cdata" "One"]] 0
       rfl rfl rfl (by decide)).imp (fun _ h => ⟨h.1, h.2.2.2.1⟩)⟩

/-- C15 (evaluated at a failing input): a first call creates broadcast and
episode with the description "first text"; a second call for the same window
brings the description "second text" and nothing else.  The description
setter of the broadcast reports the change, yet `broadcasts.modified` stays at
1; the episode is neither created nor changed, yet `episodes.modified` goes
from 1 to 2 (and `episodes.created` as well): the report is kept in `save3`,
the flag of the episode. -/
theorem programme_tags_description_counted_on_episode :
    (tags_twice sample_env (described_tags "first text") (described_tags "second text")
        sample_state).map
      (fun r => (r.1.stats.broadcasts, r.2.stats.broadcasts, r.1.stats.episodes,
        r.2.stats.episodes, decide (r.1.db.episodes = r.2.db.episodes),
        r.2.db.broadcasts.map (fun b => b.description)))
      = some ({ total := 1, created := 1, modified := 1 },
              { total := 2, created := 1, modified := 1 },
              { total := 1, created := 1, modified := 1 },
              { total := 2, created := 2, modified := 2 },
              true,
              [some [(none, some "second text")]]) := by
  rfl

/-- C18: a lineup entry whose section field (the last one, if it has several)
is "Radio channels" is skipped by the loop body of `xmltv_parse_lineups`,
whatever its other fields, the toggles and the registries: the iteration ends
with the state as it was, so that no lookup is recorded and no channel is
updated, and with the counter of changed entries as it was.  The fields are
such that the collection is defined and the service id is not null. -/
theorem lineup_radio_entry_skipped (env : lineup_env) (vars v : lineup_vars)
    (st : lineup_state) (n : Nat) (sub fs : htsmsg)
    (htags : htsmsg_get_map sub "tags" = some fs)
    (hradio : (entry_values "section" fs).getLast? = some (some "Radio channels"))
    (hcollect : fs.foldlM lineup_field_step vars = some v)
    (hsid : v.chan_service_id ≠ none) :
    lineup_entry_step env (vars, st, n) (.map "lineup-entry" sub) = some (v, st, n) := by
  rw [lineup_entry_step_collected env vars v st n sub fs htags hcollect]
  have hs : v.lineup_section = some "Radio channels" := by
    rw [(lineup_fields_effect fs vars v hcollect).1, hradio]; rfl
  cases hv : v.chan_service_id with
  | none => exact absurd hv hsid
  | some sid =>
    unfold lineup_apply
    simp only [hv, hs, if_true, Option.map_some']

/-- C18, at a radio entry that has an STB preset and the service id 4164, with
all toggles enabled. -/
theorem lineup_radio_entry_skipped_witness :
    lineup_entry_step sample_lineup_env (lineup_vars_init, sample_lineup_state, 0)
        (lineup_node "lineup-entry" sample_radio_fields)
      = some ({ chan_number := some "1", chan_name := some "BBC One", logo := some "",
                chan_service_id := some "4164", lineup_section := some "Radio channels",
                stb_preset := some "1" }, sample_lineup_state, 0) :=
  lineup_radio_entry_skipped sample_lineup_env lineup_vars_init _ sample_lineup_state 0
    [.map "tags" sample_radio_fields] sample_radio_fields rfl rfl rfl (by decide)

/-- C19 (evaluated at a failing input): the entry of the station "Sky One"
with the STB preset 106 and no section field is resolved by its name and
counted when it stands alone; after a radio entry it is skipped, without any
lookup and without being counted: the section of the radio entry is still in
the variable `lineup_section`. -/
theorem lineup_stb_entry_skipped_after_radio :
    (xmltv_parse_lineups sample_lineup_env
        (lineup_doc [lineup_node "lineup-entry" sample_stb_bare_fields])
        sample_lineup_state).map
        (fun r => (r.state.lookups, r.update_counter,
          r.state.channels.map (fun c => c.ch_number)))
      = some ([.by_name (some "Sky One")], 1, [106, 0])
    ∧ (xmltv_parse_lineups sample_lineup_env
        (lineup_doc [lineup_node "lineup-entry" sample_radio_fields,
          lineup_node "lineup-entry" sample_stb_bare_fields]) sample_lineup_state).map
        (fun r => (r.state.lookups, r.update_counter,
          r.state.channels.map (fun c => c.ch_number)))
      = some ([], 0, [0, 0]) := by
  constructor <;> rfl

/-- C20 (evaluated at failing inputs): the variables of `xmltv_parse_lineups` keep their
values from one child of the lineup to the next.  With the sample registries,
the entry with service id 4164 and no STB preset is resolved by its service id
when it stands alone, and by its display name, without any lookup by service
id, when it follows an entry with an STB preset; an entry with a station name
only, after the entry with the service id, is resolved by that service id and
counted; and a child that is not a lineup entry, after the entry with the STB
preset, repeats the lookup of that entry and is counted. -/
theorem lineup_classification_depends_on_previous :
    (xmltv_parse_lineups sample_lineup_env
        (lineup_doc [lineup_node "lineup-entry" sample_dvb_fields]) sample_lineup_state).map
        (fun r => (r.state.lookups, r.update_counter))
      = some ([.by_service 4164], 1)
    ∧ (xmltv_parse_lineups sample_lineup_env
        (lineup_doc [lineup_node "lineup-entry" sample_stb_fields,
          lineup_node "lineup-entry" sample_dvb_fields]) sample_lineup_state).map
        (fun r => (r.state.lookups, r.update_counter))
      = some ([.by_name (some "Sky One"), .by_name (some "BBC One")], 2)
    ∧ (xmltv_parse_lineups sample_lineup_env
        (lineup_doc [lineup_node "lineup-entry" sample_dvb_fields,
          lineup_node "lineup-entry" sample_plain_fields]) sample_lineup_state).map
        (fun r => (r.state.lookups, r.update_counter))
      = some ([.by_service 4164, .by_service 4164], 2)
    ∧ (xmltv_parse_lineups sample_lineup_env
        (lineup_doc [lineup_node "lineup-entry" sample_stb_fields,
          lineup_leaf "comment" "end of lineup"]) sample_lineup_state).map
        (fun r => (r.state.lookups, r.update_counter))
      = some ([.by_name (some "Sky One"), .by_name (some "Sky One")], 2) := by
  refine ⟨?_, ?_, ?_, ?_⟩ <;> rfl

/-- C21 (evaluated at a failing input): the entry of the station "BBC Two" has
the service id 4164, the section "Entertainment" and no STB preset; an enabled
primary service 4164 mapped to a local channel exists and all toggles are
enabled.  When the entry stands alone it is resolved by its service id, the
feed channel `xmltv-4164` is updated and the entry is counted.  After an entry
with an STB preset it is looked up by its display name, which no local channel
has: no lookup by service id is made, no feed channel is updated, and it is
not counted (the count 1 is the entry before it). -/
theorem lineup_standard_entry_by_name_after_stb :
    (xmltv_parse_lineups sample_lineup_env
        (lineup_doc [lineup_node "lineup-entry" sample_other_dvb_fields])
        sample_lineup_state).map
        (fun r => (r.state.lookups, r.update_counter,
          r.state.chans.map (fun c => (c.id, c.name, c.number, c.channel))))
      = some ([.by_service 4164], 1, [("xmltv-4164", some "BBC Two", 2, some 2)])
    ∧ (xmltv_parse_lineups sample_lineup_env
        (lineup_doc [lineup_node "lineup-entry" sample_stb_fields,
          lineup_node "lineup-entry" sample_other_dvb_fields]) sample_lineup_state).map
        (fun r => (r.state.lookups, r.update_counter,
          r.state.chans.map (fun c => (c.id, c.name, c.number, c.channel))))
      = some ([.by_name (some "Sky One"), .by_name (some "BBC Two")], 1, []) := by
  constructor <;> rfl

/-- C22 (counterexample): on the lineup with the one entry of service id 4164
one entry is counted as changed, and the result of `xmltv_parse_lineups`, and
of `_xmltv_parse` on the document, is 0. -/
theorem parse_lineups_result_not_count :
    (xmltv_parse_lineups sample_lineup_env
        (lineup_doc [lineup_node "lineup-entry" sample_dvb_fields]) sample_lineup_state).map
        (fun r => (r.ret, r.update_counter))
      = some (false, 1)
    ∧ (_xmltv_parse sample_env sample_lineup_env
        (lineups_document [lineup_node "lineup-entry" sample_dvb_fields])
        sample_parse_state).map (fun r => r.1)
      = some false := by
  constructor <;> rfl

/-- C22 (amended): the result of `xmltv_parse_lineups` is 0 for every lineup
document: without lineup container it returns 0 at once; with one, whenever
the loop over its children is defined, it returns 0 with the state that the
loop leaves, the number of entries counted as changed being the value of
`update_counter`, which is only written to the log.  `_xmltv_parse` returns
that 0 for a document without `tv` element and with `xmltv-lineups` element. -/
theorem parse_lineups_returns_zero (lenv : lineup_env) (body : htsmsg) (st : lineup_state) :
    (((htsmsg_get_map body "tags").bind (fun t => htsmsg_get_map t "xmltv-lineup")).bind
        (fun t => htsmsg_get_map t "tags") = none →
      xmltv_parse_lineups lenv body st = some { ret := false, state := st, update_counter := 0 })
    ∧ (∀ lineups acc,
        ((htsmsg_get_map body "tags").bind (fun t => htsmsg_get_map t "xmltv-lineup")).bind
          (fun t => htsmsg_get_map t "tags") = some lineups →
        lineups_foreach lenv lineups (lineup_vars_init, st, 0) = some acc →
        xmltv_parse_lineups lenv body st =
          some { ret := false, state := acc.2.1, update_counter := acc.2.2 })
    ∧ (∀ (env : xmltv_env) (data tags : htsmsg) (ps : parse_state) (r : lineup_result),
        htsmsg_get_map data "tags" = some tags → htsmsg_get_map tags "tv" = none →
        htsmsg_get_map tags "xmltv-lineups" = some body →
        st = { channels := ps.channels, chans := ps.st.chans, lookups := ps.lookups } →
        xmltv_parse_lineups lenv body st = some r →
        _xmltv_parse env lenv data ps =
          some (false, { st := { ps.st with chans := r.state.chans },
                         channels := r.state.channels, lookups := r.state.lookups })) := by
  refine ⟨?_, ?_, ?_⟩
  · intro h
    unfold xmltv_parse_lineups
    simp only [h]
  · intro lineups acc h hl
    unfold xmltv_parse_lineups
    simp only [h, hl, Option.map_some']
  · intro env data tags ps r h1 h2 h3 hst hr
    subst hst
    have hret := parse_lineups_ret lenv body _ r hr
    unfold _xmltv_parse
    simp only [h1, h2, h3, hr, Option.map_some', hret]

/-- C22 (amended), at a document without lineup container and at the lineup
with the one entry of service id 4164. -/
theorem parse_lineups_returns_zero_witness :
    xmltv_parse_lineups sample_lineup_env [] sample_lineup_state
      = some { ret := false, state := sample_lineup_state, update_counter := 0 }
    ∧ xmltv_parse_lineups sample_lineup_env
        (lineup_doc [lineup_node "lineup-entry" sample_dvb_fields]) sample_lineup_state
      = some { ret := false,
               state := standard_result sample_lineup_env
                 { chan_number := some "1", chan_name := some "BBC One", logo := some "",
                   chan_service_id := some "4164", lineup_section := some "Entertainment",
                   stb_preset := none } 4164 sample_lineup_state,
               update_counter := 1 } :=
  ⟨(parse_lineups_returns_zero sample_lineup_env [] sample_lineup_state).1 rfl,
   (parse_lineups_returns_zero sample_lineup_env
      (lineup_doc [lineup_node "lineup-entry" sample_dvb_fields]) sample_lineup_state).2.1
      [lineup_node "lineup-entry" sample_dvb_fields]
      ({ chan_number := some "1", chan_name := some "BBC One", logo := some "",
         chan_service_id := some "4164", lineup_section := some "Entertainment",
         stb_preset := none },
       standard_result sample_lineup_env
         { chan_number := some "1", chan_name := some "BBC One", logo := some "",
           chan_service_id := some "4164", lineup_section := some "Entertainment",
           stb_preset := none } 4164 sample_lineup_state, 1)
      rfl rfl⟩

/-- C24 (evaluated at failing inputs): for the module id "xmltv" and the
identifier "EP00001234.5" of length 12 the backward scan reads the identifier
at the indices 29 down to 10, seventeen of them behind the terminator at index
12.  For every module id and every identifier of at most 125 characters that
begins with "EP" the first read is at the length of the URI, an index larger
than the length of the identifier. -/
theorem dd_progid_scan_reads_past_terminator :
    dd_progid_reads [] "EP00001234.5".toList
        (dd_progid_buf "xmltv".toList "EP00001234.5".toList).length
      = [29, 28, 27, 26, 25, 24, 23, 22, 21, 20, 19, 18, 17, 16, 15, 14, 13, 12, 11, 10]
    ∧ "EP00001234.5".toList.length = 12
    ∧ ∀ (oob mod_id rest : List Char),
        (dd_progid_reads oob ('E' :: 'P' :: rest.take 123)
            (dd_progid_buf mod_id ('E' :: 'P' :: rest.take 123)).length).head?
          = some (dd_progid_buf mod_id ('E' :: 'P' :: rest.take 123)).length
        ∧ ('E' :: 'P' :: rest.take 123).length
          < (dd_progid_buf mod_id ('E' :: 'P' :: rest.take 123)).length := by
  refine ⟨by decide, by decide, ?_⟩
  intro oob mod_id rest
  have hlen : ('E' :: 'P' :: rest.take 123).length
      < (dd_progid_buf mod_id ('E' :: 'P' :: rest.take 123)).length := by
    have h11 : "ddprogid://".toList.length = 11 := by decide
    simp only [dd_progid_buf, List.length_take, List.length_append, List.length_cons, h11]
    omega
  refine ⟨?_, hlen⟩
  cases hb : (dd_progid_buf mod_id ('E' :: 'P' :: rest.take 123)).length with
  | zero => rw [hb] at hlen; exact absurd hlen (Nat.not_lt_zero _)
  | succ e => rfl

/-- C25 (evaluated at a failing input): a first call creates broadcast and
episode from the description "first text" and the title "News"; a second call
for the same window with the description "second text" and the same title
creates no episode (the episodes are as they were, one in number), and
`episodes.created` goes from 1 to 2.  A second call with the description
"first text" leaves it at 1. -/
theorem programme_tags_created_counts_description :
    (tags_twice sample_env (titled_tags "first text" "News") (titled_tags "second text" "News")
        sample_state).map
      (fun r => (r.1.stats.episodes.created, r.2.stats.episodes.created,
        r.1.db.episodes.length, decide (r.2.db.episodes = r.1.db.episodes)))
      = some (1, 2, 1, true)
    ∧ (tags_twice sample_env (titled_tags "first text" "News") (titled_tags "first text" "News")
        sample_state).map
      (fun r => (r.1.stats.episodes.created, r.2.stats.episodes.created,
        r.1.db.episodes.length, decide (r.2.db.episodes = r.1.db.episodes)))
      = some (1, 1, 1, true) := by
  constructor <;> rfl
end Xmltv
